import Mathlib

/-!
# Fused multi-head attention dispatch and layout layer (hip_fmha)

A shallow embedding of the parameter-marshalling code of
`xformers/csrc/attention/hip_fmha`: descriptor builders, per-sequence length
and offset computations, the mask/bias dispatchers and the MQA/GQA gradient
reduction, followed by theorems about them.

Conventions.
* C++ `int` / `ck::index_t` values are `Int`; where the code subtracts two
  32-bit values the result is wrapped with `wrapInt32`.
* `size_t` values are `Int` reduced modulo `2 ^ 64` with `wrapSizeT`.
* `long_index_t` (64-bit) products of two 32-bit values cannot overflow and
  are kept as exact `Int` products.
* An out-of-bounds array read has no defined result; it is `none`, and where
  it happens inside the backward binding the call does not go on (it ends in
  an error without further device work).
* Floating-point fields (`scale`, `dropout_prob`) take no part in any
  address or dispatch computation and are left out of the records.
* Device work, once issued, is taken to succeed: an allocation does not run
  out of memory and a launched kernel does not fail.
* The backward binding `efficient_attention_backward_ck` is an `Outcome`: the
  device work it issues, in order (`Effect`: allocation, zero-fill, workspace
  allocation, kernel launch, reduction), and its result or the error it
  raised. Host-side checks issue no device work. A tensor made during the call
  is a `GradTensor`: metadata, the allocation holding it and its offset there.
* What the call meets outside its arguments is part of `BackwardArgs`: the
  environment variable, the answers of the vendored device op, and the
  indeterminate contents of the default-initialised parameter records.
-/

namespace Fmha

/-! ## Machine integers -/

/-- Two's-complement reduction of an integer to the `int32_t` range. -/
def wrapInt32 (x : Int) : Int := (x + 2 ^ 31) % 2 ^ 32 - 2 ^ 31

/-- Reduction of an integer to the `size_t` range (64-bit unsigned). -/
def wrapSizeT (x : Int) : Int := x % 2 ^ 64

/-- The value is a non-negative `int32_t`. -/
def IsNonnegInt32 (x : Int) : Prop := 0 ≤ x ∧ x < 2 ^ 31

instance (x : Int) : Decidable (IsNonnegInt32 x) := by
  unfold IsNonnegInt32; infer_instance

/-! ## Tensor descriptors -/

/-- Linear offset addressed by a (lengths, strides) descriptor at an index
tuple: the sum of index times stride over the axes. -/
def descOffset (idx strides : List Int) : Int :=
  (List.zipWith (fun i s => i * s) idx strides).sum

/-! ## Batched inference: `ck_fmha_batched_infer.h` -/

/-- The fields of `BatchedForwardParams` read by the batched descriptor
builder and the batched dispatchers. The stride arrays are
`std::array<int, 4>`. -/
structure BatchedForwardParams where
  B : Int
  M : Int
  N : Int
  Hq : Int
  Hkv : Int
  K : Int
  Kv : Int
  q_strides : Fin 4 → Int
  k_strides : Fin 4 → Int
  v_strides : Fin 4 → Int
  out_strides : Fin 4 → Int
  attn_bias_strides : Fin 4 → Int
  has_attn_bias : Bool
  custom_mask_type : Int

/-- The length/stride vectors built at the head of
`batched_infer_masktype_attnbias_dispatched::RunWithDeviceOp`. -/
structure BatchedInferDescs where
  a_gs_ms_ks_lengths : List Int
  a_gs_ms_ks_strides : List Int
  b0_gs_ns_ks_lengths : List Int
  b0_gs_ns_ks_strides : List Int
  b1_gs_os_ns_lengths : List Int
  b1_gs_os_ns_strides : List Int
  c_gs_ms_os_lengths : List Int
  c_gs_ms_os_strides : List Int
  lse_gs_ms_lengths : List Int
  d_gs_ms_ns_lengths : List Int
  d_gs_ms_ns_strides : List Int

/-- Descriptor construction of
`batched_infer_masktype_attnbias_dispatched<_, _, has_attn_bias>::RunWithDeviceOp`
(lines 249-283). -/
def batched_infer_RunWithDeviceOp_descs (has_attn_bias : Bool)
    (param : BatchedForwardParams) : BatchedInferDescs :=
  { a_gs_ms_ks_lengths := [param.B, param.Hq, param.M, param.K]
    a_gs_ms_ks_strides :=
      [param.q_strides 0, param.q_strides 2, param.q_strides 1, param.q_strides 3]
    b0_gs_ns_ks_lengths := [param.B, param.Hkv, param.N, param.K]
    b0_gs_ns_ks_strides :=
      [param.k_strides 0, param.k_strides 2, param.k_strides 1, param.k_strides 3]
    b1_gs_os_ns_lengths := [param.B, param.Hkv, param.Kv, param.N]
    b1_gs_os_ns_strides :=
      [param.v_strides 0, param.v_strides 2, param.v_strides 3, param.v_strides 1]
    c_gs_ms_os_lengths := [param.B, param.Hq, param.M, param.Kv]
    c_gs_ms_os_strides :=
      [param.out_strides 0, param.out_strides 2, param.out_strides 1, param.out_strides 3]
    lse_gs_ms_lengths := [param.B, param.Hq, param.M]
    d_gs_ms_ns_lengths :=
      if has_attn_bias then [param.B, param.Hq, param.M, param.N] else [1, 1, 1, 1]
    d_gs_ms_ns_strides :=
      if has_attn_bias then
        [param.attn_bias_strides 0, param.attn_bias_strides 1,
         param.attn_bias_strides 2, param.attn_bias_strides 3]
      else [0, 0, 0, 0] }

/-! ## Legacy grouped forward / inference: `ck_fmha_grouped_forward.h`, `ck_fmha_grouped_infer.h` -/

/-- The fields of `GroupedForwardParams` read by the grouped descriptor
builders and by the tile-pipeline launcher. The q/k/v/out stride arrays are
`std::array<int, 3>` (sequence, head, feature); the `host_*` members are
`std::vector<int>`. `num_heads` is the head count read by
`ck_fmha_grouped_infer.h`, `Hq`/`Hkv` those read by
`ck_fmha_grouped_forward.h`. -/
structure GroupedForwardParams where
  num_batches : Int
  M : Int
  N : Int
  Hq : Int
  Hkv : Int
  num_heads : Int
  K : Int
  Kv : Int
  max_seqlen_q : Int
  host_seqstart_q : List Int
  host_seqstart_k : List Int
  host_seqlen_k : List Int
  q_strides : Fin 3 → Int
  k_strides : Fin 3 → Int
  v_strides : Fin 3 → Int
  out_strides : Fin 3 → Int
  attn_bias_strides : Fin 4 → Int
  has_attn_bias : Bool
  custom_mask_type : Int
  window_size : Int

/-- Number of iterations of `for(std::size_t i = 0; i < num_batches; i++)`:
the `int` bound is converted to `size_t` for the comparison. -/
def sizeTLoopCount (num_batches : Int) : Nat := (wrapSizeT num_batches).toNat

/-- Sequence lengths `(M, N)` computed for sequence `i` by
`grouped_forward_masktype_attnbias_dispatched::RunWithDeviceOp`
(`ck_fmha_grouped_forward.h` lines 259-262). -/
def grouped_forward_seqlens (param : GroupedForwardParams) (i : Nat) : Option (Int × Int) := do
  let q_hi ← param.host_seqstart_q[i + 1]?
  let q_lo ← param.host_seqstart_q[i]?
  let M := wrapInt32 (q_hi - q_lo)
  let N ←
    if param.host_seqlen_k.isEmpty then do
      let k_hi ← param.host_seqstart_k[i + 1]?
      let k_lo ← param.host_seqstart_k[i]?
      pure (wrapInt32 (k_hi - k_lo))
    else param.host_seqlen_k[i]?
  pure (M, N)

/-- Sequence lengths `(M, N)` computed for sequence `i` by
`grouped_infer_masktype_attnbias_dispatched::RunWithDeviceOp`
(`ck_fmha_grouped_infer.h` lines 169-172). -/
def grouped_infer_seqlens (param : GroupedForwardParams) (i : Nat) : Option (Int × Int) := do
  let q_hi ← param.host_seqstart_q[i + 1]?
  let q_lo ← param.host_seqstart_q[i]?
  let M := wrapInt32 (q_hi - q_lo)
  let N ←
    if param.host_seqlen_k.isEmpty then do
      let k_hi ← param.host_seqstart_k[i + 1]?
      let k_lo ← param.host_seqstart_k[i]?
      pure (wrapInt32 (k_hi - k_lo))
    else param.host_seqlen_k[i]?
  pure (M, N)

/-- One entry of `problem_descs` in the legacy grouped forward path. -/
structure GroupedForwardProblemDesc where
  a_gs_ms_ks_lengths : List Int
  a_gs_ms_ks_strides : List Int
  b0_gs_ns_ks_lengths : List Int
  b0_gs_ns_ks_strides : List Int
  b1_gs_os_ns_lengths : List Int
  b1_gs_os_ns_strides : List Int
  c_gs_ms_os_lengths : List Int
  c_gs_ms_os_strides : List Int
  z_gs_ms_ns_lengths : List Int
  z_gs_ms_ns_strides : List Int
  lse_gs_ms_lengths : List Int
  lse_gs_ms_strides : List Int
  d_gs_ms_ns_lengths : List Int
  d_gs_ms_ns_strides : List Int

/-- Body of the descriptor loop of
`grouped_forward_masktype_attnbias_dispatched<_, _, has_attn_bias>::RunWithDeviceOp`
(`ck_fmha_grouped_forward.h` lines 257-321). -/
def grouped_forward_problem_desc (has_attn_bias : Bool) (param : GroupedForwardParams)
    (i : Nat) : Option GroupedForwardProblemDesc := do
  let (M, N) ← grouped_forward_seqlens param i
  let K := param.K
  let Kv := param.Kv
  let G1q := param.Hq
  let G1kv := param.Hkv
  pure
    { a_gs_ms_ks_lengths := [1, G1q, M, K]
      a_gs_ms_ks_strides := [0, param.q_strides 1, param.q_strides 0, param.q_strides 2]
      b0_gs_ns_ks_lengths := [1, G1kv, N, K]
      b0_gs_ns_ks_strides := [0, param.k_strides 1, param.k_strides 0, param.k_strides 2]
      b1_gs_os_ns_lengths := [1, G1kv, Kv, N]
      b1_gs_os_ns_strides := [0, param.v_strides 1, param.v_strides 2, param.v_strides 0]
      c_gs_ms_os_lengths := [1, G1q, M, Kv]
      c_gs_ms_os_strides := [0, param.out_strides 1, param.out_strides 0, param.out_strides 2]
      z_gs_ms_ns_lengths := [1, 1, 1, 1]
      z_gs_ms_ns_strides := [0, 0, 0, 0]
      lse_gs_ms_lengths := [1, G1q, M]
      lse_gs_ms_strides := [0, param.max_seqlen_q, 1]
      d_gs_ms_ns_lengths := if has_attn_bias then [1, G1q, M, N] else [1, 1, 1, 1]
      d_gs_ms_ns_strides :=
        if has_attn_bias then
          [0, param.attn_bias_strides 0, param.attn_bias_strides 1, param.attn_bias_strides 2]
        else [0, 0, 0, 0] }

/-- The `problem_descs` vector built by the legacy grouped forward path. -/
def grouped_forward_problem_descs (has_attn_bias : Bool) (param : GroupedForwardParams) :
    Option (List GroupedForwardProblemDesc) :=
  (List.range (sizeTLoopCount param.num_batches)).mapM
    (grouped_forward_problem_desc has_attn_bias param)

/-- One entry of `problem_descs` in the legacy grouped inference path. -/
structure GroupedInferProblemDesc where
  a_gs_ms_ks_lengths : List Int
  a_gs_ms_ks_strides : List Int
  b0_gs_ns_ks_lengths : List Int
  b0_gs_ns_ks_strides : List Int
  b1_gs_os_ns_lengths : List Int
  b1_gs_os_ns_strides : List Int
  c_gs_ms_os_lengths : List Int
  c_gs_ms_os_strides : List Int
  d_gs_ms_ns_lengths : List Int
  d_gs_ms_ns_strides : List Int

/-- Body of the descriptor loop of
`grouped_infer_masktype_attnbias_dispatched<_, _, has_attn_bias>::RunWithDeviceOp`
(`ck_fmha_grouped_infer.h` lines 168-223). -/
def grouped_infer_problem_desc (has_attn_bias : Bool) (param : GroupedForwardParams)
    (i : Nat) : Option GroupedInferProblemDesc := do
  let (M, N) ← grouped_infer_seqlens param i
  let K := param.K
  let Kv := param.Kv
  let G1 := param.num_heads
  pure
    { a_gs_ms_ks_lengths := [1, G1, M, K]
      a_gs_ms_ks_strides := [0, param.q_strides 1, param.q_strides 0, param.q_strides 2]
      b0_gs_ns_ks_lengths := [1, G1, N, K]
      b0_gs_ns_ks_strides := [0, param.k_strides 1, param.k_strides 0, param.k_strides 2]
      b1_gs_os_ns_lengths := [1, G1, Kv, N]
      b1_gs_os_ns_strides := [0, param.v_strides 1, param.v_strides 2, param.v_strides 0]
      c_gs_ms_os_lengths := [1, G1, M, Kv]
      c_gs_ms_os_strides := [0, param.out_strides 1, param.out_strides 0, param.out_strides 2]
      d_gs_ms_ns_lengths := if has_attn_bias then [1, G1, M, N] else [1, 1, 1, 1]
      d_gs_ms_ns_strides :=
        if has_attn_bias then
          [0, param.attn_bias_strides 0, param.attn_bias_strides 1, param.attn_bias_strides 2]
        else [0, 0, 0, 0] }

/-- The `problem_descs` vector built by the legacy grouped inference path. -/
def grouped_infer_problem_descs (has_attn_bias : Bool) (param : GroupedForwardParams) :
    Option (List GroupedInferProblemDesc) :=
  (List.range (sizeTLoopCount param.num_batches)).mapM
    (grouped_infer_problem_desc has_attn_bias param)

/-! ## Tile kernel, group mode: `ck_tiled_fmha_forward_kernel.h` -/

/-- The `VLayout` template tag of the pipeline. -/
inductive VLayout where
  | RowMajor
  | ColumnMajor
  deriving DecidableEq, Repr

/-- `FmhaFwdKernel::GroupModeKargs` (with the bias and mask bases flattened
in). The three `int32_t` device arrays are lists; a null `seqlen_k_ptr` is
`none`. Data pointers are symbolic: every address below is an element offset
from the corresponding `kargs.*_ptr`. -/
structure GroupModeKargs where
  seqlen_q : Int
  seqlen_k : Int
  hdim_q : Int
  hdim_v : Int
  nhead_ratio_qk : Int
  stride_q : Int
  stride_k : Int
  stride_v : Int
  stride_o : Int
  nhead_stride_q : Int
  nhead_stride_k : Int
  nhead_stride_v : Int
  nhead_stride_o : Int
  stride_bias : Int
  nhead_stride_bias : Int
  mask_type : Int
  window_size : Int
  seqstart_q_ptr : List Int
  seqstart_k_ptr : List Int
  seqlen_k_ptr : Option (List Int)

/-- The five `long_index_t batch_offset_*` locals of `operator()`. -/
structure BatchOffsets where
  batch_offset_q : Int
  batch_offset_k : Int
  batch_offset_v : Int
  batch_offset_bias : Int
  batch_offset_o : Int
  deriving DecidableEq, Repr

/-- State of a thread block at the end of the `if constexpr(kIsGroupMode)`
branch of `operator()`: the updated kernel arguments, the batch offsets, and
whether the block left through the `return` of line 344. -/
structure GroupPrologue where
  kargs : GroupModeKargs
  off : BatchOffsets
  returned : Bool

/-- The `if constexpr(kIsGroupMode)` branch of `FmhaFwdKernel::operator()`
(lines 310-356) for the block of sequence `i_batch` whose first query row is
`i_m0`. -/
def FmhaFwdKernel_group_prologue (vlayout : VLayout) (kHasBias : Bool)
    (kargs : GroupModeKargs) (i_batch : Nat) (i_m0 : Int) : Option GroupPrologue := do
  let query_start ← kargs.seqstart_q_ptr[i_batch]?
  let key_start ← kargs.seqstart_k_ptr[i_batch]?
  let off : BatchOffsets :=
    { batch_offset_q := query_start * kargs.stride_q
      batch_offset_k := key_start * kargs.stride_k
      batch_offset_v :=
        if vlayout = VLayout.RowMajor then key_start * kargs.stride_v else key_start
      batch_offset_bias :=
        if kHasBias then query_start * kargs.stride_bias + key_start else key_start
      batch_offset_o := query_start * kargs.stride_o }
  let q1 ← kargs.seqstart_q_ptr[i_batch + 1]?
  let q0 ← kargs.seqstart_q_ptr[i_batch + 0]?
  let kargs := { kargs with seqlen_q := wrapInt32 (q1 - q0) }
  if kargs.seqlen_q ≤ i_m0 then
    pure { kargs := kargs, off := off, returned := true }
  else
    match kargs.seqlen_k_ptr with
    | some seqlen_k_ptr => do
      let n ← seqlen_k_ptr[i_batch]?
      pure { kargs := { kargs with seqlen_k := n }, off := off, returned := false }
    | none => do
      let k1 ← kargs.seqstart_k_ptr[i_batch + 1]?
      let k0 ← kargs.seqstart_k_ptr[i_batch + 0]?
      pure { kargs := { kargs with seqlen_k := wrapInt32 (k1 - k0) }, off := off,
             returned := false }

/-- The per-block base pointers of lines 370-382, as element offsets from
`kargs.q_ptr`, `kargs.k_ptr`, `kargs.v_ptr`, `kargs.o_ptr`. The head index
division is C++ integer division. -/
structure BlockPointers where
  q_ptr : Int
  k_ptr : Int
  v_ptr : Int
  o_ptr : Int
  deriving DecidableEq, Repr

/-- Lines 370-382 of `FmhaFwdKernel::operator()`. -/
def FmhaFwdKernel_block_pointers (kargs : GroupModeKargs) (off : BatchOffsets)
    (i_nhead : Int) : BlockPointers :=
  { q_ptr := i_nhead * kargs.nhead_stride_q + off.batch_offset_q
    k_ptr := Int.tdiv i_nhead kargs.nhead_ratio_qk * kargs.nhead_stride_k + off.batch_offset_k
    v_ptr := Int.tdiv i_nhead kargs.nhead_ratio_qk * kargs.nhead_stride_v + off.batch_offset_v
    o_ptr := i_nhead * kargs.nhead_stride_o + off.batch_offset_o }

/-- A view made by `make_naive_tensor_view(ptr, lengths, strides)`: the
element at an index tuple lives at `ptr + sum(index * stride)`. -/
structure NaiveTensorView where
  ptr : Int
  lengths : List Int
  strides : List Int
  deriving DecidableEq, Repr

/-- Address (element offset) of the element of a naive view at `idx`. -/
def NaiveTensorView.elemAddr (v : NaiveTensorView) (idx : List Int) : Int :=
  v.ptr + descOffset idx v.strides

/-- The `q_dram_naive` view of lines 386-391. -/
def FmhaFwdKernel_q_dram_naive (kargs : GroupModeKargs) (p : BlockPointers) : NaiveTensorView :=
  { ptr := p.q_ptr, lengths := [kargs.seqlen_q, kargs.hdim_q], strides := [kargs.stride_q, 1] }

/-! ## Grouped backward descriptor builder: `ck_fmha_grouped_backward.h` -/

/-- A byte-addressed device buffer of the backward call. -/
inductive Buffer where
  | query | key | value | out | grad_out | attn_bias | logsumexp
  | grad_q | grad_k | grad_v | tmp_grad_k | tmp_grad_v | grad_bias
  deriving DecidableEq, Repr

/-- A pointer into a buffer: the buffer's `data_ptr()` plus a `size_t` byte
offset. -/
structure Ptr where
  buffer : Buffer
  byteOffset : Int
  deriving DecidableEq, Repr

/-- The fields of `GroupedBackwardParams`. The q/k/v/out and temporary
gradient stride arrays are `std::array<int, 3>`; `num_heads`, `randvals_strides`
are read by `ck_fmha_grouped_backward.h`. A null entry of a pointer vector is
`none`. -/
structure GroupedBackwardParams where
  num_batches : Int
  M : Int
  N : Int
  Hq : Int
  Hkv : Int
  num_heads : Int
  K : Int
  Kv : Int
  max_seqlen_q : Int
  use_fp32_qkv_grad : Bool
  is_mqa_gqa : Bool
  q_strides : Fin 3 → Int
  k_strides : Fin 3 → Int
  v_strides : Fin 3 → Int
  out_strides : Fin 3 → Int
  tmp_grad_k_strides : Fin 3 → Int
  tmp_grad_v_strides : Fin 3 → Int
  attn_bias_strides : Fin 4 → Int
  randvals_strides : Fin 3 → Int
  has_attn_bias : Bool
  bias_has_grad : Bool
  custom_mask_type : Int
  philox_seed : Int
  philox_offset : Int
  host_seqstart_q : List Int
  host_seqstart_k : List Int
  host_seqlen_k : List Int
  q_ptrs : List Ptr
  k_ptrs : List Ptr
  v_ptrs : List Ptr
  out_ptrs : List Ptr
  grad_out_ptrs : List Ptr
  logsumexp_ptrs : List Ptr
  grad_q_ptrs : List Ptr
  grad_k_ptrs : List Ptr
  grad_v_ptrs : List Ptr
  attn_bias_ptrs : List Ptr
  grad_bias_ptrs : List Ptr
  randvals_ptrs : List (Option Ptr)

/-- Sequence lengths `(M, N)` computed for sequence `i` by
`grouped_backward_masktype_attnbias_dispatched`
(`ck_fmha_grouped_backward.h` lines 140-143). The key-length selector tests
`host_seqstart_k.empty()`. -/
def grouped_backward_seqlens (param : GroupedBackwardParams) (i : Nat) : Option (Int × Int) := do
  let q_hi ← param.host_seqstart_q[i + 1]?
  let q_lo ← param.host_seqstart_q[i]?
  let M := wrapInt32 (q_hi - q_lo)
  let N ←
    if param.host_seqstart_k.isEmpty then do
      let k_hi ← param.host_seqstart_k[i + 1]?
      let k_lo ← param.host_seqstart_k[i]?
      pure (wrapInt32 (k_hi - k_lo))
    else param.host_seqlen_k[i]?
  pure (M, N)

/-- One entry of `problem_descs` in the grouped backward path. -/
structure GroupedBackwardProblemDesc where
  q_gs_ms_ks_lengths : List Int
  q_gs_ms_ks_strides : List Int
  k_gs_ns_ks_lengths : List Int
  k_gs_ns_ks_strides : List Int
  z_gs_ms_ns_lengths : List Int
  z_gs_ms_ns_strides : List Int
  v_gs_os_ns_lengths : List Int
  v_gs_os_ns_strides : List Int
  y_gs_ms_os_lengths : List Int
  y_gs_ms_os_strides : List Int
  lse_gs_ms_lengths : List Int
  lse_gs_ms_strides : List Int
  d_gs_ms_ns_lengths : List Int
  d_gs_ms_ns_strides : List Int

/-- Body of the descriptor loop of
`grouped_backward_masktype_attnbias_dispatched<_, _, has_attn_bias>`
(`ck_fmha_grouped_backward.h` lines 139-209). -/
def grouped_backward_problem_desc (has_attn_bias : Bool) (param : GroupedBackwardParams)
    (i : Nat) : Option GroupedBackwardProblemDesc := do
  let (M, N) ← grouped_backward_seqlens param i
  let K := param.K
  let Kv := param.Kv
  let G1 := param.num_heads
  pure
    { q_gs_ms_ks_lengths := [1, G1, M, K]
      q_gs_ms_ks_strides := [0, param.q_strides 0, param.q_strides 1, param.q_strides 2]
      k_gs_ns_ks_lengths := [1, G1, N, K]
      k_gs_ns_ks_strides := [0, param.k_strides 0, param.k_strides 1, param.k_strides 2]
      v_gs_os_ns_lengths := [1, G1, Kv, N]
      v_gs_os_ns_strides := [0, param.v_strides 0, param.v_strides 2, param.v_strides 1]
      y_gs_ms_os_lengths := [1, G1, M, Kv]
      y_gs_ms_os_strides := [0, param.out_strides 0, param.out_strides 1, param.out_strides 2]
      z_gs_ms_ns_lengths := [1, G1, M, N]
      z_gs_ms_ns_strides :=
        [0, param.randvals_strides 0, param.randvals_strides 1, param.randvals_strides 2]
      lse_gs_ms_lengths := [1, G1, M]
      lse_gs_ms_strides := [0, param.M, 1]
      d_gs_ms_ns_lengths := if has_attn_bias then [1, G1, M, N] else [1, 1, 1, 1]
      d_gs_ms_ns_strides :=
        if has_attn_bias then
          [0, param.attn_bias_strides 0, param.attn_bias_strides 1, param.attn_bias_strides 2]
        else [0, 0, 0, 0] }

/-- The `problem_descs` vector built by the grouped backward path. -/
def grouped_backward_problem_descs (has_attn_bias : Bool) (param : GroupedBackwardParams) :
    Option (List GroupedBackwardProblemDesc) :=
  (List.range (sizeTLoopCount param.num_batches)).mapM
    (grouped_backward_problem_desc has_attn_bias param)

/-! ## Host tensors as seen by the backward binding: `attention_backward_generic.cpp` -/

/-- Element types of the host framework's tensors (`at::kHalf`, `at::kFloat`, ...). -/
inductive ScalarType where
  | kByte | kShort | kInt | kLong | kHalf | kFloat | kDouble | kBFloat16
  deriving DecidableEq, Repr

/-- Size in bytes of one element of the given type. -/
def ScalarType.elementSize : ScalarType → Int
  | .kByte => 1
  | .kShort => 2
  | .kInt => 4
  | .kLong => 8
  | .kHalf => 2
  | .kFloat => 4
  | .kDouble => 8
  | .kBFloat16 => 2

/-- Modelled from the spec: `get_size_in_bytes(n, dtype)` of `ck_fmha_util.h`,
which is not among the sources; the spec gives byte offsets as
`elementsize(dtype) × n`. The result is a `size_t`. -/
def get_size_in_bytes (n : Int) (dtype : ScalarType) : Int :=
  wrapSizeT (n * dtype.elementSize)

/-- What the binding reads of an `at::Tensor`: sizes, strides, element type,
device and sparsity. -/
structure TensorMeta where
  sizes : List Int
  strides : List Int
  dtype : ScalarType
  is_cuda : Bool
  is_sparse : Bool
  deriving DecidableEq, Repr

/-- The method `Tensor::dim()`. -/
def TensorMeta.dim (t : TensorMeta) : Int := t.sizes.length

/-- The method `Tensor::size(d)` for `d ≥ 0`; an axis outside the tensor raises. -/
def TensorMeta.size (t : TensorMeta) (d : Nat) : Except String Int :=
  match t.sizes[d]? with
  | some n => .ok n
  | none => .error "Dimension out of range"

/-- The method `Tensor::stride(d)` for `d ≥ 0`; an axis outside the tensor raises. -/
def TensorMeta.stride (t : TensorMeta) (d : Nat) : Except String Int :=
  match t.strides[d]? with
  | some n => .ok n
  | none => .error "Dimension out of range"

/-- Row-major contiguity test on (sizes, strides), innermost axis first: an
axis of extent 1 is skipped, any other axis must have the stride expected so
far. The lists are given reversed. -/
def contiguousFrom : List Int → List Int → Int → Bool
  | [], _, _ => true
  | _ :: _, [], _ => false
  | n :: ns, st :: sts, expected =>
    if n = 1 then contiguousFrom ns sts expected
    else st = expected && contiguousFrom ns sts (expected * n)

/-- The method `Tensor::is_contiguous()`: a tensor without elements is
contiguous, otherwise the strides are the row-major ones. -/
def TensorMeta.is_contiguous (t : TensorMeta) : Bool :=
  t.sizes.any (fun n => n = 0) || contiguousFrom t.sizes.reverse t.strides.reverse 1

/-- A check that raises with the given message when the condition is false
(`TORCH_CHECK`, `XFORMERS_CHECK`). -/
def check (cond : Bool) (msg : String) : Except String Unit :=
  if cond then .ok () else .error msg

/-- Modelled from the spec: the macro `CHECK_NOSPARSE_LASTCONTIGUOUS_CUDA` of
`ck_fmha_util.h`, which is not among the sources: the tensor resides on the
accelerator, is dense, and its innermost stride is 1. -/
def CHECK_NOSPARSE_LASTCONTIGUOUS_CUDA (t : TensorMeta) : Except String Unit := do
  check t.is_cuda "must be a CUDA tensor"
  check (!t.is_sparse) "must be a dense tensor"
  check (t.strides.getLast? = some 1) "last dimension must be contiguous"

/-- Modelled from the spec: the macro `CHECK_NOSPARSE_CONTIGUOUS_CPU` of
`ck_fmha_util.h`, which is not among the sources: the tensor resides on the
host, is dense and fully contiguous. -/
def CHECK_NOSPARSE_CONTIGUOUS_CPU (t : TensorMeta) : Except String Unit := do
  check (!t.is_cuda) "must be a CPU tensor"
  check (!t.is_sparse) "must be a dense tensor"
  check t.is_contiguous "must be contiguous"

/-- A host-resident integer tensor together with its contents in memory
order (`seqstart_q`, `seqstart_k`, `seqlen_k`). -/
structure HostIntTensor where
  meta : TensorMeta
  data : List Int
  deriving DecidableEq, Repr

/-- Read of `*(reinterpret_cast<int*>(t.data_ptr()) + i)`: defined inside the
tensor's memory only. -/
def HostIntTensor.read (t : HostIntTensor) (i : Nat) : Except String Int :=
  match t.data[i]? with
  | some x => .ok x
  | none => .error "out-of-bounds read"

/-- Read of element `i` of a `std::vector<int>`: defined inside the vector only. -/
def vectorRead (v : List Int) (i : Nat) : Except String Int :=
  match v[i]? with
  | some x => .ok x
  | none => .error "out-of-bounds read"

/-- Dereference of a `c10::optional`. -/
def derefOptional {α : Type} (o : Option α) : Except String α :=
  match o with
  | some x => .ok x
  | none => .error "bad optional access"

/-- The optional bias of a backward call: the tensor, whether it requires a
gradient, and the outcome of `get_bias_4d_view(*bias, B, Hq, M, N)`
(`ck_fmha_util.h`, not among the sources), taken as given. -/
structure BiasCtx where
  meta : TensorMeta
  requires_grad : Bool
  bias_4d_view : Except String TensorMeta

/-- The variables of `efficient_attention_backward_ck` captured by the
parameter-population lambdas, as they stand after the gradient buffers have
been allocated (line 224). `tmp_grad_k`, `tmp_grad_v` are defined tensors
only when `is_mqa_gqa`. -/
structure BackwardCtx where
  query : TensorMeta
  key : TensorMeta
  value : TensorMeta
  out : TensorMeta
  grad_out : TensorMeta
  logsumexp : TensorMeta
  grad_q : TensorMeta
  grad_k : TensorMeta
  grad_v : TensorMeta
  tmp_grad_k : TensorMeta
  tmp_grad_v : TensorMeta
  bias : Option BiasCtx
  seqstart_q : Option HostIntTensor
  seqstart_k : Option HostIntTensor
  seqlen_k : Option HostIntTensor
  max_seqlen_q_ : Option Int
  B : Int
  M : Int
  N : Int
  Hq : Int
  Hkv : Int
  K : Int
  Kv : Int
  use_fp32_qkv_grad : Bool
  is_mqa_gqa : Bool
  bias_requires_grad : Bool
  rng_seed : Int
  rng_offset : Int
  custom_mask_type : Int

/-- The conversion `static_cast<int>(t.stride(d))`. -/
def strideAsInt (t : TensorMeta) (d : Nat) : Except String Int := do
  let s ← t.stride d
  pure (wrapInt32 s)

/-- A `std::array<int, 3>` holding the strides of axes 1, 2, 3. -/
def strides123 (t : TensorMeta) : Except String (Fin 3 → Int) := do
  let s1 ← strideAsInt t 1
  let s2 ← strideAsInt t 2
  let s3 ← strideAsInt t 3
  pure ![s1, s2, s3]

/-- A `std::array<int, 4>` holding the strides of axes 0, 1, 2, 3. -/
def strides0123 (t : TensorMeta) : Except String (Fin 4 → Int) := do
  let s0 ← strideAsInt t 0
  let s1 ← strideAsInt t 1
  let s2 ← strideAsInt t 2
  let s3 ← strideAsInt t 3
  pure ![s0, s1, s2, s3]

/-- The `size_t multiplier` of lines 440-444. -/
def gradMultiplier (use_fp32_qkv_grad : Bool) (query_dtype : ScalarType) : Int :=
  if use_fp32_qkv_grad then
    get_size_in_bytes 1 ScalarType.kFloat / get_size_in_bytes 1 query_dtype
  else 1

/-- Body of the pointer loop of `set_grouped_backward_params` (lines 448-509)
for sequence `i`, with `multiplier` as computed before the loop. -/
def set_grouped_backward_params_body (ctx : BackwardCtx) (multiplier : Int)
    (p : GroupedBackwardParams) (i : Nat) : Except String GroupedBackwardParams := do
  let seqstart_q_i ← vectorRead p.host_seqstart_q i
  let seqstart_k_i ← vectorRead p.host_seqstart_k i
  let tmp_q_offset :=
    get_size_in_bytes (wrapSizeT (wrapSizeT seqstart_q_i * wrapSizeT (p.q_strides 0)))
      ctx.query.dtype
  let tmp_k_offset :=
    get_size_in_bytes (wrapSizeT (wrapSizeT seqstart_k_i * wrapSizeT (p.k_strides 0)))
      ctx.key.dtype
  let tmp_v_offset :=
    get_size_in_bytes (wrapSizeT (wrapSizeT seqstart_k_i * wrapSizeT (p.v_strides 0)))
      ctx.value.dtype
  let tmp_o_offset :=
    get_size_in_bytes (wrapSizeT (wrapSizeT seqstart_q_i * wrapSizeT (p.out_strides 0)))
      ctx.out.dtype
  let tmp_logsumexp_offset :=
    get_size_in_bytes
      (wrapSizeT (wrapSizeT (wrapSizeT (i : Int) * wrapSizeT p.Hq) * wrapSizeT p.max_seqlen_q))
      ctx.logsumexp.dtype
  let tmp_grad_k_offset :=
    if ctx.is_mqa_gqa then
      get_size_in_bytes
        (wrapSizeT (wrapSizeT seqstart_k_i * wrapSizeT (p.tmp_grad_k_strides 0)))
        ctx.tmp_grad_k.dtype
    else tmp_k_offset
  let tmp_grad_v_offset :=
    if ctx.is_mqa_gqa then
      get_size_in_bytes
        (wrapSizeT (wrapSizeT seqstart_k_i * wrapSizeT (p.tmp_grad_v_strides 0)))
        ctx.tmp_grad_v.dtype
    else tmp_v_offset
  let grad_k_buffer := if ctx.is_mqa_gqa then Buffer.tmp_grad_k else Buffer.grad_k
  let grad_v_buffer := if ctx.is_mqa_gqa then Buffer.tmp_grad_v else Buffer.grad_v
  let p : GroupedBackwardParams :=
    { p with
      q_ptrs := p.q_ptrs ++ [⟨Buffer.query, tmp_q_offset⟩]
      grad_q_ptrs := p.grad_q_ptrs ++ [⟨Buffer.grad_q, wrapSizeT (tmp_q_offset * multiplier)⟩]
      k_ptrs := p.k_ptrs ++ [⟨Buffer.key, tmp_k_offset⟩]
      grad_k_ptrs :=
        p.grad_k_ptrs ++ [⟨grad_k_buffer, wrapSizeT (tmp_grad_k_offset * multiplier)⟩]
      v_ptrs := p.v_ptrs ++ [⟨Buffer.value, tmp_v_offset⟩]
      grad_v_ptrs :=
        p.grad_v_ptrs ++ [⟨grad_v_buffer, wrapSizeT (tmp_grad_v_offset * multiplier)⟩]
      out_ptrs := p.out_ptrs ++ [⟨Buffer.out, tmp_o_offset⟩]
      grad_out_ptrs := p.grad_out_ptrs ++ [⟨Buffer.grad_out, tmp_o_offset⟩]
      logsumexp_ptrs := p.logsumexp_ptrs ++ [⟨Buffer.logsumexp, tmp_logsumexp_offset⟩] }
  let p : GroupedBackwardParams :=
    match ctx.bias with
    | some bias =>
      let tmp_bias_offset :=
        get_size_in_bytes
          (wrapSizeT
            (wrapSizeT (wrapSizeT seqstart_q_i * wrapSizeT (p.attn_bias_strides 2)) +
              wrapSizeT (wrapSizeT seqstart_k_i * wrapSizeT (p.attn_bias_strides 3))))
          bias.meta.dtype
      let p := { p with attn_bias_ptrs := p.attn_bias_ptrs ++ [⟨Buffer.attn_bias, tmp_bias_offset⟩] }
      if ctx.bias_requires_grad then
        { p with grad_bias_ptrs := p.grad_bias_ptrs ++ [⟨Buffer.grad_bias, tmp_bias_offset⟩] }
      else p
    | none => p
  pure { p with randvals_ptrs := p.randvals_ptrs ++ [none] }

/-- The lambda `set_grouped_backward_params` of
`efficient_attention_backward_ck` (lines 326-510), applied to the parameter
record `p`. -/
def set_grouped_backward_params (ctx : BackwardCtx) (p : GroupedBackwardParams) :
    Except String GroupedBackwardParams := do
  let seqstart_q ← derefOptional ctx.seqstart_q
  let seqstart_q_size0 ← seqstart_q.meta.size 0
  let max_seqlen_q ← derefOptional ctx.max_seqlen_q_
  let p : GroupedBackwardParams :=
    { p with
      num_batches := wrapInt32 (seqstart_q_size0 - 1)
      M := wrapInt32 ctx.M
      N := wrapInt32 ctx.N
      Hq := wrapInt32 ctx.Hq
      Hkv := wrapInt32 ctx.Hkv
      K := wrapInt32 ctx.K
      Kv := wrapInt32 ctx.Kv
      use_fp32_qkv_grad := ctx.use_fp32_qkv_grad
      is_mqa_gqa := ctx.is_mqa_gqa
      max_seqlen_q := wrapInt32 max_seqlen_q }
  let lse0 ← ctx.logsumexp.size 0
  check (p.num_batches = lse0) "p.num_batches == logsumexp.size(0)"
  let lse1 ← ctx.logsumexp.size 1
  check (p.Hq = lse1) "p.Hq == logsumexp.size(1)"
  let lse2 ← ctx.logsumexp.size 2
  check (p.max_seqlen_q = lse2) "p.max_seqlen_q == logsumexp.size(2)"
  let q_strides ← strides123 ctx.query
  let k_strides ← strides123 ctx.key
  let v_strides ← strides123 ctx.value
  let out_strides ← strides123 ctx.out
  let p := { p with q_strides := q_strides, k_strides := k_strides, v_strides := v_strides,
                    out_strides := out_strides }
  let p ←
    if ctx.is_mqa_gqa then do
      let tk ← strides123 ctx.tmp_grad_k
      let tv ← strides123 ctx.tmp_grad_v
      pure { p with tmp_grad_k_strides := tk, tmp_grad_v_strides := tv }
    else pure p
  let p ←
    match ctx.bias with
    | some bias => do
      CHECK_NOSPARSE_LASTCONTIGUOUS_CUDA bias.meta
      check (bias.meta.dtype = ctx.query.dtype) "bias->scalar_type() == query.scalar_type()"
      let bias_4d_view ← bias.bias_4d_view
      let bs ← strides0123 bias_4d_view
      pure { p with has_attn_bias := true, attn_bias_strides := bs }
    | none => pure { p with has_attn_bias := false }
  let p := { p with bias_has_grad := ctx.bias_requires_grad, philox_seed := ctx.rng_seed,
                    philox_offset := ctx.rng_offset, custom_mask_type := ctx.custom_mask_type }
  let host_seqstart_q ← (List.range (sizeTLoopCount (p.num_batches + 1))).mapM seqstart_q.read
  let seqstart_k ← derefOptional ctx.seqstart_k
  let host_seqstart_k ← (List.range (sizeTLoopCount (p.num_batches + 1))).mapM seqstart_k.read
  let p := { p with host_seqstart_q := host_seqstart_q, host_seqstart_k := host_seqstart_k }
  let p ←
    match ctx.seqlen_k with
    | some seqlen_k => do
      check (seqlen_k.meta.dtype = ScalarType.kInt) "seqlen_k->scalar_type() == at::ScalarType::Int"
      check (seqlen_k.meta.dim = 1) "seqlen_k->dim() == 1"
      let n ← seqlen_k.meta.size 0
      check (n = p.num_batches) "seqlen_k->size(0) == p.num_batches"
      CHECK_NOSPARSE_CONTIGUOUS_CPU seqlen_k.meta
      let host_seqlen_k ← (List.range (sizeTLoopCount p.num_batches)).mapM seqlen_k.read
      pure { p with host_seqlen_k := host_seqlen_k }
    | none => pure p
  let multiplier := gradMultiplier p.use_fp32_qkv_grad ctx.query.dtype
  (List.range p.num_batches.toNat).foldlM (set_grouped_backward_params_body ctx multiplier) p

/-! ## Backward gradient reduction: tensors, `unflatten`, `sum` -/

/-- A dense strided tensor: sizes, strides (in elements) and the storage it
views. -/
structure Tensor (α : Type) where
  sizes : List Nat
  strides : List Nat
  storage : List α

/-- Row-major (contiguous) strides of a shape. -/
def rowMajorStrides : List Nat → List Nat
  | [] => []
  | _ :: rest => rest.prod :: rowMajorStrides rest

/-- Storage offset of an index tuple under the given strides. -/
def Tensor.offset (strides idx : List Nat) : Nat :=
  (List.zipWith (fun i s => i * s) idx strides).sum

/-- The index tuple has the rank of the shape and lies inside it. -/
def indexInBounds : List Nat → List Nat → Bool
  | [], [] => true
  | i :: idx, n :: sizes => decide (i < n) && indexInBounds idx sizes
  | _, _ => false

/-- Element of a tensor at an index tuple; undefined outside the shape or the
storage. -/
def Tensor.get? {α : Type} (t : Tensor α) (idx : List Nat) : Option α :=
  if indexInBounds idx t.sizes then t.storage[Tensor.offset t.strides idx]? else none

/-- The method `Tensor::unflatten(dim, sizes)`: a view of the same storage in
which axis `dim` is split into axes of the given extents, which must multiply
up to the extent of `dim`. -/
def Tensor.unflatten {α : Type} (t : Tensor α) (dim : Nat) (sizes : List Nat) :
    Except String (Tensor α) :=
  match t.sizes[dim]?, t.strides[dim]? with
  | some n, some s =>
    if sizes.prod = n then
      .ok { sizes := t.sizes.take dim ++ sizes ++ t.sizes.drop (dim + 1)
            strides :=
              t.strides.take dim ++ (rowMajorStrides sizes).map (fun x => x * s) ++
                t.strides.drop (dim + 1)
            storage := t.storage }
    else .error "unflatten: provided sizes do not multiply up to the size of dim"
  | _, _ => .error "Dimension out of range"

/-- The index tuple of a row-major position in a shape. -/
def unravelIndex : List Nat → Nat → List Nat
  | [], _ => []
  | _ :: rest, pos => pos / rest.prod :: unravelIndex rest (pos % rest.prod)

/-- The method `Tensor::sum(dim)`: a new contiguous tensor without axis `dim`,
each element the sum of the input over that axis. -/
def Tensor.sum {α : Type} [AddCommMonoid α] (t : Tensor α) (dim : Nat) :
    Except String (Tensor α) :=
  match t.sizes[dim]? with
  | some n =>
    let outSizes := t.sizes.eraseIdx dim
    .ok { sizes := outSizes
          strides := rowMajorStrides outSizes
          storage :=
            (List.range outSizes.prod).map (fun pos =>
              let idx := unravelIndex outSizes pos
              ((List.range n).map (fun j =>
                (t.get? (idx.take dim ++ [j] ++ idx.drop dim)).getD 0)).sum) }
  | none => .error "Dimension out of range"

/-- The element types the kernels are instantiated for. -/
inductive CkType where
  | half_t
  | bhalf_t
  deriving DecidableEq, Repr

/-- A call of one explicitly instantiated kernel template, identified by the
template and its template arguments. -/
inductive KernelCall where
  | run_batched_backward_masktype_attnbias_dispatched
      (scalar_t : CkType) (custom_mask_type : Int) (has_attn_bias : Bool)
      (use_fp32_qkv_grad : Bool)
  | grouped_backward_masktype_attnbias_dispatched
      (scalar_t : CkType) (custom_mask_type : Int) (has_attn_bias : Bool)
  | run_batched_infer_masktype_attnbias_dispatched
      (scalar_t : CkType) (custom_mask_type : Int)
  deriving DecidableEq, Repr

/-- What a dispatcher itself did: the kernel instances it called, in order,
and the error raised by its own `throw`, if any. What a called instance does,
and the error it can raise in turn, is not part of this record: see
`grouped_backward_masktype_attnbias_dispatched` and `runDispatcher`. -/
structure DispatchResult where
  invoked : List KernelCall
  error : Option String
  deriving DecidableEq, Repr

/-- The dispatcher's call of one kernel instance: the instance is recorded as
called, and the dispatcher raises nothing itself. -/
def runKernel (c : KernelCall) : DispatchResult := { invoked := [c], error := none }

/-- The statement `throw std::runtime_error(msg)` of a dispatcher. -/
def throwRuntimeError (msg : String) : DispatchResult := { invoked := [], error := some msg }

/-- Modelled from the spec: the vendored device op behind a kernel instance is
library code outside the sources. Of its contract (`MakeArgumentPointer`,
`GetWorkSpaceSize`, `SetWorkSpacePointer`, `IsSupportedArgument`,
`MakeInvoker().Run`) the outcome of an instance depends on two answers, given
here for the instance that is run and the argument it has made:
`op.IsSupportedArgument(arg_ptr.get())` and the name `op.GetTypeString()` that
goes into the error message. -/
structure DeviceOp where
  IsSupportedArgument : KernelCall → Bool
  GetTypeString : KernelCall → String

/-- The template argument `has_attn_bias` of a kernel instance (`false` for
the inference template, which has none). -/
def KernelCall.has_attn_bias : KernelCall → Bool
  | .run_batched_backward_masktype_attnbias_dispatched _ _ has_attn_bias _ => has_attn_bias
  | .grouped_backward_masktype_attnbias_dispatched _ _ has_attn_bias => has_attn_bias
  | .run_batched_infer_masktype_attnbias_dispatched _ _ => false

/-- Modelled from the spec: the macro `BOOL_SWITCH_2` of `ck_bool_switch.h`,
which is not among the sources; it materialises two runtime booleans as
compile-time constants through nested branches and runs the body with them. -/
def BOOL_SWITCH_2 {β : Type} (cond1 cond2 : Bool) (body : Bool → Bool → β) : β :=
  if cond1 then
    if cond2 then body true true else body true false
  else
    if cond2 then body false true else body false false

/-- The fields of `BatchedBackwardParams`. The stride arrays are
`std::array<int, 4>`. -/
structure BatchedBackwardParams where
  B : Int
  M : Int
  N : Int
  Hq : Int
  Hkv : Int
  K : Int
  Kv : Int
  use_fp32_qkv_grad : Bool
  is_mqa_gqa : Bool
  q_ptr : Option Ptr
  k_ptr : Option Ptr
  v_ptr : Option Ptr
  grad_out_ptr : Option Ptr
  out_ptr : Option Ptr
  grad_q_ptr : Option Ptr
  grad_k_ptr : Option Ptr
  grad_v_ptr : Option Ptr
  attn_bias_ptr : Option Ptr
  grad_bias_ptr : Option Ptr
  logsumexp_ptr : Option Ptr
  q_strides : Fin 4 → Int
  k_strides : Fin 4 → Int
  v_strides : Fin 4 → Int
  out_strides : Fin 4 → Int
  tmp_grad_k_strides : Fin 4 → Int
  tmp_grad_v_strides : Fin 4 → Int
  attn_bias_strides : Fin 4 → Int
  has_attn_bias : Bool
  bias_has_grad : Bool
  custom_mask_type : Int
  philox_seed : Int
  philox_offset : Int

/-- The function `batched_backward_bp16` of `ck_fmha_batched_backward_bp16.cpp`
(lines 79-107). -/
def batched_backward_bp16 (param : BatchedBackwardParams) : DispatchResult :=
  BOOL_SWITCH_2 param.has_attn_bias param.use_fp32_qkv_grad
    (fun HAS_ATTN_BIAS USE_FP32_QKV_GRAD =>
      if param.custom_mask_type = 0 then
        runKernel (.run_batched_backward_masktype_attnbias_dispatched CkType.bhalf_t 0
          HAS_ATTN_BIAS USE_FP32_QKV_GRAD)
      else if param.custom_mask_type = 1 then
        runKernel (.run_batched_backward_masktype_attnbias_dispatched CkType.bhalf_t 1
          HAS_ATTN_BIAS USE_FP32_QKV_GRAD)
      else if param.custom_mask_type = 2 then
        runKernel (.run_batched_backward_masktype_attnbias_dispatched CkType.bhalf_t 2
          HAS_ATTN_BIAS USE_FP32_QKV_GRAD)
      else throwRuntimeError "Invalid custom_mask_type value")

/-- The twelve `extern template` declarations of
`ck_fmha_batched_backward_bp16.cpp` (lines 7-77), in source order. -/
def batched_backward_bp16_declared : List KernelCall :=
  [ .run_batched_backward_masktype_attnbias_dispatched CkType.bhalf_t 0 true true,
    .run_batched_backward_masktype_attnbias_dispatched CkType.bhalf_t 0 true false,
    .run_batched_backward_masktype_attnbias_dispatched CkType.bhalf_t 0 false true,
    .run_batched_backward_masktype_attnbias_dispatched CkType.bhalf_t 0 false false,
    .run_batched_backward_masktype_attnbias_dispatched CkType.bhalf_t 1 true true,
    .run_batched_backward_masktype_attnbias_dispatched CkType.bhalf_t 1 true false,
    .run_batched_backward_masktype_attnbias_dispatched CkType.bhalf_t 1 false true,
    .run_batched_backward_masktype_attnbias_dispatched CkType.bhalf_t 1 false false,
    .run_batched_backward_masktype_attnbias_dispatched CkType.bhalf_t 2 true true,
    .run_batched_backward_masktype_attnbias_dispatched CkType.bhalf_t 2 true false,
    .run_batched_backward_masktype_attnbias_dispatched CkType.bhalf_t 2 false true,
    .run_batched_backward_masktype_attnbias_dispatched CkType.bhalf_t 2 false false ]

/-- The function `grouped_backward_bp16` of `ck_fmha_grouped_backward_bp16.cpp`
(lines 6-31). -/
def grouped_backward_bp16 (param : GroupedBackwardParams) : DispatchResult :=
  if param.custom_mask_type = 0 then
    if param.has_attn_bias then
      runKernel (.grouped_backward_masktype_attnbias_dispatched CkType.bhalf_t 0 true)
    else
      runKernel (.grouped_backward_masktype_attnbias_dispatched CkType.bhalf_t 0 false)
  else if param.custom_mask_type = 1 then
    if param.has_attn_bias then
      runKernel (.grouped_backward_masktype_attnbias_dispatched CkType.bhalf_t 1 true)
    else
      runKernel (.grouped_backward_masktype_attnbias_dispatched CkType.bhalf_t 1 false)
  else if param.custom_mask_type = 2 then
    if param.has_attn_bias then
      runKernel (.grouped_backward_masktype_attnbias_dispatched CkType.bhalf_t 2 true)
    else
      runKernel (.grouped_backward_masktype_attnbias_dispatched CkType.bhalf_t 2 true)
  else throwRuntimeError "Invalid custom_mask_type value"

/-- The function `batched_infer_fp16` of
`ck_tiled_fmha_batched_infer_fp16.cpp` (lines 26-36). -/
def batched_infer_fp16 (param : BatchedForwardParams) : DispatchResult :=
  if param.custom_mask_type = 0 then
    runKernel (.run_batched_infer_masktype_attnbias_dispatched CkType.half_t 0)
  else if param.custom_mask_type = 1 then
    runKernel (.run_batched_infer_masktype_attnbias_dispatched CkType.half_t 1)
  else if param.custom_mask_type = 2 then
    runKernel (.run_batched_infer_masktype_attnbias_dispatched CkType.half_t 2)
  else throwRuntimeError "Invalid custom_mask_type value"

/-! ## Closed forms of `set_grouped_backward_params` used in the proofs -/

/-- The `std::array<int, 3>` of strides of axes 1, 2, 3 of a 4-D tensor. -/
def strides123Of (t : TensorMeta) : Fin 3 → Int :=
  ![wrapInt32 (t.strides.getD 1 0), wrapInt32 (t.strides.getD 2 0), wrapInt32 (t.strides.getD 3 0)]

/-- What `efficient_attention_backward_ck` has established when it calls
`set_grouped_backward_params` on a grouped input of `n` sequences, together
with the conditions of the lambda's own checks. -/
structure GroupedCallOk (ctx : BackwardCtx) (n : Nat) (sq sk : HostIntTensor) (m : Int) :
    Prop where
  h_sq : ctx.seqstart_q = some sq
  h_sk : ctx.seqstart_k = some sk
  h_sq_sizes : sq.meta.sizes = [(n : Int) + 1]
  h_sq_data : sq.data.length = n + 1
  h_sk_data : sk.data.length = n + 1
  h_max : ctx.max_seqlen_q_ = some m
  h_n : IsNonnegInt32 ((n : Int) + 1)
  h_Hq : IsNonnegInt32 ctx.Hq
  h_m : IsNonnegInt32 m
  h_lse : ctx.logsumexp.sizes = [(n : Int), ctx.Hq, m]
  h_q : ctx.query.strides.length = 4
  h_k : ctx.key.strides.length = 4
  h_v : ctx.value.strides.length = 4
  h_out : ctx.out.strides.length = 4
  h_tmp : ctx.is_mqa_gqa = true →
    ctx.tmp_grad_k.strides.length = 4 ∧ ctx.tmp_grad_v.strides.length = 4
  h_bias : ctx.bias = none
  h_seqlen_k : ∀ lk, ctx.seqlen_k = some lk →
    lk.meta.dtype = ScalarType.kInt ∧ lk.meta.sizes = [(n : Int)] ∧ lk.meta.is_cuda = false ∧
      lk.meta.is_sparse = false ∧ lk.meta.is_contiguous = true ∧ lk.data.length = n

/-- Closed form of the parameter record when the pointer loop of
`set_grouped_backward_params` is entered. -/
def groupedParamsBeforeLoop (ctx : BackwardCtx) (p : GroupedBackwardParams) (n : Nat)
    (sq sk : HostIntTensor) (m : Int) : GroupedBackwardParams :=
  { p with
    num_batches := n
    M := wrapInt32 ctx.M
    N := wrapInt32 ctx.N
    Hq := ctx.Hq
    Hkv := wrapInt32 ctx.Hkv
    K := wrapInt32 ctx.K
    Kv := wrapInt32 ctx.Kv
    use_fp32_qkv_grad := ctx.use_fp32_qkv_grad
    is_mqa_gqa := ctx.is_mqa_gqa
    max_seqlen_q := m
    q_strides := strides123Of ctx.query
    k_strides := strides123Of ctx.key
    v_strides := strides123Of ctx.value
    out_strides := strides123Of ctx.out
    tmp_grad_k_strides :=
      if ctx.is_mqa_gqa then strides123Of ctx.tmp_grad_k else p.tmp_grad_k_strides
    tmp_grad_v_strides :=
      if ctx.is_mqa_gqa then strides123Of ctx.tmp_grad_v else p.tmp_grad_v_strides
    has_attn_bias := false
    bias_has_grad := ctx.bias_requires_grad
    philox_seed := ctx.rng_seed
    philox_offset := ctx.rng_offset
    custom_mask_type := ctx.custom_mask_type
    host_seqstart_q := sq.data
    host_seqstart_k := sk.data
    host_seqlen_k :=
      match ctx.seqlen_k with
      | some lk => lk.data
      | none => p.host_seqlen_k }

/-- Closed form of the state after running the pointer loop body of
`set_grouped_backward_params` over the sequence indices `l`, without bias. -/
def groupedPtrLoopClosedForm (ctx : BackwardCtx) (multiplier : Int)
    (p : GroupedBackwardParams) (l : List Nat) : GroupedBackwardParams :=
  let sq := fun i => p.host_seqstart_q.getD i 0
  let sk := fun i => p.host_seqstart_k.getD i 0
  let q_off := fun i =>
    get_size_in_bytes (wrapSizeT (wrapSizeT (sq i) * wrapSizeT (p.q_strides 0))) ctx.query.dtype
  let k_off := fun i =>
    get_size_in_bytes (wrapSizeT (wrapSizeT (sk i) * wrapSizeT (p.k_strides 0))) ctx.key.dtype
  let v_off := fun i =>
    get_size_in_bytes (wrapSizeT (wrapSizeT (sk i) * wrapSizeT (p.v_strides 0))) ctx.value.dtype
  let o_off := fun i =>
    get_size_in_bytes (wrapSizeT (wrapSizeT (sq i) * wrapSizeT (p.out_strides 0))) ctx.out.dtype
  let lse_off := fun (i : Nat) =>
    get_size_in_bytes
      (wrapSizeT (wrapSizeT (wrapSizeT (i : Int) * wrapSizeT p.Hq) * wrapSizeT p.max_seqlen_q))
      ctx.logsumexp.dtype
  let gk_off := fun i =>
    if ctx.is_mqa_gqa then
      get_size_in_bytes
        (wrapSizeT (wrapSizeT (sk i) * wrapSizeT (p.tmp_grad_k_strides 0)))
        ctx.tmp_grad_k.dtype
    else k_off i
  let gv_off := fun i =>
    if ctx.is_mqa_gqa then
      get_size_in_bytes
        (wrapSizeT (wrapSizeT (sk i) * wrapSizeT (p.tmp_grad_v_strides 0)))
        ctx.tmp_grad_v.dtype
    else v_off i
  { p with
    q_ptrs := p.q_ptrs ++ l.map (fun i => ⟨Buffer.query, q_off i⟩)
    grad_q_ptrs :=
      p.grad_q_ptrs ++ l.map (fun i => ⟨Buffer.grad_q, wrapSizeT (q_off i * multiplier)⟩)
    k_ptrs := p.k_ptrs ++ l.map (fun i => ⟨Buffer.key, k_off i⟩)
    grad_k_ptrs :=
      p.grad_k_ptrs ++ l.map (fun i =>
        ⟨if ctx.is_mqa_gqa then Buffer.tmp_grad_k else Buffer.grad_k,
          wrapSizeT (gk_off i * multiplier)⟩)
    v_ptrs := p.v_ptrs ++ l.map (fun i => ⟨Buffer.value, v_off i⟩)
    grad_v_ptrs :=
      p.grad_v_ptrs ++ l.map (fun i =>
        ⟨if ctx.is_mqa_gqa then Buffer.tmp_grad_v else Buffer.grad_v,
          wrapSizeT (gv_off i * multiplier)⟩)
    out_ptrs := p.out_ptrs ++ l.map (fun i => ⟨Buffer.out, o_off i⟩)
    grad_out_ptrs := p.grad_out_ptrs ++ l.map (fun i => ⟨Buffer.grad_out, o_off i⟩)
    logsumexp_ptrs := p.logsumexp_ptrs ++ l.map (fun i => ⟨Buffer.logsumexp, lse_off i⟩)
    randvals_ptrs := p.randvals_ptrs ++ l.map (fun _ => none) }

/-- A freshly constructed `GroupedBackwardParams`: every vector is empty. -/
def GroupedBackwardParams.IsFresh (p : GroupedBackwardParams) : Prop :=
  p.host_seqstart_q = [] ∧ p.host_seqstart_k = [] ∧ p.host_seqlen_k = [] ∧
  p.q_ptrs = [] ∧ p.k_ptrs = [] ∧ p.v_ptrs = [] ∧ p.out_ptrs = [] ∧ p.grad_out_ptrs = [] ∧
  p.logsumexp_ptrs = [] ∧ p.grad_q_ptrs = [] ∧ p.grad_k_ptrs = [] ∧ p.grad_v_ptrs = [] ∧
  p.attn_bias_ptrs = [] ∧ p.grad_bias_ptrs = [] ∧ p.randvals_ptrs = []

/-! ## Head-dim and alignment selection: legacy `Run` functions -/

/-- The template arguments that `Run` fixes when it instantiates
`DeviceOpInstanceTemp` and hands the parameters to `RunWithDeviceOp`. -/
structure DeviceOpInstanceArgs where
  kGemm1NPerBlock : Int
  kGemm1NXdlPerWave : Int
  kCShuffleNXdlPerWavePerShuffle : Int
  kABBlockTransferSrcScalarPerVector : Int
  kB1BlockTransferSrcScalarPerVector : Int
  kCShuffleBlockTransferScalarPerVector : Int
  deriving DecidableEq, Repr

/-- The macro `BATCHED_INFER_HEADDIM_SWITCH` of `ck_fmha_batched_infer.h`
(lines 55-80): the body is run with the three constants of the bucket. -/
def BATCHED_INFER_HEADDIM_SWITCH {β : Type} (HEAD_DIM1 HEAD_DIM2 : Int)
    (body : Int → Int → Int → β) : β :=
  if HEAD_DIM1 ≤ 32 ∧ HEAD_DIM2 ≤ 32 then body 32 1 1
  else if HEAD_DIM1 ≤ 64 ∧ HEAD_DIM2 ≤ 64 then body 64 2 2
  else body 128 4 4

/-- The macro `GROUPED_FORWARD_HEADDIM_SWITCH` of `ck_fmha_grouped_forward.h`
(lines 55-80). -/
def GROUPED_FORWARD_HEADDIM_SWITCH {β : Type} (HEAD_DIM1 HEAD_DIM2 : Int)
    (body : Int → Int → Int → β) : β :=
  if HEAD_DIM1 ≤ 32 ∧ HEAD_DIM2 ≤ 32 then body 32 1 1
  else if HEAD_DIM1 ≤ 64 ∧ HEAD_DIM2 ≤ 64 then body 64 2 2
  else body 128 4 4

/-- The function `grouped_infer_masktype_attnbias_dispatched::Run` of
`ck_fmha_grouped_infer.h` (lines 127-162): the list of device-op
instantiations it hands the parameters to. The three vector widths are the
class constants, all 1. -/
def grouped_infer_Run (param : GroupedForwardParams) : List DeviceOpInstanceArgs :=
  if param.K ≤ 32 ∧ param.Kv ≤ 32 then
    [{ kGemm1NPerBlock := 32, kGemm1NXdlPerWave := 1, kCShuffleNXdlPerWavePerShuffle := 1,
       kABBlockTransferSrcScalarPerVector := 1, kB1BlockTransferSrcScalarPerVector := 1,
       kCShuffleBlockTransferScalarPerVector := 1 }]
  else if param.K ≤ 64 ∧ param.Kv ≤ 64 then
    [{ kGemm1NPerBlock := 64, kGemm1NXdlPerWave := 2, kCShuffleNXdlPerWavePerShuffle := 2,
       kABBlockTransferSrcScalarPerVector := 1, kB1BlockTransferSrcScalarPerVector := 1,
       kCShuffleBlockTransferScalarPerVector := 1 }]
  else
    [{ kGemm1NPerBlock := 128, kGemm1NXdlPerWave := 4, kCShuffleNXdlPerWavePerShuffle := 4,
       kABBlockTransferSrcScalarPerVector := 1, kB1BlockTransferSrcScalarPerVector := 1,
       kCShuffleBlockTransferScalarPerVector := 1 }]

/-- The bucket `(kGemm1NPerBlock, kGemm1NXdlPerWave,
kCShuffleNXdlPerWavePerShuffle)` by threshold on the larger head dimension. -/
def headDimBucket (K Kv : Int) : Int × Int × Int :=
  if max K Kv ≤ 32 then (32, 1, 1) else if max K Kv ≤ 64 then (64, 2, 2) else (128, 4, 4)

/-! ## Tile pipeline dispatch: `ck_tiled_fmha_grouped_infer.h` -/

/-- The two precompiled tile shapes of the tile pipeline. -/
inductive FmhaShape where
  | FmhaShapeHDim64
  | FmhaShapeHDim128
  deriving DecidableEq, Repr

/-- The block tile of a shape: `FmhaBlockTileHdim64`, `FmhaBlockTileHdim128`. -/
def FmhaShape.blockTile : FmhaShape → List Int
  | .FmhaShapeHDim64 => [128, 64, 32, 64, 32, 64]
  | .FmhaShapeHDim128 => [128, 128, 32, 128, 32, 128]

/-- The `FmhaKernel` type that `RunWithKernel` launches, identified by the
compile-time choices that make it up. -/
structure FmhaKernelLaunch where
  shape : FmhaShape
  has_masking : Bool
  use_local_attention : Bool
  has_attn_bias : Bool
  deriving DecidableEq, Repr

/-- What the tile dispatcher did: the kernels it launched and the error it
raised, if any. -/
structure TileDispatchResult where
  launched : List FmhaKernelLaunch
  error : Option String
  deriving DecidableEq, Repr

/-- Modelled from the spec: the macro `BOOL_SWITCH` of `ck_tiled_bool_switch.h`,
which is not among the sources; it materialises a runtime boolean as a
compile-time constant and runs the body with it. -/
def BOOL_SWITCH {β : Type} (cond : Bool) (body : Bool → β) : β :=
  if cond then body true else body false

/-- The macro `GROUPED_INFER_HEADDIM_SWITCH` of `ck_tiled_fmha_grouped_infer.h`
(lines 77-95). -/
def GROUPED_INFER_HEADDIM_SWITCH (HEAD_DIM1 HEAD_DIM2 : Int)
    (body : FmhaShape → TileDispatchResult) : TileDispatchResult :=
  if HEAD_DIM1 = HEAD_DIM2 ∧ HEAD_DIM2 = 64 then body FmhaShape.FmhaShapeHDim64
  else if HEAD_DIM1 = HEAD_DIM2 ∧ HEAD_DIM2 = 128 then body FmhaShape.FmhaShapeHDim128
  else { launched := [], error := some "Head-dim sizes not supported!" }

/-- The function `grouped_infer_causalmask_attnbias_dispatched::RunWithKernel`
(lines 136-173): one kernel launch. -/
def grouped_infer_causalmask_attnbias_dispatched_RunWithKernel (k : FmhaKernelLaunch) :
    TileDispatchResult :=
  { launched := [k], error := none }

/-- The function `grouped_infer_causalmask_attnbias_dispatched<_, has_causal_mask,
has_attn_bias>::Run` (lines 97-134). -/
def grouped_infer_causalmask_attnbias_dispatched_Run (has_causal_mask has_attn_bias : Bool)
    (param : GroupedForwardParams) : TileDispatchResult :=
  let has_local_attention : Bool := if param.window_size > 0 then true else false
  BOOL_SWITCH has_local_attention (fun USE_LOCAL_ATTENTION =>
    let has_masking := has_causal_mask || USE_LOCAL_ATTENTION
    GROUPED_INFER_HEADDIM_SWITCH param.K param.Kv (fun shape =>
      grouped_infer_causalmask_attnbias_dispatched_RunWithKernel
        { shape := shape, has_masking := has_masking,
          use_local_attention := USE_LOCAL_ATTENTION, has_attn_bias := has_attn_bias }))

/-! ## Vector-width selection in the legacy `Run` functions -/

/-- The constants of `GemmOpConstantsBatchedInfer` / `GemmOpConstantsGroupedForward`
(`ck_fmha_device_gemm_constants.h`, not among the sources) that `Run` reads,
taken as given. `Run` compiles only when `AK1 / ABlockTransfer...::At(I2)`
equals `BK1 / BBlockTransfer...::At(I2)` (its `static_assert`). -/
structure GemmOpConstants where
  AK1 : Int
  BK1 : Int
  ABlockTransferThreadClusterLengths_AK0_M_AK1 : Fin 3 → Int
  BBlockTransferThreadClusterLengths_BK0_N_BK1 : Fin 3 → Int
  B1BlockTransferThreadClusterLengths_BK0_N_BK1 : Fin 3 → Int
  CShuffleBlockTransferClusterLengths_MBlock_MPerBlock_NBlock_NPerBlock : Fin 4 → Int

/-- The constant `thread_slice_length_ak1` of `Run`. -/
def thread_slice_length_ak1 (c : GemmOpConstants) : Int :=
  Int.tdiv c.AK1 (c.ABlockTransferThreadClusterLengths_AK0_M_AK1 2)

/-- The constant `thread_slice_length_gemm1n` of `Run`. -/
def thread_slice_length_gemm1n (c : GemmOpConstants) (kGemm1NPerBlock : Int) : Int :=
  Int.tdiv kGemm1NPerBlock (c.B1BlockTransferThreadClusterLengths_BK0_N_BK1 1)

/-- The constant `thread_slice_length_cshuflle_n` of `Run`. -/
def thread_slice_length_cshuflle_n (c : GemmOpConstants)
    (kGemm1NPerBlock kGemm1NXdlPerWave kCShuffleNXdlPerWavePerShuffle : Int) : Int :=
  Int.tdiv (Int.tdiv (kCShuffleNXdlPerWavePerShuffle * kGemm1NPerBlock) kGemm1NXdlPerWave)
    (c.CShuffleBlockTransferClusterLengths_MBlock_MPerBlock_NBlock_NPerBlock 3)

/-- The macro `ALIGN_SWITCH_2` of `ck_align_switch.h`, which is not among the
sources: it binds its two names to the widths chosen from (maximum, length)
and runs the body. The choice function `select` is taken as given. -/
def ALIGN_SWITCH_2 {β : Type} (select : Int → Int → Int)
    (CONST_ALIGN_MAX1 LENGTH1 CONST_ALIGN_MAX2 LENGTH2 : Int) (body : Int → Int → β) : β :=
  body (select CONST_ALIGN_MAX1 LENGTH1) (select CONST_ALIGN_MAX2 LENGTH2)

/-- The body passed to the head-dim switch by `Run` (batched_infer lines
181-243, grouped_forward lines 186-249); `cap` is the literal in
`min(cap, thread_slice_length_gemm1n)`: 4 in batched_infer, 2 in
grouped_forward. -/
def legacy_Run_body (c : GemmOpConstants) (select : Int → Int → Int) (cap K Kv : Int)
    (kABBlockTransferSrcScalarPerVector_max : Int)
    (kGemm1NPerBlock kGemm1NXdlPerWave kCShuffleNXdlPerWavePerShuffle : Int) :
    List DeviceOpInstanceArgs :=
  let kB1BlockTransferSrcScalarPerVector_max :=
    min cap (thread_slice_length_gemm1n c kGemm1NPerBlock)
  let kCShuffleBlockTransferScalarPerVector_max :=
    min 4 (thread_slice_length_cshuflle_n c kGemm1NPerBlock kGemm1NXdlPerWave
      kCShuffleNXdlPerWavePerShuffle)
  if kB1BlockTransferSrcScalarPerVector_max ≥ kCShuffleBlockTransferScalarPerVector_max then
    ALIGN_SWITCH_2 select kABBlockTransferSrcScalarPerVector_max K
      kB1BlockTransferSrcScalarPerVector_max Kv
      (fun kABBlockTransferSrcScalarPerVector kB1BlockTransferSrcScalarPerVector =>
        let kCShuffleBlockTransferScalarPerVector :=
          min kB1BlockTransferSrcScalarPerVector kCShuffleBlockTransferScalarPerVector_max
        [{ kGemm1NPerBlock := kGemm1NPerBlock
           kGemm1NXdlPerWave := kGemm1NXdlPerWave
           kCShuffleNXdlPerWavePerShuffle := kCShuffleNXdlPerWavePerShuffle
           kABBlockTransferSrcScalarPerVector := kABBlockTransferSrcScalarPerVector
           kB1BlockTransferSrcScalarPerVector := kB1BlockTransferSrcScalarPerVector
           kCShuffleBlockTransferScalarPerVector := kCShuffleBlockTransferScalarPerVector }])
  else
    ALIGN_SWITCH_2 select kABBlockTransferSrcScalarPerVector_max K
      kCShuffleBlockTransferScalarPerVector_max Kv
      (fun kABBlockTransferSrcScalarPerVector kCShuffleBlockTransferScalarPerVector =>
        let kB1BlockTransferSrcScalarPerVector :=
          min kCShuffleBlockTransferScalarPerVector kB1BlockTransferSrcScalarPerVector_max
        [{ kGemm1NPerBlock := kGemm1NPerBlock
           kGemm1NXdlPerWave := kGemm1NXdlPerWave
           kCShuffleNXdlPerWavePerShuffle := kCShuffleNXdlPerWavePerShuffle
           kABBlockTransferSrcScalarPerVector := kABBlockTransferSrcScalarPerVector
           kB1BlockTransferSrcScalarPerVector := kB1BlockTransferSrcScalarPerVector
           kCShuffleBlockTransferScalarPerVector := kCShuffleBlockTransferScalarPerVector }])

/-- The function `batched_infer_masktype_attnbias_dispatched::Run` of
`ck_fmha_batched_infer.h` (lines 162-244): the device-op instantiations it
hands the parameters to. -/
def batched_infer_Run (c : GemmOpConstants) (select : Int → Int → Int)
    (param : BatchedForwardParams) : List DeviceOpInstanceArgs :=
  let kABBlockTransferSrcScalarPerVector_max := min 8 (thread_slice_length_ak1 c)
  BATCHED_INFER_HEADDIM_SWITCH param.K param.Kv
    (legacy_Run_body c select 4 param.K param.Kv kABBlockTransferSrcScalarPerVector_max)

/-- The function `grouped_forward_masktype_attnbias_dispatched::Run` of
`ck_fmha_grouped_forward.h` (lines 167-250). -/
def grouped_forward_Run (c : GemmOpConstants) (select : Int → Int → Int)
    (param : GroupedForwardParams) : List DeviceOpInstanceArgs :=
  let kABBlockTransferSrcScalarPerVector_max := min 8 (thread_slice_length_ak1 c)
  GROUPED_FORWARD_HEADDIM_SWITCH param.K param.Kv
    (legacy_Run_body c select 2 param.K param.Kv kABBlockTransferSrcScalarPerVector_max)

/-! ## The backward binding as a whole: `efficient_attention_backward_ck` -/

/-- An input tensor: what the binding reads of it, and the identity of its
storage (two tensors alias when their storages are the same). -/
structure TensorArg where
  meta : TensorMeta
  storage : Nat
  deriving DecidableEq, Repr

/-- The arguments of `efficient_attention_backward_ck`, and what the call
meets outside them: for the environment variable `USE_FP32_QKV_GRAD`, when
set, what `std::stoi` makes of its value, the integer or the exception it
throws (no number at the start of the string, or one outside `int`); the
answers of the vendored device op for the kernel instance the call runs; and
the contents of the two default-initialised records `BatchedBackwardParams batched_backward_params;`
(line 516) and `GroupedBackwardParams grouped_backward_params;` (line 533)
before the lambdas fill them: C++ leaves their scalar, array and pointer
members indeterminate, so they are any values (the vectors of the grouped
record are empty, see `GroupedBackwardParams.default_initialized`). The
floating-point arguments `dropout_p` and `scale` are left out. -/
structure BackwardArgs where
  grad_out : TensorMeta
  query : TensorArg
  key : TensorArg
  value : TensorArg
  bias : Option BiasCtx
  seqstart_q : Option HostIntTensor
  seqstart_k : Option HostIntTensor
  max_seqlen_q_ : Option Int
  seqlen_k : Option HostIntTensor
  logsumexp : TensorMeta
  out : TensorMeta
  rng_seed : Int
  rng_offset : Int
  custom_mask_type : Int
  env_USE_FP32_QKV_GRAD : Option (Except String Int)
  device_op : DeviceOp
  batched_backward_params : BatchedBackwardParams
  grouped_backward_params : GroupedBackwardParams

/-- Modelled from the spec: the macro `CHECK_NOSPARSE_CONTIGUOUS_CUDA` of
`ck_fmha_util.h`, which is not among the sources: the tensor resides on the
accelerator, is dense and fully contiguous. -/
def CHECK_NOSPARSE_CONTIGUOUS_CUDA (t : TensorMeta) : Except String Unit := do
  check t.is_cuda "must be a CUDA tensor"
  check (!t.is_sparse) "must be a dense tensor"
  check t.is_contiguous "must be contiguous"

/-- The C++ expression `a % b` on `int64_t`: truncated remainder, undefined
(no result) when `b` is zero. -/
def cMod (a b : Int) : Except String Int :=
  if b = 0 then .error "integer division by zero" else .ok (Int.tmod a b)

/-- The shape checks at the head of `efficient_attention_backward_ck`
(lines 57-83). -/
def efficient_attention_backward_ck_shape_checks (a : BackwardArgs) : Except String Unit := do
  -- ndim
  check (a.query.meta.dim = a.grad_out.dim) "query.dim() == grad_out.dim()"
  check (a.query.meta.dim = a.key.meta.dim) "query.dim() == key.dim()"
  check (a.query.meta.dim = a.value.meta.dim) "query.dim() == value.dim()"
  check (a.query.meta.dim = 4) "query.dim() == 4"
  -- batch size
  let q0 ← a.query.meta.size 0
  let g0 ← a.grad_out.size 0
  check (q0 = g0) "query.size(0) == grad_out.size(0)"
  let k0 ← a.key.meta.size 0
  check (q0 = k0) "query.size(0) == key.size(0)"
  let v0 ← a.value.meta.size 0
  check (q0 = v0) "query.size(0) == value.size(0)"
  -- seqlen
  let k1 ← a.key.meta.size 1
  let v1 ← a.value.meta.size 1
  check (k1 = v1) "key.size(1) == value.size(1)"
  let q1 ← a.query.meta.size 1
  let g1 ← a.grad_out.size 1
  check (q1 = g1) "query.size(1) == grad_out.size(1)"
  -- num heads
  let q2 ← a.query.meta.size 2
  let k2 ← a.key.meta.size 2
  let r ← cMod q2 k2
  check (r = 0) "query.size(2) % key.size(2) == 0"
  let v2 ← a.value.meta.size 2
  check (k2 = v2) "key.size(2) == value.size(2)"
  let g2 ← a.grad_out.size 2
  check (q2 = g2) "query.size(2) == grad_out.size(2)"
  -- embedding per head
  let q3 ← a.query.meta.size 3
  let k3 ← a.key.meta.size 3
  check (q3 = k3) "query.size(3) == key.size(3)"
  let v3 ← a.value.meta.size 3
  let g3 ← a.grad_out.size 3
  check (v3 = g3) "value.size(3) == grad_out.size(3)"
  -- out and grad_out have the same shapes
  check (a.out.sizes = a.grad_out.sizes) "out.sizes() == grad_out.sizes()"
  check (a.out.strides = a.grad_out.strides) "out.strides() == grad_out.strides()"

/-- The layout and device checks of lines 85-92. -/
def efficient_attention_backward_ck_device_checks (a : BackwardArgs) : Except String Unit := do
  CHECK_NOSPARSE_LASTCONTIGUOUS_CUDA a.grad_out
  CHECK_NOSPARSE_LASTCONTIGUOUS_CUDA a.query.meta
  CHECK_NOSPARSE_LASTCONTIGUOUS_CUDA a.key.meta
  CHECK_NOSPARSE_LASTCONTIGUOUS_CUDA a.value.meta
  CHECK_NOSPARSE_CONTIGUOUS_CUDA a.logsumexp

/-- The checks of the offset tensors inside `if(seqstart_q.has_value())`,
lines 99-104. -/
def efficient_attention_backward_ck_seqstart_layout_checks (seqstart_q : HostIntTensor)
    (seqstart_k : Option HostIntTensor) : Except String Unit := do
  check (seqstart_q.meta.dtype = ScalarType.kInt) "seqstart_q->scalar_type() == at::ScalarType::Int"
  let seqstart_k ← derefOptional seqstart_k
  check (seqstart_k.meta.dtype = ScalarType.kInt) "seqstart_k->scalar_type() == at::ScalarType::Int"
  check (seqstart_q.meta.dim = 1 && seqstart_k.meta.dim = 1)
    "seqstart_q->dim() == 1 && seqstart_k->dim() == 1"
  CHECK_NOSPARSE_CONTIGUOUS_CPU seqstart_q.meta
  CHECK_NOSPARSE_CONTIGUOUS_CPU seqstart_k.meta
  let nq ← seqstart_q.meta.size 0
  let nk ← seqstart_k.meta.size 0
  check (nq = nk) "seqstart_q->size(0) == seqstart_k->size(0)"

/-- The grouped-mode checks of lines 94-107. -/
def efficient_attention_backward_ck_seqstart_checks (a : BackwardArgs) : Except String Unit := do
  check (a.seqstart_q.isSome = a.seqstart_k.isSome)
    "seqstart_q.has_value() == seqstart_k.has_value()"
  check (!(a.seqstart_q.isSome && a.bias.isSome)) "seqstart_q + bias not supported"
  match a.seqstart_q with
  | some seqstart_q => do
    efficient_attention_backward_ck_seqstart_layout_checks seqstart_q a.seqstart_k
    let q0 ← a.query.meta.size 0
    check (q0 = 1) "seqstart_q only supports batch_size=1"
    check a.max_seqlen_q_.isSome "max_seqlen_q_.has_value()"
  | none => pure ()

/-- The device allocations of one call. -/
inductive Allocation where
  | chunk | grad_q | grad_k | grad_v | grad_bias | tmp_grad_k | tmp_grad_v
  | reduced_grad_k | reduced_grad_v
  deriving DecidableEq, Repr

/-- A tensor made during the call: its metadata, the allocation that holds its
elements and the offset (in elements) of its first element in it. -/
structure GradTensor where
  meta : TensorMeta
  allocation : Allocation
  storage_offset : Int
  deriving DecidableEq, Repr

/-- The strides `at::empty` gives a new tensor of the given sizes: row-major,
an axis of extent 0 counting as extent 1. -/
def contiguousStridesInt : List Int → List Int
  | [] => []
  | _ :: rest => (rest.map (fun n => max n 1)).prod :: contiguousStridesInt rest

/-- The call `at::empty(sizes, options)` with the device and layout of `like`
and the given element type. -/
def at_empty_like (alloc : Allocation) (sizes : List Int) (dtype : ScalarType)
    (like : TensorMeta) : GradTensor :=
  { meta := { sizes := sizes, strides := contiguousStridesInt sizes, dtype := dtype,
              is_cuda := like.is_cuda, is_sparse := like.is_sparse },
    allocation := alloc, storage_offset := 0 }

/-- The call `at::empty_strided(like.sizes(), like.strides(), options)` with the
device and layout of `like` and the given element type. -/
def at_empty_strided_like (alloc : Allocation) (dtype : ScalarType) (like : TensorMeta) :
    GradTensor :=
  { meta := { like with dtype := dtype }, allocation := alloc, storage_offset := 0 }

/-- The method `Tensor::select(dim, index)` for `dim, index ≥ 0`: the view
without axis `dim`, starting `index` steps along it. -/
def GradTensor.select (t : GradTensor) (dim : Nat) (index : Int) : Except String GradTensor :=
  match t.meta.sizes[dim]?, t.meta.strides[dim]? with
  | some n, some s =>
    if 0 ≤ index ∧ index < n then
      .ok { meta := { t.meta with sizes := t.meta.sizes.eraseIdx dim
                                  strides := t.meta.strides.eraseIdx dim },
            allocation := t.allocation,
            storage_offset := t.storage_offset + index * s }
    else .error "select(): index out of range"
  | _, _ => .error "Dimension out of range"

/-- The method `Tensor::unflatten(dim, {a, b})` on metadata: axis `dim` is
split into two axes whose extents must multiply up to its extent. -/
def GradTensor.unflatten (t : GradTensor) (dim : Nat) (a b : Int) : Except String GradTensor :=
  match t.meta.sizes[dim]?, t.meta.strides[dim]? with
  | some n, some s =>
    if a * b = n then
      .ok { t with meta :=
        { t.meta with
          sizes := t.meta.sizes.take dim ++ [a, b] ++ t.meta.sizes.drop (dim + 1)
          strides := t.meta.strides.take dim ++ [b * s, s] ++ t.meta.strides.drop (dim + 1) } }
    else .error "unflatten: provided sizes do not multiply up to the size of dim"
  | _, _ => .error "Dimension out of range"

/-- The method `Tensor::sum(dim)` on metadata: a new contiguous tensor without
axis `dim`. -/
def GradTensor.sum (t : GradTensor) (dim : Nat) (alloc : Allocation) : Except String GradTensor :=
  match t.meta.sizes[dim]? with
  | some _ =>
    .ok (at_empty_like alloc (t.meta.sizes.eraseIdx dim) t.meta.dtype t.meta)
  | none => .error "Dimension out of range"

/-- The device work a call issues: the allocation of a tensor, `fill_(0)`,
the scratch workspace a kernel instance allocates (`SimpleDeviceMem`), the
launch of the instance's kernel (`invoker.Run`), and `dst = src.sum(dim)`. -/
inductive Effect where
  | device_alloc (t : GradTensor)
  | device_fill_zero (t : GradTensor)
  | workspace_alloc (c : KernelCall)
  | kernel_launch (c : KernelCall)
  | device_sum (src : GradTensor) (dim : Nat) (dst : GradTensor)
  deriving DecidableEq, Repr

/-- A computation that issues device work and then returns or raises: the
effects issued, in order, and the result. -/
structure Outcome (α : Type) where
  effects : List Effect
  result : Except String α

/-- Sequencing: the effects of the first computation, then, unless it raised,
those of the second. -/
def Outcome.bind {α β : Type} (x : Outcome α) (f : α → Outcome β) : Outcome β :=
  match x.result with
  | .error e => { effects := x.effects, result := .error e }
  | .ok v => { effects := x.effects ++ (f v).effects, result := (f v).result }

instance : Monad Outcome where
  pure v := { effects := [], result := .ok v }
  bind := Outcome.bind

/-- A host-side step: no device work. -/
def hostStep {α : Type} (x : Except String α) : Outcome α := { effects := [], result := x }

/-- One piece of device work. -/
def emit (e : Effect) : Outcome Unit := { effects := [e], result := .ok () }

/-- The body of the function template
`grouped_backward_masktype_attnbias_dispatched` of `ck_fmha_grouped_backward.h`
(lines 137-250), run for the instance `c` on the record `param`: the
descriptor loop (lines 137-209; host work, and a read past the end of a vector
has no result, so the instance does not go on), the scratch workspace (line
239), the support test, which throws (lines 243-248), and the launch (line
250). -/
def grouped_backward_masktype_attnbias_dispatched (op : DeviceOp) (c : KernelCall)
    (param : GroupedBackwardParams) : Outcome Unit := do
  let _ ← hostStep
    (match grouped_backward_problem_descs c.has_attn_bias param with
     | some problem_descs => Except.ok problem_descs
     | none => Except.error "problem_descs: read past the end of a vector")
  emit (.workspace_alloc c)
  hostStep
    (check (op.IsSupportedArgument c) (op.GetTypeString c ++ " does not support this problem"))
  emit (.kernel_launch c)

/-- Modelled from the spec: `run_batched_backward_masktype_attnbias_dispatched`,
defined in `ck_fmha_batched_backward.h`, which is not among the sources. Per
the spec's kernel-instance and device-op contract the instance makes the
argument, allocates the scratch workspace, fails with "<type string> does not
support this problem" when the device op rejects the argument, and otherwise
launches the kernel; the steps are in the order of the device-op contract,
which is the order of the instance bodies that are among the sources. -/
def run_batched_backward_masktype_attnbias_dispatched (op : DeviceOp) (c : KernelCall) :
    Outcome Unit := do
  emit (.workspace_alloc c)
  hostStep
    (check (op.IsSupportedArgument c) (op.GetTypeString c ++ " does not support this problem"))
  emit (.kernel_launch c)

/-- The instances a dispatcher called, run one after the other by `body`. -/
def runInstances (body : KernelCall → Outcome Unit) : List KernelCall → Outcome Unit
  | [] => pure ()
  | c :: rest => do
    body c
    runInstances body rest

/-- Running a dispatcher whose instances have the body `body`: the instances
it called, then the error of its own `throw` if it raised one. -/
def runDispatcher (body : KernelCall → Outcome Unit) (r : DispatchResult) : Outcome Unit := do
  runInstances body r.invoked
  hostStep
    (match r.error with
     | some e => Except.error e
     | none => Except.ok ())

/-- The gradients allocated by lines 129-189. -/
def efficient_attention_backward_ck_allocate (a : BackwardArgs) (use_fp32_qkv_grad : Bool)
    (B M N Hq Hkv K Kv : Int) : Outcome (GradTensor × GradTensor × GradTensor) := do
  let grad_dtype := if use_fp32_qkv_grad then ScalarType.kFloat else a.query.meta.dtype
  let q1 ← hostStep (a.query.meta.size 1)
  let k1 ← hostStep (a.key.meta.size 1)
  let q3 ← hostStep (a.query.meta.size 3)
  let v3 ← hostStep (a.value.meta.size 3)
  let q2 ← hostStep (a.query.meta.size 2)
  let k2 ← hostStep (a.key.meta.size 2)
  let k3 ← hostStep (a.key.meta.size 3)
  if q1 = k1 ∧ q3 = v3 ∧ q2 = k2 ∧ a.query.storage = a.key.storage ∧
      a.query.storage = a.value.storage then do
    let chunk := at_empty_like Allocation.chunk [B, M, 3, Hq, K] grad_dtype a.query.meta
    emit (.device_alloc chunk)
    let grad_q ← hostStep (chunk.select 2 0)
    let grad_k ← hostStep (chunk.select 2 1)
    let grad_v ← hostStep (chunk.select 2 2)
    emit (.device_fill_zero grad_q)
    pure (grad_q, grad_k, grad_v)
  else if k3 = v3 ∧ a.key.storage = a.value.storage then do
    let chunk := at_empty_like Allocation.chunk [B, N, 2, Hkv, Kv] grad_dtype a.query.meta
    emit (.device_alloc chunk)
    let grad_k ← hostStep (chunk.select 2 0)
    let grad_v ← hostStep (chunk.select 2 1)
    let grad_q := at_empty_strided_like Allocation.grad_q grad_dtype a.query.meta
    emit (.device_alloc grad_q)
    emit (.device_fill_zero grad_q)
    pure (grad_q, grad_k, grad_v)
  else do
    let grad_q := at_empty_strided_like Allocation.grad_q grad_dtype a.query.meta
    emit (.device_alloc grad_q)
    let grad_k :=
      at_empty_strided_like Allocation.grad_k
        (if use_fp32_qkv_grad then ScalarType.kFloat else a.key.meta.dtype) a.key.meta
    emit (.device_alloc grad_k)
    let grad_v :=
      at_empty_strided_like Allocation.grad_v
        (if use_fp32_qkv_grad then ScalarType.kFloat else a.value.meta.dtype) a.value.meta
    emit (.device_alloc grad_v)
    emit (.device_fill_zero grad_q)
    pure (grad_q, grad_k, grad_v)

/-- The lambda `set_batched_backward_params` of
`efficient_attention_backward_ck` (lines 226-324), applied to the parameter
record `p`. -/
def set_batched_backward_params (ctx : BackwardCtx) (p : BatchedBackwardParams) :
    Except String BatchedBackwardParams := do
  let p : BatchedBackwardParams :=
    { p with
      B := wrapInt32 ctx.B
      M := wrapInt32 ctx.M
      N := wrapInt32 ctx.N
      Hq := wrapInt32 ctx.Hq
      Hkv := wrapInt32 ctx.Hkv
      K := wrapInt32 ctx.K
      Kv := wrapInt32 ctx.Kv
      use_fp32_qkv_grad := ctx.use_fp32_qkv_grad
      is_mqa_gqa := ctx.is_mqa_gqa }
  let lse0 ← ctx.logsumexp.size 0
  check (p.B = lse0) "p.B == logsumexp.size(0)"
  let lse1 ← ctx.logsumexp.size 1
  check (p.Hq = lse1) "p.Hq == logsumexp.size(1)"
  let lse2 ← ctx.logsumexp.size 2
  check (p.M = lse2) "p.M == logsumexp.size(2)"
  let p : BatchedBackwardParams :=
    { p with
      q_ptr := some ⟨Buffer.query, 0⟩
      k_ptr := some ⟨Buffer.key, 0⟩
      v_ptr := some ⟨Buffer.value, 0⟩
      grad_out_ptr := some ⟨Buffer.grad_out, 0⟩
      out_ptr := some ⟨Buffer.out, 0⟩
      grad_q_ptr := some ⟨Buffer.grad_q, 0⟩
      grad_k_ptr := some ⟨if ctx.is_mqa_gqa then Buffer.tmp_grad_k else Buffer.grad_k, 0⟩
      grad_v_ptr := some ⟨if ctx.is_mqa_gqa then Buffer.tmp_grad_v else Buffer.grad_v, 0⟩ }
  let q_strides ← strides0123 ctx.query
  let k_strides ← strides0123 ctx.key
  let v_strides ← strides0123 ctx.value
  let out_strides ← strides0123 ctx.out
  let p := { p with q_strides := q_strides, k_strides := k_strides, v_strides := v_strides,
                    out_strides := out_strides }
  let p ←
    if ctx.is_mqa_gqa then do
      let tk ← strides0123 ctx.tmp_grad_k
      let tv ← strides0123 ctx.tmp_grad_v
      pure { p with tmp_grad_k_strides := tk, tmp_grad_v_strides := tv }
    else pure p
  let p ←
    match ctx.bias with
    | some bias => do
      CHECK_NOSPARSE_LASTCONTIGUOUS_CUDA bias.meta
      check (bias.meta.dtype = ctx.query.dtype) "bias->scalar_type() == query.scalar_type()"
      let p := { p with has_attn_bias := true, attn_bias_ptr := some ⟨Buffer.attn_bias, 0⟩ }
      let bias_4d_view ← bias.bias_4d_view
      let bs ← strides0123 bias_4d_view
      let p := { p with attn_bias_strides := bs }
      pure (if ctx.bias_requires_grad then
              { p with grad_bias_ptr := some ⟨Buffer.grad_bias, 0⟩ }
            else p)
    | none => pure { p with has_attn_bias := true, attn_bias_ptr := none, grad_bias_ptr := none }
  pure { p with bias_has_grad := ctx.bias_requires_grad
                custom_mask_type := ctx.custom_mask_type
                philox_seed := ctx.rng_seed
                philox_offset := ctx.rng_offset
                logsumexp_ptr := some ⟨Buffer.logsumexp, 0⟩ }

/-- Modelled from the spec: `batched_backward_fp16`, declared `extern` in
`attention_backward_generic.cpp` and defined in a file that is not among the
sources; per the spec's dispatcher contract it maps `(custom_mask_type,
has_attn_bias, use_fp32_qkv_grad)` to the `half_t` instance with those template
arguments and fails on a mask type outside {0, 1, 2}. -/
def batched_backward_fp16 (param : BatchedBackwardParams) : DispatchResult :=
  if param.custom_mask_type = 0 ∨ param.custom_mask_type = 1 ∨ param.custom_mask_type = 2 then
    runKernel (.run_batched_backward_masktype_attnbias_dispatched CkType.half_t
      param.custom_mask_type param.has_attn_bias param.use_fp32_qkv_grad)
  else throwRuntimeError "Invalid custom_mask_type value"

/-- Modelled from the spec: `grouped_backward_fp16`, declared `extern` in
`attention_backward_generic.cpp` and defined in a file that is not among the
sources; per the spec's dispatcher contract it maps `(custom_mask_type,
has_attn_bias)` to the `half_t` instance with those template arguments and
fails on a mask type outside {0, 1, 2}. -/
def grouped_backward_fp16 (param : GroupedBackwardParams) : DispatchResult :=
  if param.custom_mask_type = 0 ∨ param.custom_mask_type = 1 ∨ param.custom_mask_type = 2 then
    runKernel (.grouped_backward_masktype_attnbias_dispatched CkType.half_t
      param.custom_mask_type param.has_attn_bias)
  else throwRuntimeError "Invalid custom_mask_type value"

/-- One default-initialised `BatchedBackwardParams`, used in the examples: of
the members, all of which C++ leaves indeterminate, the scalars and arrays are
zero, the flags false and the pointers null. The call itself starts from the
arbitrary record `BackwardArgs.batched_backward_params`. -/
def defaultBatchedBackwardParams : BatchedBackwardParams :=
  { B := 0, M := 0, N := 0, Hq := 0, Hkv := 0, K := 0, Kv := 0,
    use_fp32_qkv_grad := false, is_mqa_gqa := false,
    q_ptr := none, k_ptr := none, v_ptr := none, grad_out_ptr := none, out_ptr := none,
    grad_q_ptr := none, grad_k_ptr := none, grad_v_ptr := none, attn_bias_ptr := none,
    grad_bias_ptr := none, logsumexp_ptr := none,
    q_strides := ![0, 0, 0, 0], k_strides := ![0, 0, 0, 0], v_strides := ![0, 0, 0, 0],
    out_strides := ![0, 0, 0, 0], tmp_grad_k_strides := ![0, 0, 0, 0],
    tmp_grad_v_strides := ![0, 0, 0, 0], attn_bias_strides := ![0, 0, 0, 0],
    has_attn_bias := false, bias_has_grad := false,
    custom_mask_type := 0, philox_seed := 0, philox_offset := 0 }

/-- The record `GroupedBackwardParams grouped_backward_params;` (line 533)
whose indeterminate scalar and array members are those of `indeterminate`:
default-initialisation leaves these as they are and makes every vector
empty. -/
def GroupedBackwardParams.default_initialized (indeterminate : GroupedBackwardParams) :
    GroupedBackwardParams :=
  { indeterminate with
    host_seqstart_q := [], host_seqstart_k := [], host_seqlen_k := [],
    q_ptrs := [], k_ptrs := [], v_ptrs := [], out_ptrs := [], grad_out_ptrs := [],
    logsumexp_ptrs := [], grad_q_ptrs := [], grad_k_ptrs := [], grad_v_ptrs := [],
    attn_bias_ptrs := [], grad_bias_ptrs := [], randvals_ptrs := [] }

/-- One default-initialised `GroupedBackwardParams`, used in the examples:
every vector is empty, and of the other members, which C++ leaves
indeterminate, the scalars and arrays are zero and the flags false. The call
itself starts from `BackwardArgs.grouped_backward_params`, default-initialised. -/
def defaultGroupedBackwardParams : GroupedBackwardParams :=
  { num_batches := 0, M := 0, N := 0, Hq := 0, Hkv := 0, num_heads := 0, K := 0, Kv := 0,
    max_seqlen_q := 0, use_fp32_qkv_grad := false, is_mqa_gqa := false,
    q_strides := ![0, 0, 0], k_strides := ![0, 0, 0], v_strides := ![0, 0, 0],
    out_strides := ![0, 0, 0], tmp_grad_k_strides := ![0, 0, 0],
    tmp_grad_v_strides := ![0, 0, 0], attn_bias_strides := ![0, 0, 0, 0],
    randvals_strides := ![0, 0, 0], has_attn_bias := false, bias_has_grad := false,
    custom_mask_type := 0, philox_seed := 0, philox_offset := 0,
    host_seqstart_q := [], host_seqstart_k := [], host_seqlen_k := [],
    q_ptrs := [], k_ptrs := [], v_ptrs := [], out_ptrs := [], grad_out_ptrs := [],
    logsumexp_ptrs := [], grad_q_ptrs := [], grad_k_ptrs := [], grad_v_ptrs := [],
    attn_bias_ptrs := [], grad_bias_ptrs := [], randvals_ptrs := [] }

/-- An `at::Tensor` that has not been assigned (`tmp_grad_k`, `tmp_grad_v`
without MQA/GQA). -/
def undefinedTensor : TensorMeta :=
  { sizes := [], strides := [], dtype := ScalarType.kFloat, is_cuda := false, is_sparse := false }

/-- The gradients returned by `efficient_attention_backward_ck`; `grad_bias`
is an undefined tensor (`none`) unless the bias requires a gradient. -/
structure BackwardResult where
  grad_q : GradTensor
  grad_k : GradTensor
  grad_v : GradTensor
  grad_bias : Option GradTensor
  deriving DecidableEq, Repr

/-- The value of `use_fp32_qkv_grad` after lines 109-114: `false` when the
environment variable is not set, `stoi(env_str) > 0` when it is; an exception
of `std::stoi` ends the call. -/
def read_USE_FP32_QKV_GRAD (env : Option (Except String Int)) : Except String Bool :=
  match env with
  | some (.ok v) => .ok (if v > 0 then true else false)
  | some (.error e) => .error e
  | none => .ok false

/-- The state of a call when the parameter-population lambdas are defined
(line 226): the captured variables and the tensors allocated so far. -/
structure PreparedCall where
  ctx : BackwardCtx
  grad_q : GradTensor
  grad_k : GradTensor
  grad_v : GradTensor
  grad_bias : Option GradTensor
  tmp_grad_k : Option GradTensor
  tmp_grad_v : Option GradTensor

/-- Lines 199-204: whether the bias requires a gradient. -/
def bias_requires_grad_of (bias : Option BiasCtx) : Bool :=
  match bias with
  | some bias => bias.requires_grad
  | none => false

/-- Lines 203-204: the allocation of `grad_bias`, with the layout and the
element type of the bias. -/
def efficient_attention_backward_ck_allocate_grad_bias (bias : Option BiasCtx) :
    Outcome (Option GradTensor) :=
  match bias with
  | some bias =>
    if bias.requires_grad then do
      let grad_bias := at_empty_strided_like Allocation.grad_bias bias.meta.dtype bias.meta
      emit (.device_alloc grad_bias)
      pure (some grad_bias)
    else pure none
  | none => pure none

/-- Lines 208-224: the temporaries `tmp_grad_k`, `tmp_grad_v` of the MQA/GQA
path; without MQA/GQA both stay undefined. -/
def efficient_attention_backward_ck_allocate_tmp (a : BackwardArgs) (use_fp32_qkv_grad : Bool)
    (is_mqa_gqa : Bool) (B N Hq K Kv : Int) :
    Outcome (Option GradTensor × Option GradTensor) :=
  let grad_dtype := if use_fp32_qkv_grad then ScalarType.kFloat else a.query.meta.dtype
  if is_mqa_gqa then do
    let tmp_grad_k := at_empty_like Allocation.tmp_grad_k [B, N, Hq, K] grad_dtype a.query.meta
    emit (.device_alloc tmp_grad_k)
    let tmp_grad_v := at_empty_like Allocation.tmp_grad_v [B, N, Hq, Kv] grad_dtype a.query.meta
    emit (.device_alloc tmp_grad_v)
    pure (some tmp_grad_k, some tmp_grad_v)
  else pure (none, none)

/-- The metadata of an optional tensor, an undefined tensor when absent. -/
def metaOrUndefined (t : Option GradTensor) : TensorMeta :=
  match t with
  | some t => t.meta
  | none => undefinedTensor

/-- The checks of lines 191-197: each gradient has the sizes and strides of
its input. -/
def efficient_attention_backward_ck_layout_checks (a : BackwardArgs)
    (grad_q grad_k grad_v : GradTensor) : Except String Unit := do
  check (a.query.meta.sizes = grad_q.meta.sizes) "query.sizes() == grad_q.sizes()"
  check (a.query.meta.strides = grad_q.meta.strides) "query.strides() == grad_q.strides()"
  check (a.key.meta.sizes = grad_k.meta.sizes) "key.sizes() == grad_k.sizes()"
  check (a.key.meta.strides = grad_k.meta.strides) "key.strides() == grad_k.strides()"
  check (a.value.meta.sizes = grad_v.meta.sizes) "value.sizes() == grad_v.sizes()"
  check (a.value.meta.strides = grad_v.meta.strides) "value.strides() == grad_v.strides()"

/-- Lines 57-224 of `efficient_attention_backward_ck`: validation, the
environment toggle and the allocation of the gradient buffers. The build flag
`XFORMERS_MEM_EFF_ATTENTION_DISABLE_BACKWARD` is taken as undefined and the
determinism alert of line 55 as passing. -/
def efficient_attention_backward_ck_prepare (a : BackwardArgs) : Outcome PreparedCall := do
  hostStep (efficient_attention_backward_ck_shape_checks a)
  hostStep (efficient_attention_backward_ck_device_checks a)
  hostStep (efficient_attention_backward_ck_seqstart_checks a)
  let use_fp32_qkv_grad ← hostStep (read_USE_FP32_QKV_GRAD a.env_USE_FP32_QKV_GRAD)
  let B ← hostStep (a.query.meta.size 0)
  let M ← hostStep (a.query.meta.size 1)
  let N ← hostStep (a.key.meta.size 1)
  let Hq ← hostStep (a.query.meta.size 2)
  let Hkv ← hostStep (a.key.meta.size 2)
  let K ← hostStep (a.query.meta.size 3)
  let Kv ← hostStep (a.value.meta.size 3)
  let grads ← efficient_attention_backward_ck_allocate a use_fp32_qkv_grad B M N Hq Hkv K Kv
  hostStep (efficient_attention_backward_ck_layout_checks a grads.1 grads.2.1 grads.2.2)
  let bias_requires_grad := bias_requires_grad_of a.bias
  let grad_bias ← efficient_attention_backward_ck_allocate_grad_bias a.bias
  let is_mqa_gqa : Bool := decide (Hq > Hkv)
  let tmp ← efficient_attention_backward_ck_allocate_tmp a use_fp32_qkv_grad is_mqa_gqa B N Hq K Kv
  pure
    { ctx :=
        { query := a.query.meta, key := a.key.meta, value := a.value.meta, out := a.out,
          grad_out := a.grad_out, logsumexp := a.logsumexp,
          grad_q := grads.1.meta, grad_k := grads.2.1.meta, grad_v := grads.2.2.meta,
          tmp_grad_k := metaOrUndefined tmp.1
          tmp_grad_v := metaOrUndefined tmp.2
          bias := a.bias, seqstart_q := a.seqstart_q, seqstart_k := a.seqstart_k,
          seqlen_k := a.seqlen_k, max_seqlen_q_ := a.max_seqlen_q_,
          B := B, M := M, N := N, Hq := Hq, Hkv := Hkv, K := K, Kv := Kv,
          use_fp32_qkv_grad := use_fp32_qkv_grad, is_mqa_gqa := is_mqa_gqa,
          bias_requires_grad := bias_requires_grad,
          rng_seed := a.rng_seed, rng_offset := a.rng_offset,
          custom_mask_type := a.custom_mask_type },
      grad_q := grads.1, grad_k := grads.2.1, grad_v := grads.2.2, grad_bias := grad_bias,
      tmp_grad_k := tmp.1, tmp_grad_v := tmp.2 }

/-- Lines 512-547: the default-initialised parameter record, its population
by the lambda, and the call of the entry point for the element type, batched
or grouped; the entry point calls a kernel instance, which is run. -/
def efficient_attention_backward_ck_launch (a : BackwardArgs) (s : PreparedCall) :
    Outcome Unit :=
  let inDataType := s.ctx.query.dtype
  match s.ctx.seqstart_q with
  | none => do
    let batched_backward_params ←
      hostStep (set_batched_backward_params s.ctx a.batched_backward_params)
    if inDataType = ScalarType.kHalf then
      runDispatcher (run_batched_backward_masktype_attnbias_dispatched a.device_op)
        (batched_backward_fp16 batched_backward_params)
    else if inDataType = ScalarType.kBFloat16 then
      runDispatcher (run_batched_backward_masktype_attnbias_dispatched a.device_op)
        (batched_backward_bp16 batched_backward_params)
    else hostStep (.error "input data-type is not supported")
  | some _ => do
    let grouped_backward_params ←
      hostStep (set_grouped_backward_params s.ctx a.grouped_backward_params.default_initialized)
    if inDataType = ScalarType.kHalf then
      runDispatcher
        (fun c => grouped_backward_masktype_attnbias_dispatched a.device_op c
          grouped_backward_params)
        (grouped_backward_fp16 grouped_backward_params)
    else if inDataType = ScalarType.kBFloat16 then
      runDispatcher
        (fun c => grouped_backward_masktype_attnbias_dispatched a.device_op c
          grouped_backward_params)
        (grouped_backward_bp16 grouped_backward_params)
    else hostStep (.error "input data-type is not supported")

/-- Lines 549-557: the MQA/GQA reduction and the returned tuple. -/
def efficient_attention_backward_ck_finish (s : PreparedCall) : Outcome BackwardResult :=
  match s.ctx.is_mqa_gqa, s.tmp_grad_k, s.tmp_grad_v with
  | true, some tmp_grad_k, some tmp_grad_v => do
    let tmp_grad_k_view ←
      hostStep (tmp_grad_k.unflatten 2 s.ctx.Hkv (Int.tdiv s.ctx.Hq s.ctx.Hkv))
    let tmp_grad_v_view ←
      hostStep (tmp_grad_v.unflatten 2 s.ctx.Hkv (Int.tdiv s.ctx.Hq s.ctx.Hkv))
    let grad_k ← hostStep (tmp_grad_k_view.sum 3 Allocation.reduced_grad_k)
    emit (.device_sum tmp_grad_k_view 3 grad_k)
    let grad_v ← hostStep (tmp_grad_v_view.sum 3 Allocation.reduced_grad_v)
    emit (.device_sum tmp_grad_v_view 3 grad_v)
    pure { grad_q := s.grad_q, grad_k := grad_k, grad_v := grad_v, grad_bias := s.grad_bias }
  | _, _, _ =>
    pure { grad_q := s.grad_q, grad_k := s.grad_k, grad_v := s.grad_v,
           grad_bias := s.grad_bias }

/-- The function `efficient_attention_backward_ck` of
`attention_backward_generic.cpp`. -/
def efficient_attention_backward_ck (a : BackwardArgs) : Outcome BackwardResult := do
  let s ← efficient_attention_backward_ck_prepare a
  efficient_attention_backward_ck_launch a s
  efficient_attention_backward_ck_finish s

/-- The three ways the launch step of a call can end: an error raised on the
host before the instance has issued device work; the instance's error after
its workspace allocation, when the device op rejects the argument; or the
workspace allocation followed by the kernel launch. -/
def LaunchEnds (op : DeviceOp) (x : Outcome Unit) : Prop :=
  (∃ e, x = { effects := [], result := .error e }) ∨
  (∃ c, op.IsSupportedArgument c = false ∧
    x = { effects := [.workspace_alloc c],
          result := .error (op.GetTypeString c ++ " does not support this problem") }) ∨
  (∃ c, op.IsSupportedArgument c = true ∧
    x = { effects := [.workspace_alloc c, .kernel_launch c], result := .ok () })

/-! ## Slices of an allocation: element addressing -/

/-- The element of its allocation that the view `t` addresses at index `idx`
(one entry per axis): storage offset plus the sum of index times stride. -/
def GradTensor.elementAt (t : GradTensor) (idx : List Int) : Int :=
  t.storage_offset + (List.zipWith (fun i s => i * s) idx t.meta.strides).sum

/-- The index `idx` has one entry per axis of `t`, each within the axis. -/
def GradTensor.InBounds (t : GradTensor) (idx : List Int) : Prop :=
  List.Forall₂ (fun i n => 0 ≤ i ∧ i < n) idx t.meta.sizes

/-- In the words of the spec: `slices` are the slices `j = 0, 1, ...` along
axis 2 of the contiguous tensor `chunk` of shape `[B, M, c, H, K]`, `c` the
number of slices: each has sizes `[B, M, H, K]`, strides
`[c*M*H*K, c*H*K, K, 1]` and storage offset `j*H*K` in the chunk's allocation;
two slices address the same element only at the same index of the same slice;
and the slices address exactly the elements of the chunk. -/
def SlicesOfChunk (chunk : GradTensor) (slices : List GradTensor) (B M H K : Int) : Prop :=
  (chunk.meta.sizes = [B, M, (slices.length : Int), H, K] ∧
    chunk.meta.strides =
      [(slices.length : Int) * M * H * K, (slices.length : Int) * H * K, H * K, K, 1] ∧
    chunk.storage_offset = 0) ∧
  (∀ (j : Nat) (g : GradTensor), slices[j]? = some g →
    g.allocation = chunk.allocation ∧ g.meta.sizes = [B, M, H, K] ∧
    g.meta.strides = [(slices.length : Int) * M * H * K, (slices.length : Int) * H * K, K, 1] ∧
    g.storage_offset = (j : Int) * H * K) ∧
  (∀ (j j' : Nat) (g g' : GradTensor) (idx idx' : List Int),
    slices[j]? = some g → slices[j']? = some g' → g.InBounds idx → g'.InBounds idx' →
    g.elementAt idx = g'.elementAt idx' → j = j' ∧ idx = idx') ∧
  (∀ c : List Int, chunk.InBounds c →
    ∃ (j : Nat) (g : GradTensor) (idx : List Int),
      slices[j]? = some g ∧ g.InBounds idx ∧ g.elementAt idx = chunk.elementAt c) ∧
  (∀ (j : Nat) (g : GradTensor) (idx : List Int), slices[j]? = some g → g.InBounds idx →
    ∃ c : List Int, chunk.InBounds c ∧ chunk.elementAt c = g.elementAt idx)

/-- Closed form of `chunk.select(2, j)` for the contiguous
`chunk = at::empty({B, M, c, H, K})` with positive extents. -/
def chunkSlice (alloc : Allocation) (dtype : ScalarType) (like : TensorMeta)
    (B M c H K j : Int) : GradTensor :=
  { meta := { sizes := [B, M, H, K], strides := [c * M * H * K, c * H * K, K, 1],
              dtype := dtype, is_cuda := like.is_cuda, is_sparse := like.is_sparse },
    allocation := alloc, storage_offset := j * H * K }

/-- The computation returns `v` after issuing exactly the effects `l`. -/
def Outcome.Returns {α : Type} (x : Outcome α) (l : List Effect) (v : α) : Prop :=
  x.effects = l ∧ x.result = .ok v

/-! ## Tile kernel, group mode: what a block reads, builds and writes -/

/-- The tensors a block of `FmhaFwdKernel::operator()` makes a DRAM view of. -/
inductive KernelTensor where
  | q | k | v | bias | o
  deriving DecidableEq, Repr

/-- What a block of `FmhaFwdKernel::operator()` does, in program order: reads
of the three `int32_t` arrays, constructions of tensor views, the construction
of the mask, the attention pipeline and the epilogue that writes the output
tile. Pointer arithmetic touches no memory and is not an event. -/
inductive BlockEvent where
  | read_seqstart_q (i : Nat)
  | read_seqstart_k (i : Nat)
  | read_seqlen_k (i : Nat)
  | make_tensor_view (t : KernelTensor)
  | make_mask
  | run_pipeline
  | write_output
  deriving DecidableEq, Repr

/-- Lines 384-603 of `operator()`: the views of Q, K, V, of the bias when
`kHasBias`, the mask, the pipeline, the view of O and the epilogue. -/
def FmhaFwdKernel_body_events (kHasBias : Bool) : List BlockEvent :=
  [.make_tensor_view .q, .make_tensor_view .k, .make_tensor_view .v] ++
  (if kHasBias then [.make_tensor_view .bias] else []) ++
  [.make_mask, .run_pipeline, .make_tensor_view .o, .write_output]

/-- The events of the block of sequence `i_batch` with first query row `i_m0`
in group mode (`operator()` lines 310-603), in program order; no result when a
read falls outside its array. -/
def FmhaFwdKernel_group_events (kHasBias : Bool) (kargs : GroupModeKargs) (i_batch : Nat)
    (i_m0 : Int) : Option (List BlockEvent) := do
  let _query_start ← kargs.seqstart_q_ptr[i_batch]?
  let _key_start ← kargs.seqstart_k_ptr[i_batch]?
  let q1 ← kargs.seqstart_q_ptr[i_batch + 1]?
  let q0 ← kargs.seqstart_q_ptr[i_batch + 0]?
  let reads : List BlockEvent :=
    [.read_seqstart_q i_batch, .read_seqstart_k i_batch, .read_seqstart_q (i_batch + 1),
     .read_seqstart_q (i_batch + 0)]
  if wrapInt32 (q1 - q0) ≤ i_m0 then
    pure reads
  else
    match kargs.seqlen_k_ptr with
    | some seqlen_k_ptr => do
      let _n ← seqlen_k_ptr[i_batch]?
      pure (reads ++ [.read_seqlen_k i_batch] ++ FmhaFwdKernel_body_events kHasBias)
    | none => do
      let _k1 ← kargs.seqstart_k_ptr[i_batch + 1]?
      let _k0 ← kargs.seqstart_k_ptr[i_batch + 0]?
      pure (reads ++ [.read_seqstart_k (i_batch + 1), .read_seqstart_k (i_batch + 0)] ++
        FmhaFwdKernel_body_events kHasBias)

/-! ## Tile kernel: the attention mask (`operator()` lines 515-571) -/

/-- Modelled from the spec: the enumeration `CausalMaskType` of
`ck_tiled_fmha_definitions.h`, which is not among the sources: no mask, causal
anchored at the top-left corner, causal anchored at the bottom-right corner. -/
inductive CausalMaskType where
  | MaskDisabled
  | MaskUpperTriangleFromTopLeft
  | MaskUpperTriangleFromBottomRight
  deriving DecidableEq, Repr

/-- Modelled from the spec: the enumerators' values, those of
`custom_mask_type` (0 none, 1 causal from top-left, 2 causal from
bottom-right), which `RunWithKernel` converts with `static_cast`. -/
def CausalMaskType.toInt : CausalMaskType → Int
  | .MaskDisabled => 0
  | .MaskUpperTriangleFromTopLeft => 1
  | .MaskUpperTriangleFromBottomRight => 2

/-- The arguments of one call of
`ck::make_generic_attention_mask_coordinates_from_lr_window` (a function of
the kernel library); `is_top_left` is `none` where the call site omits the
last argument. -/
structure LrWindowCall where
  left_size : Int
  right_size : Int
  y_total : Int
  x_total : Int
  is_top_left : Option Bool
  deriving DecidableEq, Repr

/-- The call of `make_generic_attention_mask_coordinates_from_lr_window` made
by lines 521-562, if any branch is taken. -/
def FmhaFwdKernel_mask_window_call (kargs : GroupModeKargs) : Option LrWindowCall :=
  if kargs.window_size > 0 then
    if kargs.mask_type = CausalMaskType.MaskDisabled.toInt then
      let lr_size := Int.tdiv kargs.window_size 2
      some { left_size := lr_size, right_size := lr_size, y_total := kargs.seqlen_q,
             x_total := kargs.seqlen_k, is_top_left := none }
    else if kargs.mask_type = CausalMaskType.MaskUpperTriangleFromTopLeft.toInt then
      let lr_size := Int.tdiv kargs.window_size 2
      some { left_size := lr_size, right_size := 0, y_total := kargs.seqlen_q,
             x_total := kargs.seqlen_k, is_top_left := some true }
    else if kargs.mask_type = CausalMaskType.MaskUpperTriangleFromBottomRight.toInt then
      let lr_size := Int.tdiv kargs.window_size 2
      some { left_size := lr_size, right_size := 0, y_total := kargs.seqlen_q,
             x_total := kargs.seqlen_k, is_top_left := some false }
    else none
  else
    if kargs.mask_type = CausalMaskType.MaskDisabled.toInt then
      some { left_size := -1, right_size := -1, y_total := kargs.seqlen_q,
             x_total := kargs.seqlen_k, is_top_left := none }
    else if kargs.mask_type = CausalMaskType.MaskUpperTriangleFromTopLeft.toInt then
      some { left_size := -1, right_size := 0, y_total := kargs.seqlen_q,
             x_total := kargs.seqlen_k, is_top_left := some true }
    else if kargs.mask_type = CausalMaskType.MaskUpperTriangleFromBottomRight.toInt then
      some { left_size := -1, right_size := 0, y_total := kargs.seqlen_q,
             x_total := kargs.seqlen_k, is_top_left := some false }
    else none

/-- The arguments of the `FmhaMask{y, x, y_total, x_total}` constructor. -/
structure FmhaMaskArgs where
  y : Int
  x : Int
  y_total : Int
  x_total : Int
  deriving DecidableEq, Repr

/-- The lambda of lines 515-571 that makes the block's mask. `coordinates` is
the library function, giving the first two components of its result; `res`
starts as zeros. -/
def FmhaFwdKernel_make_mask (kHasMask : Bool) (coordinates : LrWindowCall → Int × Int)
    (kargs : GroupModeKargs) : FmhaMaskArgs :=
  if kHasMask then
    let res : Int × Int :=
      match FmhaFwdKernel_mask_window_call kargs with
      | some call => coordinates call
      | none => (0, 0)
    { y := res.1, x := res.2, y_total := kargs.seqlen_q, x_total := kargs.seqlen_k }
  else { y := 0, x := 0, y_total := kargs.seqlen_q, x_total := kargs.seqlen_k }

/-! ## Grouped backward: what the device op addresses -/

/-- The element of the log-sum-exp buffer that grouped backward addresses for
(sequence `i`, head `h`, row `m`): the base pointer `logsumexp_ptrs[i]`, in
elements of the given type, plus the offset of `(0, h, m)` under the
descriptor's `lse_gs_ms_strides`. -/
def grouped_backward_lse_element (dtype : ScalarType) (p : GroupedBackwardParams)
    (d : GroupedBackwardProblemDesc) (i : Nat) (h m : Int) : Option Int := do
  let base ← p.logsumexp_ptrs[i]?
  pure (base.byteOffset / dtype.elementSize + descOffset [0, h, m] d.lse_gs_ms_strides)

/-! ## Tile pipeline: kernel arguments made by `RunWithKernel` -/

/-- The contents of device memory: the element at each offset (in elements) of
each allocation. -/
def DeviceMemory (α : Type) : Type := Allocation → Int → α

/-- The element the view `t` has at index `idx` in the memory `mem`. -/
def GradTensor.read {α : Type} (t : GradTensor) (mem : DeviceMemory α) (idx : List Int) : α :=
  mem t.allocation (t.elementAt idx)

/-- Every index tuple inside a shape, in row-major order. -/
def allIndices : List Int → List (List Int)
  | [] => [[]]
  | n :: rest =>
    (List.range n.toNat).flatMap (fun i => (allIndices rest).map (fun idx => (i : Int) :: idx))

/-- The memory after `dst = src.sum(dim)`: the element of `dst` at each index
is the reduction of the elements of `src` along axis `dim` at that index, and
nothing else is written. `red` is the reduction `at::sum` performs in the
element type: the value it gives for the addends, taken along the axis in
order (their sum in exact arithmetic; the rounded result in fp16, bf16 or
fp32). -/
def at_sum {α : Type} (red : List α → α) (src : GradTensor) (dim : Nat) (dst : GradTensor)
    (mem : DeviceMemory α) : DeviceMemory α :=
  fun alloc off =>
    if alloc = dst.allocation then
      match (allIndices dst.meta.sizes).find? (fun idx => decide (dst.elementAt idx = off)) with
      | some idx =>
        red ((List.range (src.meta.sizes.getD dim 0).toNat).map
          (fun j => src.read mem (idx.take dim ++ [(j : Int)] ++ idx.drop dim)))
      | none => mem alloc off
    else mem alloc off

/-! ## Concrete inputs used to exercise the theorems -/

/-- Two packed sequences with query lengths 2, 3 and key lengths 3, 4; no
explicit key-length array. -/
def exGroupedForwardParams : GroupedForwardParams :=
  { num_batches := 2, M := 5, N := 7, Hq := 2, Hkv := 1, num_heads := 2, K := 8, Kv := 8,
    max_seqlen_q := 3,
    host_seqstart_q := [0, 2, 5], host_seqstart_k := [0, 3, 7], host_seqlen_k := [],
    q_strides := ![16, 8, 1], k_strides := ![8, 8, 1], v_strides := ![8, 8, 1],
    out_strides := ![16, 8, 1], attn_bias_strides := ![0, 0, 0, 0],
    has_attn_bias := false, custom_mask_type := 0, window_size := 0 }

/-- Kernel arguments for the same two sequences, with an explicit key-length
array `[9, 8]` on the device. -/
def exGroupModeKargs : GroupModeKargs :=
  { seqlen_q := -1, seqlen_k := -1, hdim_q := 8, hdim_v := 8, nhead_ratio_qk := 2,
    stride_q := 16, stride_k := 8, stride_v := 8, stride_o := 16,
    nhead_stride_q := 8, nhead_stride_k := 8, nhead_stride_v := 8, nhead_stride_o := 8,
    stride_bias := 0, nhead_stride_bias := 0, mask_type := 0, window_size := 0,
    seqstart_q_ptr := [0, 2, 5], seqstart_k_ptr := [0, 3, 7], seqlen_k_ptr := some [9, 8] }

/-- A dense accelerator tensor with the given sizes, strides and element type. -/
def cudaTensor (sizes strides : List Int) (dtype : ScalarType) : TensorMeta :=
  { sizes := sizes, strides := strides, dtype := dtype, is_cuda := true, is_sparse := false }

/-- A contiguous 1-D host `int` tensor with the given contents. -/
def hostIntTensor (data : List Int) : HostIntTensor :=
  { meta := { sizes := [(data.length : Int)], strides := [1], dtype := ScalarType.kInt,
              is_cuda := false, is_sparse := false },
    data := data }

/-- A grouped backward call with two packed sequences (query lengths 2, 3; key
lengths 3, 4), `Hq = 2`, `Hkv = 1`, half-precision inputs, no bias, no explicit
`seqlen_k`, with the flag `use_fp32_qkv_grad` as given. The gradient buffers
and the MQA/GQA temporaries are allocated as lines 172-224 allocate them. -/
def exBackwardCtx (use_fp32_qkv_grad : Bool) : BackwardCtx :=
  let gdt := if use_fp32_qkv_grad then ScalarType.kFloat else ScalarType.kHalf
  { query := cudaTensor [1, 5, 2, 8] [80, 16, 8, 1] ScalarType.kHalf
    key := cudaTensor [1, 7, 1, 8] [56, 8, 8, 1] ScalarType.kHalf
    value := cudaTensor [1, 7, 1, 8] [56, 8, 8, 1] ScalarType.kHalf
    out := cudaTensor [1, 5, 2, 8] [80, 16, 8, 1] ScalarType.kHalf
    grad_out := cudaTensor [1, 5, 2, 8] [80, 16, 8, 1] ScalarType.kHalf
    logsumexp := cudaTensor [2, 2, 3] [6, 3, 1] ScalarType.kFloat
    grad_q := cudaTensor [1, 5, 2, 8] [80, 16, 8, 1] gdt
    grad_k := cudaTensor [1, 7, 1, 8] [56, 8, 8, 1] gdt
    grad_v := cudaTensor [1, 7, 1, 8] [56, 8, 8, 1] gdt
    tmp_grad_k := cudaTensor [1, 7, 2, 8] [112, 16, 8, 1] gdt
    tmp_grad_v := cudaTensor [1, 7, 2, 8] [112, 16, 8, 1] gdt
    bias := none
    seqstart_q := some (hostIntTensor [0, 2, 5])
    seqstart_k := some (hostIntTensor [0, 3, 7])
    seqlen_k := none
    max_seqlen_q_ := some 3
    B := 1, M := 5, N := 7, Hq := 2, Hkv := 1, K := 8, Kv := 8
    use_fp32_qkv_grad := use_fp32_qkv_grad
    is_mqa_gqa := true
    bias_requires_grad := false
    rng_seed := 0, rng_offset := 0, custom_mask_type := 0 }

/-- A default-constructed `GroupedBackwardParams`: empty vectors, scalars zeroed. -/
def exFreshGroupedBackwardParams : GroupedBackwardParams :=
  { num_batches := 0, M := 0, N := 0, Hq := 0, Hkv := 0, num_heads := 0, K := 0, Kv := 0,
    max_seqlen_q := 0, use_fp32_qkv_grad := false, is_mqa_gqa := false,
    q_strides := ![0, 0, 0], k_strides := ![0, 0, 0], v_strides := ![0, 0, 0],
    out_strides := ![0, 0, 0], tmp_grad_k_strides := ![0, 0, 0],
    tmp_grad_v_strides := ![0, 0, 0], attn_bias_strides := ![0, 0, 0, 0],
    randvals_strides := ![0, 0, 0], has_attn_bias := false, bias_has_grad := false,
    custom_mask_type := 0, philox_seed := 0, philox_offset := 0,
    host_seqstart_q := [], host_seqstart_k := [], host_seqlen_k := [],
    q_ptrs := [], k_ptrs := [], v_ptrs := [], out_ptrs := [], grad_out_ptrs := [],
    logsumexp_ptrs := [], grad_q_ptrs := [], grad_k_ptrs := [], grad_v_ptrs := [],
    attn_bias_ptrs := [], grad_bias_ptrs := [], randvals_ptrs := [] }

/-- A `BatchedBackwardParams` with the given dispatch flags and every other
field zeroed. -/
def exBatchedBackwardParams (custom_mask_type : Int) (has_attn_bias use_fp32_qkv_grad : Bool) :
    BatchedBackwardParams :=
  { B := 0, M := 0, N := 0, Hq := 0, Hkv := 0, K := 0, Kv := 0,
    use_fp32_qkv_grad := use_fp32_qkv_grad, is_mqa_gqa := false,
    q_ptr := none, k_ptr := none, v_ptr := none, grad_out_ptr := none, out_ptr := none,
    grad_q_ptr := none, grad_k_ptr := none, grad_v_ptr := none, attn_bias_ptr := none,
    grad_bias_ptr := none, logsumexp_ptr := none,
    q_strides := ![0, 0, 0, 0], k_strides := ![0, 0, 0, 0], v_strides := ![0, 0, 0, 0],
    out_strides := ![0, 0, 0, 0], tmp_grad_k_strides := ![0, 0, 0, 0],
    tmp_grad_v_strides := ![0, 0, 0, 0], attn_bias_strides := ![0, 0, 0, 0],
    has_attn_bias := has_attn_bias, bias_has_grad := false,
    custom_mask_type := custom_mask_type, philox_seed := 0, philox_offset := 0 }

/-- A `GroupedBackwardParams` with the given dispatch flags, otherwise as
default-constructed. -/
def exGroupedBackwardDispatchParams (custom_mask_type : Int) (has_attn_bias : Bool) :
    GroupedBackwardParams :=
  { exFreshGroupedBackwardParams with
    custom_mask_type := custom_mask_type, has_attn_bias := has_attn_bias }

/-- A `BatchedForwardParams` with the given mask type and every other field
zeroed. -/
def exBatchedForwardParams (custom_mask_type : Int) : BatchedForwardParams :=
  { B := 0, M := 0, N := 0, Hq := 0, Hkv := 0, K := 0, Kv := 0,
    q_strides := ![0, 0, 0, 0], k_strides := ![0, 0, 0, 0], v_strides := ![0, 0, 0, 0],
    out_strides := ![0, 0, 0, 0], attn_bias_strides := ![0, 0, 0, 0],
    has_attn_bias := false, custom_mask_type := custom_mask_type }

/-- A `GroupedForwardParams` like `exGroupedForwardParams` with the given head
dimensions. -/
def exGroupedForwardParamsHeadDim (K Kv : Int) : GroupedForwardParams :=
  { exGroupedForwardParams with K := K, Kv := Kv }

/-- A `BatchedForwardParams` with the given head dimensions and every other
field zeroed. -/
def exBatchedForwardParamsHeadDim (K Kv : Int) : BatchedForwardParams :=
  { exBatchedForwardParams 0 with K := K, Kv := Kv }

/-- Constants with `AK1 = BK1 = 8` and thread clusters `S<4, 64, 1>`,
`S<4, 64, 1>`, `S<16, 16, 1>`, `S<1, 32, 1, 8>`. -/
def exGemmOpConstants : GemmOpConstants :=
  { AK1 := 8, BK1 := 8,
    ABlockTransferThreadClusterLengths_AK0_M_AK1 := ![4, 64, 1],
    BBlockTransferThreadClusterLengths_BK0_N_BK1 := ![4, 64, 1],
    B1BlockTransferThreadClusterLengths_BK0_N_BK1 := ![16, 16, 1],
    CShuffleBlockTransferClusterLengths_MBlock_MPerBlock_NBlock_NPerBlock := ![1, 32, 1, 8] }

/-- A width selector in the manner of `ALIGN_SWITCH`: the largest of the
maximum, its half and its quarter that divides the length, else 1. -/
def exAlignSelect (mx len : Int) : Int :=
  if len % mx = 0 then mx
  else if 0 < mx / 2 ∧ len % (mx / 2) = 0 then mx / 2
  else if 0 < mx / 4 ∧ len % (mx / 4) = 0 then mx / 4
  else 1

/-- A device op that answers `supported` to every `IsSupportedArgument`. -/
def exDeviceOp (supported : Bool) : DeviceOp :=
  { IsSupportedArgument := fun _ => supported
    GetTypeString := fun _ => "DeviceMultiheadAttentionBackward" }

/-- A batched backward call (no offsets, no bias, `USE_FP32_QKV_GRAD` unset)
with the given query, key and value tensors and storages, a contiguous
`grad_out` and `out` of the given sizes and a contiguous float `logsumexp`;
the device op supports every argument, and the parameter records start as
`defaultBatchedBackwardParams`, `defaultGroupedBackwardParams`. -/
def exBatchedBackwardArgs (query key value : TensorArg) (out_sizes lse_sizes : List Int)
    (custom_mask_type : Int) : BackwardArgs :=
  { grad_out := cudaTensor out_sizes (contiguousStridesInt out_sizes) query.meta.dtype
    query := query, key := key, value := value
    bias := none, seqstart_q := none, seqstart_k := none, max_seqlen_q_ := none, seqlen_k := none
    logsumexp := cudaTensor lse_sizes (contiguousStridesInt lse_sizes) ScalarType.kFloat
    out := cudaTensor out_sizes (contiguousStridesInt out_sizes) query.meta.dtype
    rng_seed := 0, rng_offset := 0, custom_mask_type := custom_mask_type
    env_USE_FP32_QKV_GRAD := none
    device_op := exDeviceOp true
    batched_backward_params := defaultBatchedBackwardParams
    grouped_backward_params := defaultGroupedBackwardParams }

/-- Query, key and value are the three slices of one packed `[1, 2, 3, 1, 4]`
bf16 projection (one storage); B = 1, M = N = 2, Hq = Hkv = 1, K = Kv = 4. -/
def exPackedQKVArgs : BackwardArgs :=
  exBatchedBackwardArgs
    ⟨cudaTensor [1, 2, 1, 4] [24, 12, 4, 1] ScalarType.kBFloat16, 7⟩
    ⟨cudaTensor [1, 2, 1, 4] [24, 12, 4, 1] ScalarType.kBFloat16, 7⟩
    ⟨cudaTensor [1, 2, 1, 4] [24, 12, 4, 1] ScalarType.kBFloat16, 7⟩
    [1, 2, 1, 4] [1, 1, 2] 0

/-- Key and value are the two slices of one packed `[1, 3, 2, 1, 4]` bf16
projection; the query is a contiguous tensor of its own; B = 1, M = 2, N = 3,
Hq = Hkv = 1, K = Kv = 4. -/
def exPackedKVArgs : BackwardArgs :=
  exBatchedBackwardArgs
    ⟨cudaTensor [1, 2, 1, 4] [8, 4, 4, 1] ScalarType.kBFloat16, 1⟩
    ⟨cudaTensor [1, 3, 1, 4] [24, 8, 4, 1] ScalarType.kBFloat16, 2⟩
    ⟨cudaTensor [1, 3, 1, 4] [24, 8, 4, 1] ScalarType.kBFloat16, 2⟩
    [1, 2, 1, 4] [1, 1, 2] 0

/-- A batched bf16 call on the general path (three storages, contiguous
tensors): B = 1, M = 2, N = 3, Hq = Hkv = 1, K = Kv = 4, with a log-sum-exp
tensor of the given sizes. -/
def exGeneralArgs (lse_sizes : List Int) : BackwardArgs :=
  exBatchedBackwardArgs
    ⟨cudaTensor [1, 2, 1, 4] [8, 4, 4, 1] ScalarType.kBFloat16, 1⟩
    ⟨cudaTensor [1, 3, 1, 4] [12, 4, 4, 1] ScalarType.kBFloat16, 2⟩
    ⟨cudaTensor [1, 3, 1, 4] [12, 4, 4, 1] ScalarType.kBFloat16, 3⟩
    [1, 2, 1, 4] lse_sizes 0

/-- A batched bf16 call with grouped-query heads (Hq = 2, Hkv = 1) whose key
and value are the two slices of one packed `[1, 2, 2, 1, 4]` projection, so
their strides are `[16, 8, 4, 1]`; B = 1, M = N = 2, K = Kv = 4. -/
def exGqaPackedKVArgs : BackwardArgs :=
  exBatchedBackwardArgs
    ⟨cudaTensor [1, 2, 2, 4] [16, 8, 4, 1] ScalarType.kBFloat16, 1⟩
    ⟨cudaTensor [1, 2, 1, 4] [16, 8, 4, 1] ScalarType.kBFloat16, 2⟩
    ⟨cudaTensor [1, 2, 1, 4] [16, 8, 4, 1] ScalarType.kBFloat16, 2⟩
    [1, 2, 2, 4] [1, 2, 2] 0

/-- A grouped bf16 call with two packed sequences (query lengths 2, 3; key
lengths 3, 4), Hq = Hkv = 2, K = Kv = 8, `max_seqlen_q = 3`, no bias. -/
def exGroupedBackwardArgs : BackwardArgs :=
  { exBatchedBackwardArgs
      ⟨cudaTensor [1, 5, 2, 8] [80, 16, 8, 1] ScalarType.kBFloat16, 1⟩
      ⟨cudaTensor [1, 7, 2, 8] [112, 16, 8, 1] ScalarType.kBFloat16, 2⟩
      ⟨cudaTensor [1, 7, 2, 8] [112, 16, 8, 1] ScalarType.kBFloat16, 3⟩
      [1, 5, 2, 8] [2, 2, 3] 0 with
    seqstart_q := some (hostIntTensor [0, 2, 5])
    seqstart_k := some (hostIntTensor [0, 3, 7])
    max_seqlen_q_ := some 3 }

/-- Kernel arguments for three packed sequences of query lengths 2, 0, 3 and
key lengths 3, 0, 4: the middle sequence is empty. -/
def exGroupModeKargsEmptySeq : GroupModeKargs :=
  { exGroupModeKargs with
    seqstart_q_ptr := [0, 2, 2, 5], seqstart_k_ptr := [0, 3, 3, 7], seqlen_k_ptr := none }

/-- A batched call like `exGeneralArgs [1, 1, 2]` whose tensors are 32-bit
floats, an element type the backward binding has no kernel for. -/
def exFloatArgs : BackwardArgs :=
  exBatchedBackwardArgs
    ⟨cudaTensor [1, 2, 1, 4] [8, 4, 4, 1] ScalarType.kFloat, 1⟩
    ⟨cudaTensor [1, 3, 1, 4] [12, 4, 4, 1] ScalarType.kFloat, 2⟩
    ⟨cudaTensor [1, 3, 1, 4] [12, 4, 4, 1] ScalarType.kFloat, 3⟩
    [1, 2, 1, 4] [1, 1, 2] 0

/-- The call `exGeneralArgs [1, 1, 2]` with a device op that rejects every
argument. -/
def exUnsupportedArgs : BackwardArgs :=
  { exGeneralArgs [1, 1, 2] with device_op := exDeviceOp false }

/-- The grouped backward call of `exBackwardCtx false` (two packed sequences,
query offsets `[0, 2, 5]`, `Hq = 2`, `max_seqlen_q = 3`, packed length
`M = 5`, float log-sum-exp of shape `[2, 2, 3]`) with explicit key lengths
`seqlen_k = [3, 4]`. -/
def exBackwardCtxSeqlenK : BackwardCtx :=
  { exBackwardCtx false with seqlen_k := some (hostIntTensor [3, 4]) }

/-! ## Theorems -/

/-! ### Auxiliary facts -/

theorem getElem?_eq_some_getD (l : List Int) (i : Nat) (h : i < l.length) :
    l[i]? = some (l.getD i 0) := by
  rw [List.getD_eq_getElem?_getD, List.getElem?_eq_getElem h]
  rfl

theorem getD_mem (l : List Int) (i : Nat) (h : i < l.length) : l.getD i 0 ∈ l := by
  rw [List.getD_eq_getElem l 0 h]
  exact List.getElem_mem h

theorem wrapInt32_sub_of_nonneg (a b : Int) (ha : IsNonnegInt32 a) (hb : IsNonnegInt32 b) :
    wrapInt32 (a - b) = a - b := by
  unfold IsNonnegInt32 at ha hb
  unfold wrapInt32
  have h1 : (0 : Int) ≤ a - b + 2 ^ 31 := by omega
  have h2 : a - b + 2 ^ 31 < 2 ^ 32 := by omega
  rw [Int.emod_eq_of_lt h1 h2]
  ring

theorem seqlens_eq (sq sk lk : List Int) (n i : Nat) (hi : i < n)
    (hq : sq.length = n + 1) (hk : sk.length = n + 1) (hl : lk ≠ [] → lk.length = n)
    (hq32 : ∀ x ∈ sq, IsNonnegInt32 x) (hk32 : ∀ x ∈ sk, IsNonnegInt32 x) :
    (do
      let q_hi ← sq[i + 1]?
      let q_lo ← sq[i]?
      let M := wrapInt32 (q_hi - q_lo)
      let N ←
        if lk.isEmpty then do
          let k_hi ← sk[i + 1]?
          let k_lo ← sk[i]?
          pure (wrapInt32 (k_hi - k_lo))
        else lk[i]?
      pure (M, N) : Option (Int × Int)) =
    some (sq.getD (i + 1) 0 - sq.getD i 0,
      if lk.isEmpty then sk.getD (i + 1) 0 - sk.getD i 0 else lk.getD i 0) := by
  have a1 := getElem?_eq_some_getD sq (i + 1) (by omega)
  have a0 := getElem?_eq_some_getD sq i (by omega)
  have b1 := getElem?_eq_some_getD sk (i + 1) (by omega)
  have b0 := getElem?_eq_some_getD sk i (by omega)
  have wq := wrapInt32_sub_of_nonneg _ _ (hq32 _ (getD_mem sq (i + 1) (by omega)))
    (hq32 _ (getD_mem sq i (by omega)))
  have wk := wrapInt32_sub_of_nonneg _ _ (hk32 _ (getD_mem sk (i + 1) (by omega)))
    (hk32 _ (getD_mem sk i (by omega)))
  by_cases he : lk = []
  · subst he
    simp only [a1, a0, b1, b0, wq, wk, bind, Option.bind, pure, List.isEmpty_nil, if_true]
  · have hlen := hl he
    have c0 := getElem?_eq_some_getD lk i (by omega)
    have hne : lk.isEmpty = false := by
      cases lk with
      | nil => exact absurd rfl he
      | cons _ _ => rfl
    simp only [a1, a0, c0, wq, hne, bind, Option.bind, pure, Bool.false_eq_true, if_false]

theorem mapM_except_eq_ok {α β : Type} (f : α → Except String β) (g : α → β) :
    ∀ l : List α, (∀ x ∈ l, f x = .ok (g x)) → l.mapM f = .ok (l.map g) := by
  intro l
  induction l with
  | nil => intro _; rfl
  | cons a l ih =>
    intro h
    rw [List.mapM_cons, h a (List.mem_cons_self _ _), ih (fun x hx => h x (List.mem_cons_of_mem _ hx))]
    rfl

theorem range_map_getD (l : List Int) : (List.range l.length).map (fun i => l.getD i 0) = l := by
  apply List.ext_getElem
  · simp
  · intro i h1 h2
    simp only [List.getElem_map, List.getElem_range]
    exact List.getD_eq_getElem l 0 h2

theorem HostIntTensor.mapM_read (t : HostIntTensor) (k : Nat) (h : t.data.length = k) :
    (List.range k).mapM t.read = .ok t.data := by
  subst h
  rw [mapM_except_eq_ok t.read (fun i => t.data.getD i 0)]
  · rw [range_map_getD]
  · intro i hi
    have hi2 : i < t.data.length := List.mem_range.mp hi
    unfold HostIntTensor.read
    rw [getElem?_eq_some_getD _ _ hi2]

theorem sizeTLoopCount_of_nonneg (x : Int) (h0 : 0 ≤ x) (h1 : x < 2 ^ 64) :
    sizeTLoopCount x = x.toNat := by
  unfold sizeTLoopCount wrapSizeT
  rw [Int.emod_eq_of_lt h0 h1]

theorem wrapInt32_of_nonneg (x : Int) (h : IsNonnegInt32 x) : wrapInt32 x = x := by
  have := wrapInt32_sub_of_nonneg x 0 h ⟨by norm_num, by norm_num⟩
  simpa using this

theorem vectorRead_eq_ok (v : List Int) (i : Nat) (h : i < v.length) :
    vectorRead v i = .ok (v.getD i 0) := by
  unfold vectorRead
  rw [getElem?_eq_some_getD v i h]

theorem groupedPtrBody_eq (ctx : BackwardCtx) (multiplier : Int) (hb : ctx.bias = none)
    (p : GroupedBackwardParams) (i : Nat)
    (hq : i < p.host_seqstart_q.length) (hk : i < p.host_seqstart_k.length) :
    set_grouped_backward_params_body ctx multiplier p i =
      .ok (groupedPtrLoopClosedForm ctx multiplier p [i]) := by
  unfold set_grouped_backward_params_body
  rw [vectorRead_eq_ok _ _ hq, vectorRead_eq_ok _ _ hk]
  simp only [hb, bind, Except.bind, pure, Except.pure]
  simp [groupedPtrLoopClosedForm]

theorem groupedPtrLoop_eq (ctx : BackwardCtx) (multiplier : Int) (hb : ctx.bias = none) :
    ∀ (l : List Nat) (p : GroupedBackwardParams),
      (∀ i ∈ l, i < p.host_seqstart_q.length ∧ i < p.host_seqstart_k.length) →
      l.foldlM (set_grouped_backward_params_body ctx multiplier) p =
        .ok (groupedPtrLoopClosedForm ctx multiplier p l) := by
  intro l
  induction l with
  | nil =>
    intro p _
    simp [groupedPtrLoopClosedForm, pure, Except.pure]
  | cons i l ih =>
    intro p h
    have hi := h i (List.mem_cons_self _ _)
    rw [List.foldlM_cons, groupedPtrBody_eq ctx multiplier hb p i hi.1 hi.2]
    simp only [bind, Except.bind]
    rw [ih (groupedPtrLoopClosedForm ctx multiplier p [i])
      (fun j hj => h j (List.mem_cons_of_mem _ hj))]
    simp [groupedPtrLoopClosedForm, List.append_assoc]

theorem strides123_eq (t : TensorMeta) (h : t.strides.length = 4) :
    strides123 t = .ok (strides123Of t) := by
  have e1 := getElem?_eq_some_getD t.strides 1 (by omega)
  have e2 := getElem?_eq_some_getD t.strides 2 (by omega)
  have e3 := getElem?_eq_some_getD t.strides 3 (by omega)
  simp only [strides123, strideAsInt, TensorMeta.stride, e1, e2, e3, bind, Except.bind, pure,
    Except.pure, strides123Of]

theorem set_grouped_backward_params_eq (ctx : BackwardCtx) (p : GroupedBackwardParams)
    (n : Nat) (sq sk : HostIntTensor) (m : Int) (h : GroupedCallOk ctx n sq sk m) :
    set_grouped_backward_params ctx p =
      .ok (groupedPtrLoopClosedForm ctx (gradMultiplier ctx.use_fp32_qkv_grad ctx.query.dtype)
        (groupedParamsBeforeLoop ctx p n sq sk m) (List.range n)) := by
  obtain ⟨h_sq, h_sk, h_sq_sizes, h_sq_data, h_sk_data, h_max, h_n, h_Hq, h_m, h_lse, h_q, h_k,
    h_v, h_out, h_tmp, h_bias, h_seqlen_k⟩ := h
  have hn1 : wrapInt32 ((n : Int) + 1 - 1) = n := by
    have := wrapInt32_sub_of_nonneg _ 1 h_n ⟨by norm_num, by norm_num⟩
    rw [this]; ring
  have hn0 : (0 : Int) ≤ n := Int.ofNat_nonneg n
  have hn2 : (n : Int) + 1 < 2 ^ 31 := h_n.2
  have hc1 : sizeTLoopCount ((n : Int) + 1) = n + 1 := by
    rw [sizeTLoopCount_of_nonneg _ (by omega) (by omega)]; omega
  have hc0 : sizeTLoopCount (n : Int) = n := by
    rw [sizeTLoopCount_of_nonneg _ (by omega) (by omega)]; omega
  have hloop : ∀ p1 : GroupedBackwardParams, p1.host_seqstart_q = sq.data →
      p1.host_seqstart_k = sk.data →
      (List.range n).foldlM (set_grouped_backward_params_body ctx
          (gradMultiplier ctx.use_fp32_qkv_grad ctx.query.dtype)) p1 =
        .ok (groupedPtrLoopClosedForm ctx (gradMultiplier ctx.use_fp32_qkv_grad ctx.query.dtype)
          p1 (List.range n)) := by
    intro p1 e1 e2
    apply groupedPtrLoop_eq ctx _ h_bias
    intro i hi
    have := List.mem_range.mp hi
    rw [e1, e2]
    omega
  unfold set_grouped_backward_params
  simp only [h_sq, h_sk, h_max, derefOptional, TensorMeta.size, h_sq_sizes, h_lse, hn1,
    wrapInt32_of_nonneg _ h_Hq, wrapInt32_of_nonneg _ h_m, check,
    strides123_eq _ h_q, strides123_eq _ h_k, strides123_eq _ h_v, strides123_eq _ h_out,
    h_bias, hc1, hc0, HostIntTensor.mapM_read _ _ h_sq_data, HostIntTensor.mapM_read _ _ h_sk_data,
    bind, Except.bind, pure, Except.pure, List.getElem?_cons_zero, List.getElem?_cons_succ,
    decide_True, if_true, Int.toNat_ofNat]
  have hseq : ∀ lk, ctx.seqlen_k = some lk →
      CHECK_NOSPARSE_CONTIGUOUS_CPU lk.meta = .ok () ∧ lk.meta.dim = 1 := by
    intro lk hlk
    obtain ⟨_, a2, a3, a4, a5, _⟩ := h_seqlen_k lk hlk
    constructor
    · simp [CHECK_NOSPARSE_CONTIGUOUS_CPU, check, a3, a4, a5, bind, Except.bind]
    · simp [TensorMeta.dim, a2]
  cases hmq : ctx.is_mqa_gqa <;> cases hlk : ctx.seqlen_k
  · simp only [Bool.false_eq_true, if_false]
    rw [hloop _ rfl rfl]
    simp [groupedParamsBeforeLoop, hmq, hlk]
  · rename_i lk
    obtain ⟨a1, a2, a3, a4, a5, a6⟩ := h_seqlen_k lk hlk
    simp only [Bool.false_eq_true, if_false, a1, a2, (hseq lk hlk).1, (hseq lk hlk).2,
      List.getElem?_cons_zero, decide_True, if_true, HostIntTensor.mapM_read _ _ a6]
    rw [hloop _ rfl rfl]
    simp [groupedParamsBeforeLoop, hmq, hlk]
  · obtain ⟨t1, t2⟩ := h_tmp hmq
    simp only [if_true, strides123_eq _ t1, strides123_eq _ t2]
    rw [hloop _ rfl rfl]
    simp [groupedParamsBeforeLoop, hmq, hlk]
  · rename_i lk
    obtain ⟨t1, t2⟩ := h_tmp hmq
    obtain ⟨a1, a2, a3, a4, a5, a6⟩ := h_seqlen_k lk hlk
    simp only [if_true, strides123_eq _ t1, strides123_eq _ t2, a1, a2, (hseq lk hlk).1,
      (hseq lk hlk).2, List.getElem?_cons_zero, decide_True, HostIntTensor.mapM_read _ _ a6]
    rw [hloop _ rfl rfl]
    simp [groupedParamsBeforeLoop, hmq, hlk]

theorem sizeT_offset_eq (a b : Int) (dt : ScalarType) :
    get_size_in_bytes (wrapSizeT (wrapSizeT a * wrapSizeT b)) dt =
      wrapSizeT (dt.elementSize * (a * b)) := by
  unfold get_size_in_bytes wrapSizeT
  have h1 : (a % 2 ^ 64 * (b % 2 ^ 64)) % 2 ^ 64 ≡ a * b [ZMOD 2 ^ 64] :=
    (Int.mod_modEq _ _).trans ((Int.mod_modEq a _).mul (Int.mod_modEq b _))
  have h2 := h1.mul_right dt.elementSize
  rw [mul_comm dt.elementSize (a * b)]
  exact h2

theorem getElem?_range_map {β : Type} (f : Nat → β) (n i : Nat) (h : i < n) :
    ((List.range n).map f)[i]? = some (f i) := by
  rw [List.getElem?_map, List.getElem?_range h]
  rfl

theorem exBackwardCtx_ok (f : Bool) :
    GroupedCallOk (exBackwardCtx f) 2 (hostIntTensor [0, 2, 5]) (hostIntTensor [0, 3, 7]) 3 where
  h_sq := rfl
  h_sk := rfl
  h_sq_sizes := rfl
  h_sq_data := rfl
  h_sk_data := rfl
  h_max := rfl
  h_n := by decide
  h_Hq := by show IsNonnegInt32 2; decide
  h_m := by decide
  h_lse := rfl
  h_q := rfl
  h_k := rfl
  h_v := rfl
  h_out := rfl
  h_tmp := fun _ => ⟨rfl, rfl⟩
  h_bias := rfl
  h_seqlen_k := fun lk hlk => by cases hlk

theorem exFresh_isFresh : exFreshGroupedBackwardParams.IsFresh := by
  simp [GroupedBackwardParams.IsFresh, exFreshGroupedBackwardParams]

theorem headdim_switch_eq_bucket (K Kv : Int) (β : Type) (body : Int → Int → Int → β) :
    BATCHED_INFER_HEADDIM_SWITCH K Kv body =
        body (headDimBucket K Kv).1 (headDimBucket K Kv).2.1 (headDimBucket K Kv).2.2 ∧
      GROUPED_FORWARD_HEADDIM_SWITCH K Kv body =
        body (headDimBucket K Kv).1 (headDimBucket K Kv).2.1 (headDimBucket K Kv).2.2 := by
  have h32 : (K ≤ 32 ∧ Kv ≤ 32) ↔ max K Kv ≤ 32 := by simp [max_le_iff]
  have h64 : (K ≤ 64 ∧ Kv ≤ 64) ↔ max K Kv ≤ 64 := by simp [max_le_iff]
  unfold BATCHED_INFER_HEADDIM_SWITCH GROUPED_FORWARD_HEADDIM_SWITCH headDimBucket
  simp only [h32, h64]
  by_cases a : max K Kv ≤ 32
  · simp [a]
  · by_cases b : max K Kv ≤ 64
    · simp [a, b]
    · simp [a, b]

theorem legacy_Run_body_widths (c : GemmOpConstants) (select : Int → Int → Int)
    (cap K Kv abmax n x s : Int)
    (hsel : ∀ mx len, 1 ≤ mx → 1 ≤ select mx len ∧ select mx len ≤ mx)
    (hcap : 1 ≤ cap) (hab : 1 ≤ abmax)
    (h1 : 0 < thread_slice_length_gemm1n c n)
    (h2 : 0 < thread_slice_length_cshuflle_n c n x s) :
    ∃ inst, legacy_Run_body c select cap K Kv abmax n x s = [inst] ∧
      inst.kGemm1NPerBlock = n ∧ inst.kGemm1NXdlPerWave = x ∧
      inst.kCShuffleNXdlPerWavePerShuffle = s ∧
      inst.kABBlockTransferSrcScalarPerVector ≤ abmax ∧
      inst.kB1BlockTransferSrcScalarPerVector ≤ min cap (thread_slice_length_gemm1n c n) ∧
      inst.kCShuffleBlockTransferScalarPerVector ≤
        min 4 (thread_slice_length_cshuflle_n c n x s) ∧
      (min cap (thread_slice_length_gemm1n c n) ≥
          min 4 (thread_slice_length_cshuflle_n c n x s) →
        inst.kB1BlockTransferSrcScalarPerVector =
            select (min cap (thread_slice_length_gemm1n c n)) Kv ∧
          inst.kCShuffleBlockTransferScalarPerVector ≤
            inst.kB1BlockTransferSrcScalarPerVector) ∧
      (¬ min cap (thread_slice_length_gemm1n c n) ≥
          min 4 (thread_slice_length_cshuflle_n c n x s) →
        inst.kCShuffleBlockTransferScalarPerVector =
            select (min 4 (thread_slice_length_cshuflle_n c n x s)) Kv ∧
          inst.kB1BlockTransferSrcScalarPerVector ≤
            inst.kCShuffleBlockTransferScalarPerVector) := by
  have hb1 : 1 ≤ min cap (thread_slice_length_gemm1n c n) := le_min hcap (by omega)
  have hc1 : 1 ≤ min 4 (thread_slice_length_cshuflle_n c n x s) :=
    le_min (by norm_num) (by omega)
  unfold legacy_Run_body ALIGN_SWITCH_2
  by_cases hge : min cap (thread_slice_length_gemm1n c n) ≥
      min 4 (thread_slice_length_cshuflle_n c n x s)
  · simp only [hge, if_true]
    refine ⟨_, rfl, rfl, rfl, rfl, (hsel _ K hab).2, (hsel _ Kv hb1).2, min_le_right _ _,
      fun _ => ⟨rfl, min_le_left _ _⟩, fun h => absurd trivial h⟩
  · simp only [hge, if_false]
    refine ⟨_, rfl, rfl, rfl, rfl, (hsel _ K hab).2, min_le_right _ _, (hsel _ Kv hc1).2,
      fun h => h.elim, fun _ => ⟨rfl, min_le_left _ _⟩⟩

theorem check_ok_iff (c : Bool) (msg : String) (u : Unit) : check c msg = .ok u ↔ c = true := by
  unfold check
  cases c <;> simp

theorem except_bind_ok_iff {α β : Type} (x : Except String α) (f : α → Except String β)
    (v : β) : (x >>= f) = .ok v ↔ ∃ u, x = .ok u ∧ f u = .ok v := by
  cases x with
  | error e => simp [bind, Except.bind]
  | ok u => simp [bind, Except.bind]

theorem size_ok_iff (t : TensorMeta) (d : Nat) (n : Int) :
    t.size d = .ok n ↔ t.sizes[d]? = some n := by
  unfold TensorMeta.size
  cases t.sizes[d]? <;> simp

theorem cMod_ok_iff (x y r : Int) : cMod x y = .ok r ↔ y ≠ 0 ∧ r = Int.tmod x y := by
  unfold cMod
  by_cases h : y = 0 <;> simp [h, eq_comm]

theorem length_eq_four {α : Type} (l : List α) (h : l.length = 4) :
    ∃ a b c d, l = [a, b, c, d] := by
  match l, h with
  | [a, b, c, d], _ => exact ⟨a, b, c, d, rfl⟩

theorem shape_checks_ok_iff (a : BackwardArgs) :
    efficient_attention_backward_ck_shape_checks a = .ok () ↔
      (a.query.meta.sizes.length = 4 ∧ a.key.meta.sizes.length = 4 ∧
        a.value.meta.sizes.length = 4 ∧ a.grad_out.sizes.length = 4) ∧
      (a.query.meta.sizes.getD 0 0 = a.grad_out.sizes.getD 0 0 ∧
        a.query.meta.sizes.getD 0 0 = a.key.meta.sizes.getD 0 0 ∧
        a.query.meta.sizes.getD 0 0 = a.value.meta.sizes.getD 0 0) ∧
      (a.key.meta.sizes.getD 1 0 = a.value.meta.sizes.getD 1 0 ∧
        a.query.meta.sizes.getD 1 0 = a.grad_out.sizes.getD 1 0) ∧
      (a.key.meta.sizes.getD 2 0 ≠ 0 ∧
        Int.tmod (a.query.meta.sizes.getD 2 0) (a.key.meta.sizes.getD 2 0) = 0 ∧
        a.key.meta.sizes.getD 2 0 = a.value.meta.sizes.getD 2 0 ∧
        a.query.meta.sizes.getD 2 0 = a.grad_out.sizes.getD 2 0) ∧
      (a.query.meta.sizes.getD 3 0 = a.key.meta.sizes.getD 3 0 ∧
        a.value.meta.sizes.getD 3 0 = a.grad_out.sizes.getD 3 0) ∧
      a.out.sizes = a.grad_out.sizes ∧ a.out.strides = a.grad_out.strides := by
  have hlen : efficient_attention_backward_ck_shape_checks a = .ok () ∨
      (a.query.meta.sizes.length = 4 ∧ a.key.meta.sizes.length = 4 ∧
        a.value.meta.sizes.length = 4 ∧ a.grad_out.sizes.length = 4) →
      (a.query.meta.sizes.length = 4 ∧ a.key.meta.sizes.length = 4 ∧
        a.value.meta.sizes.length = 4 ∧ a.grad_out.sizes.length = 4) := by
    rintro (h | h)
    · simp only [efficient_attention_backward_ck_shape_checks, except_bind_ok_iff,
        check_ok_iff, TensorMeta.dim, decide_eq_true_eq] at h
      obtain ⟨_, h1, _, h2, _, h3, _, h4, -⟩ := h
      omega
    · exact h
  by_cases hl : (a.query.meta.sizes.length = 4 ∧ a.key.meta.sizes.length = 4 ∧
        a.value.meta.sizes.length = 4 ∧ a.grad_out.sizes.length = 4)
  · obtain ⟨hq, hk, hv, hg⟩ := hl
    obtain ⟨q0, q1, q2, q3, hq⟩ := length_eq_four _ hq
    obtain ⟨k0, k1, k2, k3, hk⟩ := length_eq_four _ hk
    obtain ⟨v0, v1, v2, v3, hv⟩ := length_eq_four _ hv
    obtain ⟨g0, g1, g2, g3, hg⟩ := length_eq_four _ hg
    simp only [efficient_attention_backward_ck_shape_checks, except_bind_ok_iff,
      check_ok_iff, size_ok_iff, cMod_ok_iff, TensorMeta.dim, decide_eq_true_eq, hq, hk, hv, hg]
    simp
    aesop
  · constructor
    · intro h
      exact absurd (hlen (Or.inl h)) hl
    · intro h
      exact absurd h.1 hl

theorem hostStep_error_bind {α β : Type} (e : String) (f : α → Outcome β) :
    (hostStep (Except.error e) >>= f) = { effects := [], result := .error e } := rfl

theorem hostStep_ok_bind {α β : Type} (v : α) (f : α → Outcome β) :
    (hostStep (Except.ok v) >>= f) = f v := by
  show Outcome.bind _ _ = _
  simp [Outcome.bind, hostStep]

theorem emit_bind {β : Type} (e : Effect) (f : Unit → Outcome β) :
    (emit e >>= f) = { effects := e :: (f ()).effects, result := (f ()).result } := rfl

theorem outcome_pure_bind {α β : Type} (v : α) (f : α → Outcome β) :
    ((pure v : Outcome α) >>= f) = f v := by
  show Outcome.bind _ _ = _
  simp [Outcome.bind, pure]

theorem outcome_bind_of_error {α β : Type} (x : Outcome α) (f : α → Outcome β) (e : String)
    (h : x.result = .error e) : (x >>= f) = { effects := x.effects, result := .error e } := by
  show Outcome.bind _ _ = _
  simp [Outcome.bind, h]

theorem outcome_bind_of_ok {α β : Type} (x : Outcome α) (f : α → Outcome β) (v : α)
    (h : x.result = .ok v) :
    (x >>= f) = { effects := x.effects ++ (f v).effects, result := (f v).result } := by
  show Outcome.bind _ _ = _
  simp [Outcome.bind, h]

theorem outcome_bind_result_ok_iff {α β : Type} (x : Outcome α) (f : α → Outcome β) (v : β) :
    (x >>= f).result = .ok v ↔ ∃ u, x.result = .ok u ∧ (f u).result = .ok v := by
  cases h : x.result with
  | error e => simp [outcome_bind_of_error x f e h]
  | ok u => simp [outcome_bind_of_ok x f u h]

theorem radix_unique (n q r q' r' : Int) (hr : 0 ≤ r) (hr' : 0 ≤ r') (hrn : r < n)
    (hrn' : r' < n) (h : q * n + r = q' * n + r') : q = q' ∧ r = r' := by
  have hn : 0 < n := by omega
  have e1 : (q * n + r) / n = q := by
    rw [Int.add_comm, Int.add_mul_ediv_right _ _ (by omega), Int.ediv_eq_zero_of_lt hr hrn]
    simp
  have e2 : (q' * n + r') / n = q' := by
    rw [Int.add_comm, Int.add_mul_ediv_right _ _ (by omega), Int.ediv_eq_zero_of_lt hr' hrn']
    simp
  have hq : q = q' := by rw [← e1, ← e2, h]
  subst hq
  exact ⟨rfl, by omega⟩

theorem chunk_select_eq (alloc : Allocation) (dtype : ScalarType) (like : TensorMeta)
    (B M c H K j : Int) (hM : 0 < M) (hc : 0 < c) (hH : 0 < H) (hK : 0 < K)
    (hj : 0 ≤ j) (hjc : j < c) :
    (at_empty_like alloc [B, M, c, H, K] dtype like).select 2 j =
      .ok (chunkSlice alloc dtype like B M c H K j) := by
  have e1 : max M 1 = M := max_eq_left (by omega)
  have e2 : max c 1 = c := max_eq_left (by omega)
  have e3 : max H 1 = H := max_eq_left (by omega)
  have e4 : max K 1 = K := max_eq_left (by omega)
  simp [GradTensor.select, at_empty_like, contiguousStridesInt, e1, e2, e3, e4, hj, hjc,
    List.eraseIdx, chunkSlice]
  refine ⟨⟨?_, ?_⟩, ?_⟩ <;> ring

theorem inBounds4_iff (t : GradTensor) (B M H K : Int) (hs : t.meta.sizes = [B, M, H, K])
    (idx : List Int) :
    t.InBounds idx ↔ ∃ b m h k, idx = [b, m, h, k] ∧ (0 ≤ b ∧ b < B) ∧ (0 ≤ m ∧ m < M) ∧
      (0 ≤ h ∧ h < H) ∧ (0 ≤ k ∧ k < K) := by
  unfold GradTensor.InBounds
  rw [hs]
  constructor
  · intro h
    match idx, h with
    | [b, m, h, k], .cons hb (.cons hm (.cons hh (.cons hk .nil))) =>
      exact ⟨b, m, h, k, rfl, hb, hm, hh, hk⟩
  · rintro ⟨b, m, h, k, rfl, hb, hm, hh, hk⟩
    exact .cons hb (.cons hm (.cons hh (.cons hk .nil)))

theorem inBounds5_iff (t : GradTensor) (B M C H K : Int) (hs : t.meta.sizes = [B, M, C, H, K])
    (idx : List Int) :
    t.InBounds idx ↔ ∃ b m c h k, idx = [b, m, c, h, k] ∧ (0 ≤ b ∧ b < B) ∧ (0 ≤ m ∧ m < M) ∧
      (0 ≤ c ∧ c < C) ∧ (0 ≤ h ∧ h < H) ∧ (0 ≤ k ∧ k < K) := by
  unfold GradTensor.InBounds
  rw [hs]
  constructor
  · intro h
    match idx, h with
    | [b, m, c, h, k], .cons hb (.cons hm (.cons hc (.cons hh (.cons hk .nil)))) =>
      exact ⟨b, m, c, h, k, rfl, hb, hm, hc, hh, hk⟩
  · rintro ⟨b, m, c, h, k, rfl, hb, hm, hc, hh, hk⟩
    exact .cons hb (.cons hm (.cons hc (.cons hh (.cons hk .nil))))

theorem slicesOfChunk_of_eq (alloc : Allocation) (dtype : ScalarType) (like : TensorMeta)
    (B M H K : Int) (slices : List GradTensor) (c : Int) (hM : 0 < M) (hH : 0 < H) (hK : 0 < K)
    (hcl : (slices.length : Int) = c) (hlen : 0 < slices.length)
    (hs : ∀ (j : Nat) (g : GradTensor), slices[j]? = some g →
      g = chunkSlice alloc dtype like B M c H K (j : Int)) :
    SlicesOfChunk (at_empty_like alloc [B, M, c, H, K] dtype like) slices B M H K := by
  subst hcl
  have hc : (0 : Int) < (slices.length : Int) := by exact_mod_cast hlen
  have e1 : max M 1 = M := max_eq_left (by omega)
  have e2 : max (slices.length : Int) 1 = (slices.length : Int) := max_eq_left (by omega)
  have e3 : max H 1 = H := max_eq_left (by omega)
  have e4 : max K 1 = K := max_eq_left (by omega)
  have hstr : (at_empty_like alloc [B, M, (slices.length : Int), H, K] dtype like).meta.strides =
      [(slices.length : Int) * M * H * K, (slices.length : Int) * H * K, H * K, K, 1] := by
    simp [at_empty_like, contiguousStridesInt, e1, e2, e3, e4]
    constructor <;> ring
  have hlt : ∀ (j : Nat) (g : GradTensor), slices[j]? = some g →
      (j : Int) < (slices.length : Int) := by
    intro j g hj
    obtain ⟨hj', -⟩ := List.getElem?_eq_some.1 hj
    exact_mod_cast hj'
  have hat : ∀ (j : Nat) (g : GradTensor), slices[j]? = some g → ∀ b m h k : Int,
      g.elementAt [b, m, h, k] =
        ((((b * M + m) * (slices.length : Int) + (j : Int)) * H + h) * K + k) := by
    intro j g hj b m h k
    rw [hs j g hj]
    simp [GradTensor.elementAt, chunkSlice]
    ring
  refine ⟨⟨rfl, hstr, rfl⟩, ?_, ?_, ?_, ?_⟩
  · intro j g hj
    rw [hs j g hj]
    exact ⟨rfl, rfl, rfl, rfl⟩
  · intro j j' g g' idx idx' hj hj' hb hb' he
    have hsz : g.meta.sizes = [B, M, H, K] := by rw [hs j g hj]; rfl
    have hsz' : g'.meta.sizes = [B, M, H, K] := by rw [hs j' g' hj']; rfl
    obtain ⟨b, m, h, k, rfl, hb0, hm0, hh0, hk0⟩ := (inBounds4_iff g B M H K hsz idx).1 hb
    obtain ⟨b', m', h', k', rfl, hb0', hm0', hh0', hk0'⟩ :=
      (inBounds4_iff g' B M H K hsz' idx').1 hb'
    rw [hat j g hj, hat j' g' hj'] at he
    obtain ⟨he1, rfl⟩ := radix_unique K _ k _ k' hk0.1 hk0'.1 hk0.2 hk0'.2 he
    obtain ⟨he2, rfl⟩ := radix_unique H _ h _ h' hh0.1 hh0'.1 hh0.2 hh0'.2 he1
    obtain ⟨he3, hjj⟩ := radix_unique (slices.length : Int) _ (j : Int) _ (j' : Int)
      (by omega) (by omega) (hlt j g hj) (hlt j' g' hj') he2
    obtain ⟨rfl, rfl⟩ := radix_unique M _ m _ m' hm0.1 hm0'.1 hm0.2 hm0'.2 he3
    exact ⟨by exact_mod_cast hjj, rfl⟩
  · intro c hcb
    obtain ⟨b, m, jj, h, k, rfl, hb0, hm0, hj0, hh0, hk0⟩ :=
      (inBounds5_iff _ B M (slices.length : Int) H K rfl c).1 hcb
    have hjn : jj.toNat < slices.length := by omega
    have hjc : (jj.toNat : Int) = jj := Int.toNat_of_nonneg hj0.1
    have hget : slices[jj.toNat]? = some (slices.get ⟨jj.toNat, hjn⟩) :=
      List.getElem?_eq_getElem hjn
    refine ⟨jj.toNat, _, [b, m, h, k], hget, ?_, ?_⟩
    · exact (inBounds4_iff _ B M H K (by rw [hs _ _ hget]; rfl) _).2
        ⟨b, m, h, k, rfl, hb0, hm0, hh0, hk0⟩
    · rw [hat _ _ hget, hjc]
      simp [GradTensor.elementAt, hstr]
      simp [at_empty_like]
      ring
  · intro j g idx hj hb
    have hsz : g.meta.sizes = [B, M, H, K] := by rw [hs j g hj]; rfl
    obtain ⟨b, m, h, k, rfl, hb0, hm0, hh0, hk0⟩ := (inBounds4_iff g B M H K hsz idx).1 hb
    refine ⟨[b, m, (j : Int), h, k], ?_, ?_⟩
    · exact (inBounds5_iff _ B M (slices.length : Int) H K rfl _).2
        ⟨b, m, j, h, k, rfl, hb0, hm0, ⟨by omega, hlt j g hj⟩, hh0, hk0⟩
    · rw [hat j g hj]
      simp [GradTensor.elementAt, hstr]
      simp [at_empty_like]
      ring

theorem returns_hostStep_bind_iff {α β : Type} (y : Except String α) (f : α → Outcome β)
    (l : List Effect) (v : β) :
    (hostStep y >>= f).Returns l v ↔ ∃ u, y = .ok u ∧ (f u).Returns l v := by
  cases y with
  | error e => simp [hostStep_error_bind, Outcome.Returns]
  | ok u => simp [hostStep_ok_bind]

theorem returns_emit_bind_iff {β : Type} (e : Effect) (f : Unit → Outcome β)
    (l : List Effect) (v : β) :
    (emit e >>= f).Returns l v ↔ ∃ l2, (f ()).Returns l2 v ∧ l = e :: l2 := by
  simp only [emit_bind, Outcome.Returns]
  constructor
  · rintro ⟨h1, h2⟩
    exact ⟨_, ⟨rfl, h2⟩, h1.symm⟩
  · rintro ⟨l2, ⟨h1, h2⟩, rfl⟩
    exact ⟨by rw [h1], h2⟩

theorem returns_pure_iff {α : Type} (u v : α) (l : List Effect) :
    (pure u : Outcome α).Returns l v ↔ u = v ∧ l = [] := by
  simp only [Outcome.Returns, pure]
  constructor
  · rintro ⟨h1, h2⟩
    exact ⟨by injection h2, h1.symm⟩
  · rintro ⟨rfl, rfl⟩
    exact ⟨rfl, rfl⟩

theorem returns_bind_iff {α β : Type} (x : Outcome α) (f : α → Outcome β)
    (l : List Effect) (v : β) :
    (x >>= f).Returns l v ↔
      ∃ u l1 l2, x.Returns l1 u ∧ (f u).Returns l2 v ∧ l = l1 ++ l2 := by
  cases h : x.result with
  | error e => simp [outcome_bind_of_error x f e h, Outcome.Returns, h]
  | ok u =>
    simp only [outcome_bind_of_ok x f u h, Outcome.Returns, h]
    constructor
    · rintro ⟨h1, h2⟩
      exact ⟨u, _, _, ⟨rfl, rfl⟩, ⟨rfl, h2⟩, h1.symm⟩
    · rintro ⟨u', l1, l2, ⟨h1, h2⟩, ⟨h3, h4⟩, rfl⟩
      injection h2 with h2
      subst h2
      exact ⟨by rw [h1, h3], h4⟩

theorem allocate_grad_bias_returns (bias : Option BiasCtx) :
    ∃ l g, (efficient_attention_backward_ck_allocate_grad_bias bias).Returns l g ∧
      ∀ e ∈ l, ∃ t, e = Effect.device_alloc t := by
  unfold efficient_attention_backward_ck_allocate_grad_bias
  cases bias with
  | none => exact ⟨[], none, ⟨rfl, rfl⟩, by simp⟩
  | some b =>
    by_cases hb : b.requires_grad = true
    · simp only [hb, if_true]
      exact ⟨[_], _, ⟨rfl, rfl⟩, by simp⟩
    · simp only [hb, if_false]
      exact ⟨[], none, ⟨rfl, rfl⟩, by simp⟩

theorem allocate_tmp_returns (a : BackwardArgs) (use_fp32_qkv_grad is_mqa_gqa : Bool)
    (B N Hq K Kv : Int) :
    ∃ l, (efficient_attention_backward_ck_allocate_tmp a use_fp32_qkv_grad is_mqa_gqa
        B N Hq K Kv).Returns l
      (if is_mqa_gqa then
        (some (at_empty_like Allocation.tmp_grad_k [B, N, Hq, K]
            (if use_fp32_qkv_grad then ScalarType.kFloat else a.query.meta.dtype) a.query.meta),
          some (at_empty_like Allocation.tmp_grad_v [B, N, Hq, Kv]
            (if use_fp32_qkv_grad then ScalarType.kFloat else a.query.meta.dtype) a.query.meta))
      else (none, none)) ∧
      ∀ e ∈ l, ∃ t, e = Effect.device_alloc t := by
  unfold efficient_attention_backward_ck_allocate_tmp
  cases is_mqa_gqa with
  | false => exact ⟨[], ⟨rfl, rfl⟩, by simp⟩
  | true => exact ⟨[_, _], ⟨rfl, rfl⟩, by simp⟩

theorem returns_unique {α : Type} (x : Outcome α) (l l' : List Effect) (v v' : α)
    (h : x.Returns l v) (h' : x.Returns l' v') : l = l' ∧ v = v' := by
  obtain ⟨h1, h2⟩ := h
  obtain ⟨h1', h2'⟩ := h'
  rw [h2] at h2'
  injection h2' with h2'
  exact ⟨h1.symm.trans h1', h2'⟩

theorem prepare_returns_inv (a : BackwardArgs) (l : List Effect) (s : PreparedCall)
    (h : (efficient_attention_backward_ck_prepare a).Returns l s) :
    efficient_attention_backward_ck_shape_checks a = .ok () ∧
    efficient_attention_backward_ck_device_checks a = .ok () ∧
    efficient_attention_backward_ck_seqstart_checks a = .ok () ∧
    ∃ (uf : Bool) (B M N Hq Hkv K Kv : Int) (la lr : List Effect),
      read_USE_FP32_QKV_GRAD a.env_USE_FP32_QKV_GRAD = .ok uf ∧
      (a.query.meta.size 0 = .ok B ∧ a.query.meta.size 1 = .ok M ∧ a.key.meta.size 1 = .ok N ∧
        a.query.meta.size 2 = .ok Hq ∧ a.key.meta.size 2 = .ok Hkv ∧
        a.query.meta.size 3 = .ok K ∧ a.value.meta.size 3 = .ok Kv) ∧
      (efficient_attention_backward_ck_allocate a uf B M N Hq Hkv K Kv).Returns la
        (s.grad_q, s.grad_k, s.grad_v) ∧
      l = la ++ lr ∧ (∀ e ∈ lr, ∃ t, e = Effect.device_alloc t) ∧
      efficient_attention_backward_ck_layout_checks a s.grad_q s.grad_k s.grad_v = .ok () ∧
      (s.tmp_grad_k, s.tmp_grad_v) =
        (if Hq > Hkv then
          (some (at_empty_like Allocation.tmp_grad_k [B, N, Hq, K]
              (if uf then ScalarType.kFloat else a.query.meta.dtype) a.query.meta),
            some (at_empty_like Allocation.tmp_grad_v [B, N, Hq, Kv]
              (if uf then ScalarType.kFloat else a.query.meta.dtype) a.query.meta))
        else (none, none)) ∧
      s.ctx =
        { query := a.query.meta, key := a.key.meta, value := a.value.meta, out := a.out,
          grad_out := a.grad_out, logsumexp := a.logsumexp,
          grad_q := s.grad_q.meta, grad_k := s.grad_k.meta, grad_v := s.grad_v.meta,
          tmp_grad_k := metaOrUndefined s.tmp_grad_k
          tmp_grad_v := metaOrUndefined s.tmp_grad_v
          bias := a.bias, seqstart_q := a.seqstart_q, seqstart_k := a.seqstart_k,
          seqlen_k := a.seqlen_k, max_seqlen_q_ := a.max_seqlen_q_,
          B := B, M := M, N := N, Hq := Hq, Hkv := Hkv, K := K, Kv := Kv,
          use_fp32_qkv_grad := uf,
          is_mqa_gqa := decide (Hq > Hkv),
          bias_requires_grad := bias_requires_grad_of a.bias,
          rng_seed := a.rng_seed, rng_offset := a.rng_offset,
          custom_mask_type := a.custom_mask_type } := by
  simp only [efficient_attention_backward_ck_prepare, returns_hostStep_bind_iff] at h
  obtain ⟨_, h1, _, h2, _, h3, uf, huf, B, hB, M, hM, N, hN, Hq, hHq, Hkv, hHkv, K, hK, Kv, hKv,
    h⟩ := h
  rw [returns_bind_iff] at h
  obtain ⟨⟨gq, gk, gv⟩, la, l2, hal, h, rfl⟩ := h
  rw [returns_hostStep_bind_iff] at h
  obtain ⟨_, hlay, h⟩ := h
  rw [returns_bind_iff] at h
  obtain ⟨gb, lb, l3, hgb, h, rfl⟩ := h
  rw [returns_bind_iff] at h
  obtain ⟨tmp, lt, l4, htmp, h, rfl⟩ := h
  rw [returns_pure_iff] at h
  obtain ⟨rfl, rfl⟩ := h
  obtain ⟨lb', gb', hgb', hlb⟩ := allocate_grad_bias_returns a.bias
  obtain ⟨rfl, rfl⟩ := returns_unique _ _ _ _ _ hgb hgb'
  obtain ⟨lt', htmp', hlt⟩ := allocate_tmp_returns a uf (decide (Hq > Hkv)) B N Hq K Kv
  obtain ⟨rfl, htmpv⟩ := returns_unique _ _ _ _ _ htmp htmp'
  refine ⟨h1, h2, h3, uf, B, M, N, Hq, Hkv, K, Kv, la, lb ++ (lt ++ []), huf,
    ⟨hB, hM, hN, hHq, hHkv, hK, hKv⟩, hal, rfl, ?_, hlay, ?_, rfl⟩
  · intro e he
    simp only [List.append_nil, List.mem_append] at he
    rcases he with he | he
    · exact hlb e he
    · exact hlt e he
  · rw [htmpv]
    by_cases hc : Hq > Hkv <;> simp [hc]

theorem forall_effects_bind {α β : Type} (P : Effect → Prop) (x : Outcome α)
    (f : α → Outcome β) (hx : ∀ e ∈ x.effects, P e) (hf : ∀ u, ∀ e ∈ (f u).effects, P e) :
    ∀ e ∈ (x >>= f).effects, P e := by
  cases h : x.result with
  | error err =>
    rw [outcome_bind_of_error x f err h]
    exact hx
  | ok u =>
    rw [outcome_bind_of_ok x f u h]
    intro e he
    rcases List.mem_append.1 he with he | he
    · exact hx e he
    · exact hf u e he

theorem forall_effects_hostStep {α : Type} (P : Effect → Prop) (y : Except String α) :
    ∀ e ∈ (hostStep y).effects, P e := by
  intro e he
  simp [hostStep] at he

theorem forall_effects_pure {α : Type} (P : Effect → Prop) (v : α) :
    ∀ e ∈ (pure v : Outcome α).effects, P e := by
  intro e he
  simp [pure] at he

theorem forall_effects_emit (P : Effect → Prop) (e : Effect) (h : P e) :
    ∀ e' ∈ (emit e).effects, P e' := by
  intro e' he
  simp [emit] at he
  subst he
  exact h

theorem allocate_effects (a : BackwardArgs) (use_fp32_qkv_grad : Bool)
    (B M N Hq Hkv K Kv : Int) :
    ∀ e ∈ (efficient_attention_backward_ck_allocate a use_fp32_qkv_grad
        B M N Hq Hkv K Kv).effects,
      (∃ t, e = Effect.device_alloc t) ∨ (∃ t, e = Effect.device_fill_zero t) := by
  unfold efficient_attention_backward_ck_allocate
  iterate 7 refine forall_effects_bind _ _ _ (forall_effects_hostStep _ _) (fun _ => ?_)
  split_ifs
  all_goals
    repeat' first
      | exact forall_effects_hostStep _ _
      | exact forall_effects_pure _ _
      | exact forall_effects_emit _ _ (Or.inl ⟨_, rfl⟩)
      | exact forall_effects_emit _ _ (Or.inr ⟨_, rfl⟩)
      | refine forall_effects_bind _ _ _ ?_ (fun _ => ?_)

theorem prepare_effects (a : BackwardArgs) :
    ∀ e ∈ (efficient_attention_backward_ck_prepare a).effects,
      (∃ t, e = Effect.device_alloc t) ∨ (∃ t, e = Effect.device_fill_zero t) := by
  unfold efficient_attention_backward_ck_prepare
  iterate 11 refine forall_effects_bind _ _ _ (forall_effects_hostStep _ _) (fun _ => ?_)
  refine forall_effects_bind _ _ _ (allocate_effects _ _ _ _ _ _ _ _ _) (fun _ => ?_)
  refine forall_effects_bind _ _ _ (forall_effects_hostStep _ _) (fun _ => ?_)
  refine forall_effects_bind _ _ _ ?_ (fun _ => ?_)
  · obtain ⟨l, g, ⟨h, -⟩, hl⟩ := allocate_grad_bias_returns a.bias
    rw [h]
    intro e he
    exact Or.inl (hl e he)
  refine forall_effects_bind _ _ _ ?_ (fun _ => ?_)
  · obtain ⟨l, ⟨h, -⟩, hl⟩ := allocate_tmp_returns a _ _ _ _ _ _ _
    rw [h]
    intro e he
    exact Or.inl (hl e he)
  exact forall_effects_pure _ _

theorem select_chunk_ok (alloc : Allocation) (dtype : ScalarType) (like : TensorMeta)
    (B M c H K j : Int) (hj : 0 ≤ j ∧ j < c) :
    ∃ g, (at_empty_like alloc [B, M, c, H, K] dtype like).select 2 j = .ok g := by
  simp [GradTensor.select, at_empty_like, contiguousStridesInt, hj]

theorem allocate_returns_fill (a : BackwardArgs) (use_fp32_qkv_grad : Bool)
    (B M N Hq Hkv K Kv : Int) (l : List Effect) (gq gk gv : GradTensor)
    (h : (efficient_attention_backward_ck_allocate a use_fp32_qkv_grad
        B M N Hq Hkv K Kv).Returns l (gq, gk, gv)) :
    Effect.device_fill_zero gq ∈ l ∧
    ∀ e ∈ l, (∃ t, e = Effect.device_alloc t) ∨ e = Effect.device_fill_zero gq := by
  simp only [efficient_attention_backward_ck_allocate, returns_hostStep_bind_iff] at h
  obtain ⟨q1, -, k1, -, q3, -, v3, -, q2, -, k2, -, k3, -, h⟩ := h
  by_cases c1 : q1 = k1 ∧ q3 = v3 ∧ q2 = k2 ∧ a.query.storage = a.key.storage ∧
      a.query.storage = a.value.storage
  · rw [if_pos c1] at h
    obtain ⟨g0, h0⟩ := select_chunk_ok Allocation.chunk
      (if use_fp32_qkv_grad then ScalarType.kFloat else a.query.meta.dtype) a.query.meta
      B M 3 Hq K 0 (by decide)
    obtain ⟨g1, h1⟩ := select_chunk_ok Allocation.chunk
      (if use_fp32_qkv_grad then ScalarType.kFloat else a.query.meta.dtype) a.query.meta
      B M 3 Hq K 1 (by decide)
    obtain ⟨g2, h2⟩ := select_chunk_ok Allocation.chunk
      (if use_fp32_qkv_grad then ScalarType.kFloat else a.query.meta.dtype) a.query.meta
      B M 3 Hq K 2 (by decide)
    simp only [h0, h1, h2, hostStep_ok_bind, emit_bind, Outcome.Returns, pure,
      Except.ok.injEq, Prod.mk.injEq] at h
    obtain ⟨rfl, rfl, rfl, rfl⟩ := h
    simp
  · rw [if_neg c1] at h
    by_cases c2 : k3 = v3 ∧ a.key.storage = a.value.storage
    · rw [if_pos c2] at h
      obtain ⟨g0, h0⟩ := select_chunk_ok Allocation.chunk
        (if use_fp32_qkv_grad then ScalarType.kFloat else a.query.meta.dtype) a.query.meta
        B N 2 Hkv Kv 0 (by decide)
      obtain ⟨g1, h1⟩ := select_chunk_ok Allocation.chunk
        (if use_fp32_qkv_grad then ScalarType.kFloat else a.query.meta.dtype) a.query.meta
        B N 2 Hkv Kv 1 (by decide)
      simp only [h0, h1, hostStep_ok_bind, emit_bind, Outcome.Returns, pure,
        Except.ok.injEq, Prod.mk.injEq] at h
      obtain ⟨rfl, rfl, rfl, rfl⟩ := h
      simp
    · rw [if_neg c2] at h
      simp only [hostStep_ok_bind, emit_bind, Outcome.Returns, pure,
        Except.ok.injEq, Prod.mk.injEq] at h
      obtain ⟨rfl, rfl, rfl, rfl⟩ := h
      simp

theorem batched_backward_bp16_cases (p : BatchedBackwardParams) :
    (∃ c, batched_backward_bp16 p = runKernel c) ∨
    (∃ e, batched_backward_bp16 p = throwRuntimeError e) := by
  unfold batched_backward_bp16 BOOL_SWITCH_2
  split_ifs <;> first | exact Or.inl ⟨_, rfl⟩ | exact Or.inr ⟨_, rfl⟩

theorem batched_backward_fp16_cases (p : BatchedBackwardParams) :
    (∃ c, batched_backward_fp16 p = runKernel c) ∨
    (∃ e, batched_backward_fp16 p = throwRuntimeError e) := by
  unfold batched_backward_fp16
  split_ifs <;> first | exact Or.inl ⟨_, rfl⟩ | exact Or.inr ⟨_, rfl⟩

theorem grouped_backward_bp16_cases (p : GroupedBackwardParams) :
    (∃ c, grouped_backward_bp16 p = runKernel c) ∨
    (∃ e, grouped_backward_bp16 p = throwRuntimeError e) := by
  unfold grouped_backward_bp16
  split_ifs <;> first | exact Or.inl ⟨_, rfl⟩ | exact Or.inr ⟨_, rfl⟩

theorem grouped_backward_fp16_cases (p : GroupedBackwardParams) :
    (∃ c, grouped_backward_fp16 p = runKernel c) ∨
    (∃ e, grouped_backward_fp16 p = throwRuntimeError e) := by
  unfold grouped_backward_fp16
  split_ifs <;> first | exact Or.inl ⟨_, rfl⟩ | exact Or.inr ⟨_, rfl⟩

theorem runDispatcher_runKernel (body : KernelCall → Outcome Unit) (c : KernelCall) :
    runDispatcher body (runKernel c) = body c := by
  unfold runDispatcher runKernel
  simp only [runInstances]
  cases hb : body c with
  | mk eff res =>
    cases res with
    | error e => rfl
    | ok u => simp [bind, Outcome.bind, pure, hostStep]

theorem runDispatcher_throwRuntimeError (body : KernelCall → Outcome Unit) (e : String) :
    runDispatcher body (throwRuntimeError e) = { effects := [], result := .error e } := by
  rfl

theorem run_batched_instance_ends (op : DeviceOp) (c : KernelCall) :
    LaunchEnds op (run_batched_backward_masktype_attnbias_dispatched op c) := by
  unfold run_batched_backward_masktype_attnbias_dispatched
  cases h : op.IsSupportedArgument c with
  | false =>
    refine Or.inr (Or.inl ⟨c, h, ?_⟩)
    simp only [check]
    rfl
  | true =>
    refine Or.inr (Or.inr ⟨c, h, ?_⟩)
    simp only [check]
    rfl

theorem grouped_instance_ends (op : DeviceOp) (c : KernelCall) (p : GroupedBackwardParams) :
    LaunchEnds op (grouped_backward_masktype_attnbias_dispatched op c p) := by
  unfold grouped_backward_masktype_attnbias_dispatched
  cases hd : grouped_backward_problem_descs c.has_attn_bias p with
  | none =>
    simp only [hostStep_error_bind]
    exact Or.inl ⟨_, rfl⟩
  | some descs =>
    simp only [hostStep_ok_bind]
    cases h : op.IsSupportedArgument c with
    | false =>
      refine Or.inr (Or.inl ⟨c, h, ?_⟩)
      simp only [check]
      rfl
    | true =>
      refine Or.inr (Or.inr ⟨c, h, ?_⟩)
      simp only [check]
      rfl

theorem runDispatcher_ends (op : DeviceOp) (body : KernelCall → Outcome Unit)
    (hbody : ∀ c, LaunchEnds op (body c)) (r : DispatchResult)
    (hr : (∃ c, r = runKernel c) ∨ (∃ e, r = throwRuntimeError e)) :
    LaunchEnds op (runDispatcher body r) := by
  rcases hr with ⟨c, rfl⟩ | ⟨e, rfl⟩
  · rw [runDispatcher_runKernel]
    exact hbody c
  · rw [runDispatcher_throwRuntimeError]
    exact Or.inl ⟨e, rfl⟩

theorem launch_ends (a : BackwardArgs) (s : PreparedCall) :
    LaunchEnds a.device_op (efficient_attention_backward_ck_launch a s) := by
  unfold efficient_attention_backward_ck_launch
  cases hq : s.ctx.seqstart_q with
  | none =>
    simp only []
    cases hp : set_batched_backward_params s.ctx a.batched_backward_params with
    | error e => exact Or.inl ⟨e, by simp only [hostStep_error_bind]⟩
    | ok p =>
      simp only [hostStep_ok_bind]
      split_ifs
      · exact runDispatcher_ends _ _ (run_batched_instance_ends _) _ (batched_backward_fp16_cases p)
      · exact runDispatcher_ends _ _ (run_batched_instance_ends _) _ (batched_backward_bp16_cases p)
      · exact Or.inl ⟨_, rfl⟩
  | some sq =>
    simp only []
    cases hp : set_grouped_backward_params s.ctx a.grouped_backward_params.default_initialized with
    | error e => exact Or.inl ⟨e, by simp only [hostStep_error_bind]⟩
    | ok p =>
      simp only [hostStep_ok_bind]
      split_ifs
      · exact runDispatcher_ends _ _ (fun c => grouped_instance_ends _ c p) _
          (grouped_backward_fp16_cases p)
      · exact runDispatcher_ends _ _ (fun c => grouped_instance_ends _ c p) _
          (grouped_backward_bp16_cases p)
      · exact Or.inl ⟨_, rfl⟩

theorem launch_error_effects (a : BackwardArgs) (s : PreparedCall) (e : String)
    (h : (efficient_attention_backward_ck_launch a s).result = .error e) :
    ∀ x ∈ (efficient_attention_backward_ck_launch a s).effects,
      ∃ c, x = Effect.workspace_alloc c := by
  rcases launch_ends a s with ⟨e', h'⟩ | ⟨c, -, h'⟩ | ⟨c, -, h'⟩
  · rw [h']
    simp
  · rw [h']
    simp
  · rw [h'] at h
    simp at h

theorem launch_effects (a : BackwardArgs) (s : PreparedCall) :
    ∀ x ∈ (efficient_attention_backward_ck_launch a s).effects,
      (∃ c, x = Effect.workspace_alloc c) ∨ (∃ c, x = Effect.kernel_launch c) := by
  rcases launch_ends a s with ⟨e', h'⟩ | ⟨c, -, h'⟩ | ⟨c, -, h'⟩ <;> rw [h'] <;> simp

theorem shape_checks_sizes (a : BackwardArgs) (B M N Hq Hkv K Kv : Int)
    (h : efficient_attention_backward_ck_shape_checks a = .ok ())
    (hB : a.query.meta.size 0 = .ok B) (hM : a.query.meta.size 1 = .ok M)
    (hN : a.key.meta.size 1 = .ok N) (hHq : a.query.meta.size 2 = .ok Hq)
    (hHkv : a.key.meta.size 2 = .ok Hkv) (hK : a.query.meta.size 3 = .ok K)
    (hKv : a.value.meta.size 3 = .ok Kv) :
    a.query.meta.sizes = [B, M, Hq, K] ∧ a.key.meta.sizes = [B, N, Hkv, K] ∧
    a.value.meta.sizes = [B, N, Hkv, Kv] ∧ a.grad_out.sizes = [B, M, Hq, Kv] ∧
    Hkv ≠ 0 ∧ Int.tmod Hq Hkv = 0 := by
  obtain ⟨⟨lq, lk, lv, lg⟩, h0, h1, h2, h3, -⟩ := (shape_checks_ok_iff a).1 h
  obtain ⟨q0, q1, q2, q3, hq⟩ := length_eq_four _ lq
  obtain ⟨k0, k1, k2, k3, hk⟩ := length_eq_four _ lk
  obtain ⟨v0, v1, v2, v3, hv⟩ := length_eq_four _ lv
  obtain ⟨g0, g1, g2, g3, hg⟩ := length_eq_four _ lg
  simp only [size_ok_iff, hq, hk, hv, hg, List.getElem?_cons_succ, List.getElem?_cons_zero,
    Option.some.injEq] at hB hM hN hHq hHkv hK hKv
  simp only [hq, hk, hv, hg, List.getD_cons_succ, List.getD_cons_zero] at h0 h1 h2 h3
  subst hB hM hN hHq hHkv hK hKv
  obtain ⟨rfl, rfl, rfl⟩ := h0
  obtain ⟨rfl, rfl⟩ := h1
  obtain ⟨hne, hmod, rfl, rfl⟩ := h2
  obtain ⟨rfl, rfl⟩ := h3
  exact ⟨hq, hk, hv, hg, hne, hmod⟩

theorem finish_non_mqa (s : PreparedCall) (hm : s.ctx.is_mqa_gqa = false) :
    efficient_attention_backward_ck_finish s =
      pure { grad_q := s.grad_q, grad_k := s.grad_k, grad_v := s.grad_v,
             grad_bias := s.grad_bias } := by
  unfold efficient_attention_backward_ck_finish
  rw [hm]

theorem tdiv_mul_of_tmod_zero (x y : Int) (h : Int.tmod x y = 0) : y * Int.tdiv x y = x := by
  have := Int.tmod_add_tdiv x y
  omega

theorem finish_mqa (s : PreparedCall) (B N Hq Hkv K Kv : Int) (dtype : ScalarType)
    (like : TensorMeta) (hm : s.ctx.is_mqa_gqa = true)
    (htk : s.tmp_grad_k = some (at_empty_like Allocation.tmp_grad_k [B, N, Hq, K] dtype like))
    (htv : s.tmp_grad_v = some (at_empty_like Allocation.tmp_grad_v [B, N, Hq, Kv] dtype like))
    (hHq : s.ctx.Hq = Hq) (hHkv : s.ctx.Hkv = Hkv) (hmod : Int.tmod Hq Hkv = 0) :
    ∃ l, (efficient_attention_backward_ck_finish s).Returns l
        { grad_q := s.grad_q,
          grad_k := at_empty_like Allocation.reduced_grad_k [B, N, Hkv, K] dtype like,
          grad_v := at_empty_like Allocation.reduced_grad_v [B, N, Hkv, Kv] dtype like,
          grad_bias := s.grad_bias } ∧
      ∀ e ∈ l, ∃ src dst, e = Effect.device_sum src 3 dst := by
  have hd := tdiv_mul_of_tmod_zero Hq Hkv hmod
  unfold efficient_attention_backward_ck_finish
  rw [hm, htk, htv, hHq, hHkv]
  simp only [GradTensor.unflatten, at_empty_like, contiguousStridesInt, List.getElem?_cons_succ,
    List.getElem?_cons_zero, hd, if_true, hostStep_ok_bind, GradTensor.sum, List.take, List.drop,
    List.cons_append, List.nil_append, List.eraseIdx, emit_bind]
  exact ⟨_, ⟨rfl, rfl⟩, by simp [pure]⟩

theorem finish_returns_of_prepare (a : BackwardArgs) (l : List Effect) (s : PreparedCall)
    (h : (efficient_attention_backward_ck_prepare a).Returns l s) :
    ∃ lf g, (efficient_attention_backward_ck_finish s).Returns lf g ∧
      (∀ e ∈ lf, ∃ src dst, e = Effect.device_sum src 3 dst) ∧
      g.grad_q = s.grad_q ∧
      (s.ctx.is_mqa_gqa = false → g.grad_k = s.grad_k ∧ g.grad_v = s.grad_v) ∧
      (s.ctx.is_mqa_gqa = true →
        g.grad_k.meta.sizes = a.key.meta.sizes ∧
        g.grad_k.meta.strides = contiguousStridesInt a.key.meta.sizes ∧
        g.grad_v.meta.sizes = a.value.meta.sizes ∧
        g.grad_v.meta.strides = contiguousStridesInt a.value.meta.sizes) := by
  obtain ⟨h1, -, -, uf, B, M, N, Hq, Hkv, K, Kv, la, lr, -, ⟨hB, hM, hN, hHq, hHkv, hK, hKv⟩, -, -, -, -,
    htmp, hctx⟩ := prepare_returns_inv a l s h
  obtain ⟨-, hk, hv, -, -, hmod⟩ := shape_checks_sizes a B M N Hq Hkv K Kv h1 hB hM hN hHq hHkv hK hKv
  have hmq : s.ctx.is_mqa_gqa = decide (Hq > Hkv) := by rw [hctx]
  have hcHq : s.ctx.Hq = Hq := by rw [hctx]
  have hcHkv : s.ctx.Hkv = Hkv := by rw [hctx]
  by_cases hc : Hq > Hkv
  · rw [if_pos hc] at htmp
    injection htmp with htk htv
    have hm : s.ctx.is_mqa_gqa = true := by rw [hmq]; exact decide_eq_true hc
    obtain ⟨lf, hf, hlf⟩ := finish_mqa s B N Hq Hkv K Kv _ _ hm htk htv hcHq hcHkv hmod
    refine ⟨lf, _, hf, hlf, rfl, ?_, ?_⟩
    · intro hm'
      rw [hm] at hm'
      exact absurd hm' (by decide)
    · intro _
      rw [hk, hv]
      exact ⟨rfl, rfl, rfl, rfl⟩
  · have hm : s.ctx.is_mqa_gqa = false := by rw [hmq]; exact decide_eq_false hc
    refine ⟨[], { grad_q := s.grad_q, grad_k := s.grad_k, grad_v := s.grad_v,
                  grad_bias := s.grad_bias }, ?_, by simp, rfl, fun _ => ⟨rfl, rfl⟩, ?_⟩
    · rw [finish_non_mqa s hm]
      exact ⟨rfl, rfl⟩
    · intro hm'
      rw [hm] at hm'
      exact absurd hm' (by decide)

theorem run_cases (a : BackwardArgs) :
    (∃ e, (efficient_attention_backward_ck_prepare a).result = .error e ∧
      efficient_attention_backward_ck a =
        { effects := (efficient_attention_backward_ck_prepare a).effects, result := .error e }) ∨
    (∃ s, (efficient_attention_backward_ck_prepare a).result = .ok s ∧
      ((∃ e, (efficient_attention_backward_ck_launch a s).result = .error e ∧
          efficient_attention_backward_ck a =
            { effects := (efficient_attention_backward_ck_prepare a).effects ++
                (efficient_attention_backward_ck_launch a s).effects,
              result := .error e }) ∨
        (∃ lf g, (efficient_attention_backward_ck_launch a s).result = .ok () ∧
          (efficient_attention_backward_ck_finish s).Returns lf g ∧
          efficient_attention_backward_ck a =
            { effects := (efficient_attention_backward_ck_prepare a).effects ++
                ((efficient_attention_backward_ck_launch a s).effects ++ lf),
              result := .ok g }))) := by
  unfold efficient_attention_backward_ck
  cases hp : (efficient_attention_backward_ck_prepare a).result with
  | error e => exact Or.inl ⟨e, rfl, outcome_bind_of_error _ _ e hp⟩
  | ok s =>
    refine Or.inr ⟨s, rfl, ?_⟩
    rw [outcome_bind_of_ok _ _ s hp]
    cases hl : (efficient_attention_backward_ck_launch a s).result with
    | error e =>
      refine Or.inl ⟨e, rfl, ?_⟩
      rw [outcome_bind_of_error _ _ e hl]
    | ok u =>
      obtain ⟨lf, g, hf, -⟩ := finish_returns_of_prepare a _ s ⟨rfl, hp⟩
      refine Or.inr ⟨lf, g, rfl, hf, ?_⟩
      rw [outcome_bind_of_ok _ _ u hl, hf.1, hf.2]

theorem exGeneralArgs_lse_mismatch :
    efficient_attention_backward_ck (exGeneralArgs [1, 1, 3]) =
      { effects :=
          [.device_alloc (at_empty_strided_like Allocation.grad_q ScalarType.kBFloat16
              (exGeneralArgs [1, 1, 3]).query.meta),
           .device_alloc (at_empty_strided_like Allocation.grad_k ScalarType.kBFloat16
              (exGeneralArgs [1, 1, 3]).key.meta),
           .device_alloc (at_empty_strided_like Allocation.grad_v ScalarType.kBFloat16
              (exGeneralArgs [1, 1, 3]).value.meta),
           .device_fill_zero (at_empty_strided_like Allocation.grad_q ScalarType.kBFloat16
              (exGeneralArgs [1, 1, 3]).query.meta)],
        result := .error "p.M == logsumexp.size(2)" } := by
  rfl

theorem exGeneralArgs_run :
    efficient_attention_backward_ck (exGeneralArgs [1, 1, 2]) =
      { effects :=
          [.device_alloc (at_empty_strided_like Allocation.grad_q ScalarType.kBFloat16
              (exGeneralArgs [1, 1, 2]).query.meta),
           .device_alloc (at_empty_strided_like Allocation.grad_k ScalarType.kBFloat16
              (exGeneralArgs [1, 1, 2]).key.meta),
           .device_alloc (at_empty_strided_like Allocation.grad_v ScalarType.kBFloat16
              (exGeneralArgs [1, 1, 2]).value.meta),
           .device_fill_zero (at_empty_strided_like Allocation.grad_q ScalarType.kBFloat16
              (exGeneralArgs [1, 1, 2]).query.meta),
           .workspace_alloc (.run_batched_backward_masktype_attnbias_dispatched CkType.bhalf_t 0
              true false),
           .kernel_launch (.run_batched_backward_masktype_attnbias_dispatched CkType.bhalf_t 0
              true false)],
        result := .ok
          { grad_q := at_empty_strided_like Allocation.grad_q ScalarType.kBFloat16
              (exGeneralArgs [1, 1, 2]).query.meta,
            grad_k := at_empty_strided_like Allocation.grad_k ScalarType.kBFloat16
              (exGeneralArgs [1, 1, 2]).key.meta,
            grad_v := at_empty_strided_like Allocation.grad_v ScalarType.kBFloat16
              (exGeneralArgs [1, 1, 2]).value.meta,
            grad_bias := none } } := by
  rfl

theorem select_chunk_offset (alloc : Allocation) (dtype : ScalarType) (like : TensorMeta)
    (B M c H K j : Int) (g : GradTensor)
    (h : (at_empty_like alloc [B, M, c, H, K] dtype like).select 2 j = .ok g) :
    g.allocation = alloc ∧ g.storage_offset = j * (max H 1 * max K 1) := by
  simp only [GradTensor.select, at_empty_like, contiguousStridesInt, List.getElem?_cons_succ,
    List.getElem?_cons_zero, List.map_cons, List.map_nil, List.prod_cons, List.prod_nil,
    mul_one] at h
  split_ifs at h
  injection h with h
  subst h
  simp

theorem allocate_returns_distinct (a : BackwardArgs) (use_fp32_qkv_grad : Bool)
    (B M N Hq Hkv K Kv : Int) (l : List Effect) (gq gk gv : GradTensor)
    (h : (efficient_attention_backward_ck_allocate a use_fp32_qkv_grad
        B M N Hq Hkv K Kv).Returns l (gq, gk, gv)) :
    gk ≠ gq ∧ gv ≠ gq := by
  have hpos : ∀ x y : Int, 0 < max x 1 * max y 1 := fun x y =>
    mul_pos (lt_of_lt_of_le one_pos (le_max_right _ _)) (lt_of_lt_of_le one_pos (le_max_right _ _))
  simp only [efficient_attention_backward_ck_allocate, returns_hostStep_bind_iff] at h
  obtain ⟨q1, -, k1, -, q3, -, v3, -, q2, -, k2, -, k3, -, h⟩ := h
  by_cases c1 : q1 = k1 ∧ q3 = v3 ∧ q2 = k2 ∧ a.query.storage = a.key.storage ∧
      a.query.storage = a.value.storage
  · rw [if_pos c1] at h
    obtain ⟨g0, h0⟩ := select_chunk_ok Allocation.chunk
      (if use_fp32_qkv_grad then ScalarType.kFloat else a.query.meta.dtype) a.query.meta
      B M 3 Hq K 0 (by decide)
    obtain ⟨g1, h1⟩ := select_chunk_ok Allocation.chunk
      (if use_fp32_qkv_grad then ScalarType.kFloat else a.query.meta.dtype) a.query.meta
      B M 3 Hq K 1 (by decide)
    obtain ⟨g2, h2⟩ := select_chunk_ok Allocation.chunk
      (if use_fp32_qkv_grad then ScalarType.kFloat else a.query.meta.dtype) a.query.meta
      B M 3 Hq K 2 (by decide)
    have o0 := (select_chunk_offset _ _ _ _ _ _ _ _ _ _ h0).2
    have o1 := (select_chunk_offset _ _ _ _ _ _ _ _ _ _ h1).2
    have o2 := (select_chunk_offset _ _ _ _ _ _ _ _ _ _ h2).2
    simp only [h0, h1, h2, hostStep_ok_bind, emit_bind, Outcome.Returns, pure,
      Except.ok.injEq, Prod.mk.injEq] at h
    obtain ⟨-, rfl, rfl, rfl⟩ := h
    have hp := hpos Hq K
    constructor
    · intro he
      rw [he, o0] at o1
      omega
    · intro he
      rw [he, o0] at o2
      omega
  · rw [if_neg c1] at h
    by_cases c2 : k3 = v3 ∧ a.key.storage = a.value.storage
    · rw [if_pos c2] at h
      obtain ⟨g0, h0⟩ := select_chunk_ok Allocation.chunk
        (if use_fp32_qkv_grad then ScalarType.kFloat else a.query.meta.dtype) a.query.meta
        B N 2 Hkv Kv 0 (by decide)
      obtain ⟨g1, h1⟩ := select_chunk_ok Allocation.chunk
        (if use_fp32_qkv_grad then ScalarType.kFloat else a.query.meta.dtype) a.query.meta
        B N 2 Hkv Kv 1 (by decide)
      have a0 := (select_chunk_offset _ _ _ _ _ _ _ _ _ _ h0).1
      have a1 := (select_chunk_offset _ _ _ _ _ _ _ _ _ _ h1).1
      simp only [h0, h1, hostStep_ok_bind, emit_bind, Outcome.Returns, pure,
        Except.ok.injEq, Prod.mk.injEq] at h
      obtain ⟨-, rfl, rfl, rfl⟩ := h
      constructor
      · intro he
        rw [he] at a0
        simp [at_empty_strided_like] at a0
      · intro he
        rw [he] at a1
        simp [at_empty_strided_like] at a1
    · rw [if_neg c2] at h
      simp only [hostStep_ok_bind, emit_bind, Outcome.Returns, pure,
        Except.ok.injEq, Prod.mk.injEq] at h
      obtain ⟨-, rfl, rfl, rfl⟩ := h
      constructor
      · intro he
        have := congrArg GradTensor.allocation he
        simp [at_empty_strided_like] at this
      · intro he
        have := congrArg GradTensor.allocation he
        simp [at_empty_strided_like] at this

theorem layout_checks_ok_iff (a : BackwardArgs) (gq gk gv : GradTensor) :
    efficient_attention_backward_ck_layout_checks a gq gk gv = .ok () ↔
      a.query.meta.sizes = gq.meta.sizes ∧ a.query.meta.strides = gq.meta.strides ∧
      a.key.meta.sizes = gk.meta.sizes ∧ a.key.meta.strides = gk.meta.strides ∧
      a.value.meta.sizes = gv.meta.sizes ∧ a.value.meta.strides = gv.meta.strides := by
  simp only [efficient_attention_backward_ck_layout_checks, except_bind_ok_iff, check_ok_iff,
    decide_eq_true_eq]
  constructor
  · rintro ⟨_, h1, _, h2, _, h3, _, h4, _, h5, h6⟩
    exact ⟨h1, h2, h3, h4, h5, h6⟩
  · rintro ⟨h1, h2, h3, h4, h5, h6⟩
    exact ⟨(), h1, (), h2, (), h3, (), h4, (), h5, h6⟩

theorem size_eq_getD (t : TensorMeta) (d : Nat) (n : Int) (h : t.size d = .ok n) :
    t.sizes.getD d 0 = n := by
  rw [size_ok_iff] at h
  simp [List.getD, h]

theorem prepare_is_mqa_gqa (a : BackwardArgs) (l : List Effect) (s : PreparedCall)
    (h : (efficient_attention_backward_ck_prepare a).Returns l s) :
    s.ctx.is_mqa_gqa = decide (a.query.meta.sizes.getD 2 0 > a.key.meta.sizes.getD 2 0) := by
  obtain ⟨-, -, -, uf, B, M, N, Hq, Hkv, K, Kv, la, lr, -, ⟨hB, hM, hN, hHq, hHkv, hK, hKv⟩, -, -, -, -,
    -, hctx⟩ := prepare_returns_inv a l s h
  rw [hctx, size_eq_getD _ _ _ hHq, size_eq_getD _ _ _ hHkv]

theorem exGqaPackedKVArgs_result :
    (efficient_attention_backward_ck exGqaPackedKVArgs).result =
      .ok { grad_q := at_empty_strided_like Allocation.grad_q ScalarType.kBFloat16
              exGqaPackedKVArgs.query.meta,
            grad_k := at_empty_like Allocation.reduced_grad_k [1, 2, 1, 4] ScalarType.kBFloat16
              exGqaPackedKVArgs.query.meta,
            grad_v := at_empty_like Allocation.reduced_grad_v [1, 2, 1, 4] ScalarType.kBFloat16
              exGqaPackedKVArgs.query.meta,
            grad_bias := none } := by
  rfl

theorem set_batched_backward_params_lse (ctx : BackwardCtx) (p0 p : BatchedBackwardParams)
    (h : set_batched_backward_params ctx p0 = .ok p) :
    ctx.logsumexp.size 0 = .ok (wrapInt32 ctx.B) ∧ ctx.logsumexp.size 1 = .ok (wrapInt32 ctx.Hq) ∧
    ctx.logsumexp.size 2 = .ok (wrapInt32 ctx.M) := by
  simp only [set_batched_backward_params, except_bind_ok_iff, check_ok_iff,
    decide_eq_true_eq] at h
  obtain ⟨l0, h0, _, c0, l1, h1, _, c1, l2, h2, _, c2, -⟩ := h
  subst c0 c1 c2
  exact ⟨h0, h1, h2⟩

theorem set_grouped_backward_params_lse (ctx : BackwardCtx) (p0 p : GroupedBackwardParams)
    (h : set_grouped_backward_params ctx p0 = .ok p) :
    ∃ sq n mq, ctx.seqstart_q = some sq ∧ sq.meta.size 0 = .ok n ∧ ctx.max_seqlen_q_ = some mq ∧
      ctx.logsumexp.size 0 = .ok (wrapInt32 (n - 1)) ∧
      ctx.logsumexp.size 1 = .ok (wrapInt32 ctx.Hq) ∧
      ctx.logsumexp.size 2 = .ok (wrapInt32 mq) := by
  simp only [set_grouped_backward_params, except_bind_ok_iff, check_ok_iff,
    decide_eq_true_eq] at h
  obtain ⟨sq, hsq, n, hn, mq, hmq, l0, h0, _, c0, l1, h1, _, c1, l2, h2, _, c2, -⟩ := h
  subst c0 c1 c2
  refine ⟨sq, n, mq, ?_, hn, ?_, h0, h1, h2⟩
  · cases hc : ctx.seqstart_q with
    | none => rw [hc] at hsq; simp [derefOptional] at hsq
    | some x => rw [hc] at hsq; simp [derefOptional] at hsq; rw [hsq]
  · cases hc : ctx.max_seqlen_q_ with
    | none => rw [hc] at hmq; simp [derefOptional] at hmq
    | some x => rw [hc] at hmq; simp [derefOptional] at hmq; rw [hmq]

theorem launch_ok_params (a : BackwardArgs) (s : PreparedCall)
    (h : (efficient_attention_backward_ck_launch a s).result = .ok ()) :
    (s.ctx.seqstart_q = none →
      ∃ p, set_batched_backward_params s.ctx a.batched_backward_params = .ok p) ∧
    (∀ sq, s.ctx.seqstart_q = some sq →
      ∃ p, set_grouped_backward_params s.ctx a.grouped_backward_params.default_initialized =
        .ok p) := by
  unfold efficient_attention_backward_ck_launch at h
  constructor
  · intro hq
    simp only [hq, outcome_bind_result_ok_iff] at h
    obtain ⟨p, hp, -⟩ := h
    exact ⟨p, hp⟩
  · intro sq hq
    simp only [hq, outcome_bind_result_ok_iff] at h
    obtain ⟨p, hp, -⟩ := h
    exact ⟨p, hp⟩

theorem sizes_prefix3 (t : TensorMeta) (x y z : Int) (h0 : t.size 0 = .ok x)
    (h1 : t.size 1 = .ok y) (h2 : t.size 2 = .ok z) : ∃ rest, t.sizes = x :: y :: z :: rest := by
  rw [size_ok_iff] at h0 h1 h2
  match hs : t.sizes, h0, h1, h2 with
  | a :: b :: c :: rest, h0, h1, h2 =>
    simp at h0 h1 h2
    subst h0 h1 h2
    exact ⟨rest, rfl⟩

theorem groupedPtrBody_bias_fields (ctx : BackwardCtx) (multiplier : Int)
    (p p' : GroupedBackwardParams) (i : Nat) (hb : ctx.bias = none)
    (h : set_grouped_backward_params_body ctx multiplier p i = .ok p') :
    p'.has_attn_bias = p.has_attn_bias ∧ p'.attn_bias_ptrs = p.attn_bias_ptrs ∧
    p'.grad_bias_ptrs = p.grad_bias_ptrs := by
  unfold set_grouped_backward_params_body at h
  simp only [except_bind_ok_iff, hb] at h
  obtain ⟨sq, -, sk, -, h⟩ := h
  injection h with h
  subst h
  exact ⟨rfl, rfl, rfl⟩

theorem groupedPtrLoop_bias_fields (ctx : BackwardCtx) (multiplier : Int) (hb : ctx.bias = none) :
    ∀ (l : List Nat) (p p' : GroupedBackwardParams),
      l.foldlM (set_grouped_backward_params_body ctx multiplier) p = .ok p' →
      p'.has_attn_bias = p.has_attn_bias ∧ p'.attn_bias_ptrs = p.attn_bias_ptrs ∧
      p'.grad_bias_ptrs = p.grad_bias_ptrs := by
  intro l
  induction l with
  | nil =>
    intro p p' h
    simp only [List.foldlM_nil, pure, Except.pure] at h
    injection h with h
    subst h
    exact ⟨rfl, rfl, rfl⟩
  | cons i l ih =>
    intro p p' h
    rw [List.foldlM_cons, except_bind_ok_iff] at h
    obtain ⟨p1, h1, h2⟩ := h
    obtain ⟨a1, a2, a3⟩ := groupedPtrBody_bias_fields ctx multiplier p p1 i hb h1
    obtain ⟨b1, b2, b3⟩ := ih p1 p' h2
    exact ⟨b1.trans a1, b2.trans a2, b3.trans a3⟩

theorem set_grouped_backward_params_no_bias (ctx : BackwardCtx) (p0 p : GroupedBackwardParams)
    (hb : ctx.bias = none) (h : set_grouped_backward_params ctx p0 = .ok p) :
    p.has_attn_bias = false ∧ p.attn_bias_ptrs = p0.attn_bias_ptrs ∧
    p.grad_bias_ptrs = p0.grad_bias_ptrs := by
  unfold set_grouped_backward_params at h
  cases hm : ctx.is_mqa_gqa <;> cases hs : ctx.seqlen_k <;>
    simp only [hm, hs, hb, except_bind_ok_iff, pure, Except.pure, Except.ok.injEq,
      exists_eq_left', if_true, if_false, Bool.false_eq_true] at h
  · obtain ⟨sq, -, n, -, mq, -, l0, -, _, -, l1, -, _, -, l2, -, _, -, qs, -, ks, -, vs, -, os, -,
      hq, -, sk, -, hk, -, h⟩ := h
    obtain ⟨a1, a2, a3⟩ := groupedPtrLoop_bias_fields ctx _ hb _ _ _ h
    exact ⟨a1, a2, a3⟩
  · obtain ⟨sq, -, n, -, mq, -, l0, -, _, -, l1, -, _, -, l2, -, _, -, qs, -, ks, -, vs, -, os, -,
      hq, -, sk, -, hk, -, _, -, _, -, n2, -, _, -, _, -, hl, -, h⟩ := h
    obtain ⟨a1, a2, a3⟩ := groupedPtrLoop_bias_fields ctx _ hb _ _ _ h
    exact ⟨a1, a2, a3⟩
  · obtain ⟨sq, -, n, -, mq, -, l0, -, _, -, l1, -, _, -, l2, -, _, -, qs, -, ks, -, vs, -, os, -,
      tk, -, tv, -, hq, -, sk, -, hk, -, h⟩ := h
    obtain ⟨a1, a2, a3⟩ := groupedPtrLoop_bias_fields ctx _ hb _ _ _ h
    exact ⟨a1, a2, a3⟩
  · obtain ⟨sq, -, n, -, mq, -, l0, -, _, -, l1, -, _, -, l2, -, _, -, qs, -, ks, -, vs, -, os, -,
      tk, -, tv, -, hq, -, sk, -, hk, -, _, -, _, -, n2, -, _, -, _, -, hl, -, h⟩ := h
    obtain ⟨a1, a2, a3⟩ := groupedPtrLoop_bias_fields ctx _ hb _ _ _ h
    exact ⟨a1, a2, a3⟩

theorem run_of_head_error (a : BackwardArgs) (e : String)
    (h : efficient_attention_backward_ck_shape_checks a = .error e ∨
      (efficient_attention_backward_ck_shape_checks a = .ok () ∧
        efficient_attention_backward_ck_device_checks a = .error e) ∨
      (efficient_attention_backward_ck_shape_checks a = .ok () ∧
        efficient_attention_backward_ck_device_checks a = .ok () ∧
        efficient_attention_backward_ck_seqstart_checks a = .error e)) :
    efficient_attention_backward_ck a = { effects := [], result := .error e } := by
  have hp : efficient_attention_backward_ck_prepare a =
      { effects := [], result := .error e } := by
    unfold efficient_attention_backward_ck_prepare
    rcases h with h | ⟨h1, h⟩ | ⟨h1, h2, h⟩
    · rw [h]
      rfl
    · rw [h1, h, hostStep_ok_bind]
      rfl
    · rw [h1, h2, h, hostStep_ok_bind, hostStep_ok_bind]
      rfl
  unfold efficient_attention_backward_ck
  rw [hp]
  rfl

theorem run_of_seqstart_checks_error (a : BackwardArgs) (e : String)
    (h : efficient_attention_backward_ck_seqstart_checks a = .error e) :
    ∃ e', efficient_attention_backward_ck a = { effects := [], result := .error e' } := by
  cases h1 : efficient_attention_backward_ck_shape_checks a with
  | error e1 => exact ⟨e1, run_of_head_error a e1 (Or.inl h1)⟩
  | ok u1 =>
    cases h2 : efficient_attention_backward_ck_device_checks a with
    | error e2 => exact ⟨e2, run_of_head_error a e2 (Or.inr (Or.inl ⟨h1, h2⟩))⟩
    | ok u2 => exact ⟨e, run_of_head_error a e (Or.inr (Or.inr ⟨h1, h2, h⟩))⟩

theorem seqstart_checks_ok (a : BackwardArgs)
    (h : efficient_attention_backward_ck_seqstart_checks a = .ok ()) :
    a.seqstart_q.isSome = a.seqstart_k.isSome ∧
    (a.seqstart_q.isSome = true → a.bias = none ∧ a.query.meta.size 0 = .ok 1 ∧
      a.max_seqlen_q_.isSome = true) := by
  unfold efficient_attention_backward_ck_seqstart_checks at h
  simp only [except_bind_ok_iff, check_ok_iff, decide_eq_true_eq] at h
  obtain ⟨_, h1, _, h2, h3⟩ := h
  refine ⟨h1, fun hq => ?_⟩
  cases hsq : a.seqstart_q with
  | none => rw [hsq] at hq; exact absurd hq (by decide)
  | some sq =>
    rw [hsq] at h2 h3
    simp only [except_bind_ok_iff, check_ok_iff, decide_eq_true_eq] at h3
    obtain ⟨_, -, q0, hq0, _, hq1, hmax⟩ := h3
    subst hq1
    refine ⟨?_, hq0, hmax⟩
    cases hb : a.bias with
    | none => rfl
    | some b => rw [hb] at h2; simp at h2

theorem seqstart_checks_error_of_not (a : BackwardArgs)
    (h : ¬(a.seqstart_q.isSome = a.seqstart_k.isSome ∧
      (a.seqstart_q.isSome = true → a.bias = none ∧ a.query.meta.size 0 = .ok 1 ∧
        a.max_seqlen_q_.isSome = true))) :
    ∃ e, efficient_attention_backward_ck_seqstart_checks a = .error e := by
  cases hc : efficient_attention_backward_ck_seqstart_checks a with
  | error e => exact ⟨e, rfl⟩
  | ok u => exact absurd (seqstart_checks_ok a hc) h

theorem run_of_launch_error (a : BackwardArgs) (s : PreparedCall) (e : String)
    (hs : (efficient_attention_backward_ck_prepare a).result = .ok s)
    (hl : (efficient_attention_backward_ck_launch a s).result = .error e) :
    (efficient_attention_backward_ck a).result = .error e ∧
    ∀ c, Effect.kernel_launch c ∉ (efficient_attention_backward_ck a).effects := by
  have hno : ∀ c', Effect.kernel_launch c' ∉
      (efficient_attention_backward_ck_prepare a).effects := by
    intro c' hc
    rcases prepare_effects a _ hc with ⟨t, ht⟩ | ⟨t, ht⟩ <;> simp at ht
  rcases run_cases a with ⟨e', he', -⟩ | ⟨s', hs', ⟨e', he', hr⟩ | ⟨lf, g, hok, -, -⟩⟩
  · rw [hs] at he'
    simp at he'
  · rw [hs] at hs'
    injection hs' with hs'
    subst hs'
    rw [hl] at he'
    injection he' with he'
    subst he'
    rw [hr]
    refine ⟨rfl, fun c hc => ?_⟩
    rcases List.mem_append.1 hc with hc | hc
    · exact hno c hc
    · obtain ⟨c', hc'⟩ := launch_error_effects a s e hl _ hc
      simp at hc'
  · rw [hs] at hs'
    injection hs' with hs'
    subst hs'
    rw [hl] at hok
    simp at hok

theorem allocate_returns_shape (a : BackwardArgs) (use_fp32_qkv_grad : Bool)
    (B M N Hq Hkv K Kv : Int) (l : List Effect) (gq gk gv : GradTensor)
    (h : (efficient_attention_backward_ck_allocate a use_fp32_qkv_grad
        B M N Hq Hkv K Kv).Returns l (gq, gk, gv)) :
    ∃ t mid, l = Effect.device_alloc t :: (mid ++ [Effect.device_fill_zero gq]) ∧
      ∀ x ∈ mid, ∃ t', x = Effect.device_alloc t' := by
  simp only [efficient_attention_backward_ck_allocate, returns_hostStep_bind_iff] at h
  obtain ⟨q1, -, k1, -, q3, -, v3, -, q2, -, k2, -, k3, -, h⟩ := h
  by_cases c1 : q1 = k1 ∧ q3 = v3 ∧ q2 = k2 ∧ a.query.storage = a.key.storage ∧
      a.query.storage = a.value.storage
  · rw [if_pos c1] at h
    obtain ⟨g0, h0⟩ := select_chunk_ok Allocation.chunk
      (if use_fp32_qkv_grad then ScalarType.kFloat else a.query.meta.dtype) a.query.meta
      B M 3 Hq K 0 (by decide)
    obtain ⟨g1, h1⟩ := select_chunk_ok Allocation.chunk
      (if use_fp32_qkv_grad then ScalarType.kFloat else a.query.meta.dtype) a.query.meta
      B M 3 Hq K 1 (by decide)
    obtain ⟨g2, h2⟩ := select_chunk_ok Allocation.chunk
      (if use_fp32_qkv_grad then ScalarType.kFloat else a.query.meta.dtype) a.query.meta
      B M 3 Hq K 2 (by decide)
    simp only [h0, h1, h2, hostStep_ok_bind, emit_bind, Outcome.Returns, pure,
      Except.ok.injEq, Prod.mk.injEq] at h
    obtain ⟨rfl, rfl, rfl, rfl⟩ := h
    exact ⟨_, [], rfl, by simp⟩
  · rw [if_neg c1] at h
    by_cases c2 : k3 = v3 ∧ a.key.storage = a.value.storage
    · rw [if_pos c2] at h
      obtain ⟨g0, h0⟩ := select_chunk_ok Allocation.chunk
        (if use_fp32_qkv_grad then ScalarType.kFloat else a.query.meta.dtype) a.query.meta
        B N 2 Hkv Kv 0 (by decide)
      obtain ⟨g1, h1⟩ := select_chunk_ok Allocation.chunk
        (if use_fp32_qkv_grad then ScalarType.kFloat else a.query.meta.dtype) a.query.meta
        B N 2 Hkv Kv 1 (by decide)
      simp only [h0, h1, hostStep_ok_bind, emit_bind, Outcome.Returns, pure,
        Except.ok.injEq, Prod.mk.injEq] at h
      obtain ⟨rfl, rfl, rfl, rfl⟩ := h
      exact ⟨_, [_], rfl, by simp⟩
    · rw [if_neg c2] at h
      simp only [hostStep_ok_bind, emit_bind, Outcome.Returns, pure,
        Except.ok.injEq, Prod.mk.injEq] at h
      obtain ⟨rfl, rfl, rfl, rfl⟩ := h
      exact ⟨_, [_, _], rfl, by simp⟩

theorem allocate_returns (a : BackwardArgs) (use_fp32_qkv_grad : Bool)
    (B M N Hq Hkv K Kv : Int) (hq : a.query.meta.sizes.length = 4)
    (hk : a.key.meta.sizes.length = 4) (hv : a.value.meta.sizes.length = 4) :
    ∃ l g, (efficient_attention_backward_ck_allocate a use_fp32_qkv_grad
        B M N Hq Hkv K Kv).Returns l g := by
  obtain ⟨q0, q1, q2, q3, hq⟩ := length_eq_four _ hq
  obtain ⟨k0, k1, k2, k3, hk⟩ := length_eq_four _ hk
  obtain ⟨v0, v1, v2, v3, hv⟩ := length_eq_four _ hv
  have e1 : a.query.meta.size 1 = .ok q1 := by simp [TensorMeta.size, hq]
  have e2 : a.key.meta.size 1 = .ok k1 := by simp [TensorMeta.size, hk]
  have e3 : a.query.meta.size 3 = .ok q3 := by simp [TensorMeta.size, hq]
  have e4 : a.value.meta.size 3 = .ok v3 := by simp [TensorMeta.size, hv]
  have e5 : a.query.meta.size 2 = .ok q2 := by simp [TensorMeta.size, hq]
  have e6 : a.key.meta.size 2 = .ok k2 := by simp [TensorMeta.size, hk]
  have e7 : a.key.meta.size 3 = .ok k3 := by simp [TensorMeta.size, hk]
  unfold efficient_attention_backward_ck_allocate
  simp only [e1, e2, e3, e4, e5, e6, e7, hostStep_ok_bind]
  by_cases c1 : q1 = k1 ∧ q3 = v3 ∧ q2 = k2 ∧ a.query.storage = a.key.storage ∧
      a.query.storage = a.value.storage
  · rw [if_pos c1]
    obtain ⟨g0, h0⟩ := select_chunk_ok Allocation.chunk
      (if use_fp32_qkv_grad then ScalarType.kFloat else a.query.meta.dtype) a.query.meta
      B M 3 Hq K 0 (by decide)
    obtain ⟨g1, h1⟩ := select_chunk_ok Allocation.chunk
      (if use_fp32_qkv_grad then ScalarType.kFloat else a.query.meta.dtype) a.query.meta
      B M 3 Hq K 1 (by decide)
    obtain ⟨g2, h2⟩ := select_chunk_ok Allocation.chunk
      (if use_fp32_qkv_grad then ScalarType.kFloat else a.query.meta.dtype) a.query.meta
      B M 3 Hq K 2 (by decide)
    simp only [h0, h1, h2, hostStep_ok_bind, emit_bind]
    exact ⟨_, _, rfl, rfl⟩
  · rw [if_neg c1]
    by_cases c2 : k3 = v3 ∧ a.key.storage = a.value.storage
    · rw [if_pos c2]
      obtain ⟨g0, h0⟩ := select_chunk_ok Allocation.chunk
        (if use_fp32_qkv_grad then ScalarType.kFloat else a.query.meta.dtype) a.query.meta
        B N 2 Hkv Kv 0 (by decide)
      obtain ⟨g1, h1⟩ := select_chunk_ok Allocation.chunk
        (if use_fp32_qkv_grad then ScalarType.kFloat else a.query.meta.dtype) a.query.meta
        B N 2 Hkv Kv 1 (by decide)
      simp only [h0, h1, hostStep_ok_bind, emit_bind]
      exact ⟨_, _, rfl, rfl⟩
    · rw [if_neg c2]
      simp only [hostStep_ok_bind, emit_bind]
      exact ⟨_, _, rfl, rfl⟩

theorem call_effects_prefix (a : BackwardArgs) :
    ∃ rest, (efficient_attention_backward_ck a).effects =
      (efficient_attention_backward_ck_prepare a).effects ++ rest := by
  rcases run_cases a with ⟨e', -, hr⟩ | ⟨s, -, ⟨e', -, hr⟩ | ⟨lf, g, -, -, hr⟩⟩
  · exact ⟨[], by rw [hr]; simp⟩
  · exact ⟨_, by rw [hr]⟩
  · exact ⟨_, by rw [hr]⟩

theorem prepare_effects_prefix (a : BackwardArgs) (uf : Bool)
    (h1 : efficient_attention_backward_ck_shape_checks a = .ok ())
    (h2 : efficient_attention_backward_ck_device_checks a = .ok ())
    (h3 : efficient_attention_backward_ck_seqstart_checks a = .ok ())
    (h4 : read_USE_FP32_QKV_GRAD a.env_USE_FP32_QKV_GRAD = .ok uf) :
    ∃ (la rest : List Effect) (g : GradTensor × GradTensor × GradTensor),
      (efficient_attention_backward_ck_allocate a uf
        (a.query.meta.sizes.getD 0 0) (a.query.meta.sizes.getD 1 0) (a.key.meta.sizes.getD 1 0)
        (a.query.meta.sizes.getD 2 0) (a.key.meta.sizes.getD 2 0) (a.query.meta.sizes.getD 3 0)
        (a.value.meta.sizes.getD 3 0)).Returns la g ∧
      (efficient_attention_backward_ck_prepare a).effects = la ++ rest := by
  obtain ⟨⟨lq, lk, lv, lg⟩, -⟩ := (shape_checks_ok_iff a).1 h1
  obtain ⟨q0, q1, q2, q3, hq⟩ := length_eq_four _ lq
  obtain ⟨k0, k1, k2, k3, hk⟩ := length_eq_four _ lk
  obtain ⟨v0, v1, v2, v3, hv⟩ := length_eq_four _ lv
  obtain ⟨la, g, hal⟩ := allocate_returns a uf q0 q1 k1 q2 k2 q3 v3 lq lk lv
  have e0 : a.query.meta.size 0 = .ok q0 := by simp [TensorMeta.size, hq]
  have e1 : a.query.meta.size 1 = .ok q1 := by simp [TensorMeta.size, hq]
  have e2 : a.key.meta.size 1 = .ok k1 := by simp [TensorMeta.size, hk]
  have e3 : a.query.meta.size 3 = .ok q3 := by simp [TensorMeta.size, hq]
  have e4 : a.value.meta.size 3 = .ok v3 := by simp [TensorMeta.size, hv]
  have e5 : a.query.meta.size 2 = .ok q2 := by simp [TensorMeta.size, hq]
  have e6 : a.key.meta.size 2 = .ok k2 := by simp [TensorMeta.size, hk]
  have hp : ∃ rest, (efficient_attention_backward_ck_prepare a).effects = la ++ rest := by
    unfold efficient_attention_backward_ck_prepare
    simp only [h1, h2, h3, h4, e0, e1, e2, e3, e4, e5, e6, hostStep_ok_bind]
    rw [outcome_bind_of_ok _ _ g hal.2, hal.1]
    exact ⟨_, rfl⟩
  obtain ⟨rest, hp⟩ := hp
  exact ⟨la, rest, g, by simpa [hq, hk, hv] using hal, hp⟩

theorem run_of_stoi_error (a : BackwardArgs) (e : String)
    (h1 : efficient_attention_backward_ck_shape_checks a = .ok ())
    (h2 : efficient_attention_backward_ck_device_checks a = .ok ())
    (h3 : efficient_attention_backward_ck_seqstart_checks a = .ok ())
    (h4 : read_USE_FP32_QKV_GRAD a.env_USE_FP32_QKV_GRAD = .error e) :
    efficient_attention_backward_ck a = { effects := [], result := .error e } := by
  have hp : efficient_attention_backward_ck_prepare a =
      { effects := [], result := .error e } := by
    unfold efficient_attention_backward_ck_prepare
    rw [h1, h2, h3, h4, hostStep_ok_bind, hostStep_ok_bind, hostStep_ok_bind]
    rfl
  unfold efficient_attention_backward_ck
  rw [hp]
  rfl

theorem exUnsupportedArgs_run :
    efficient_attention_backward_ck exUnsupportedArgs =
      { effects :=
          [.device_alloc (at_empty_strided_like Allocation.grad_q ScalarType.kBFloat16
              exUnsupportedArgs.query.meta),
           .device_alloc (at_empty_strided_like Allocation.grad_k ScalarType.kBFloat16
              exUnsupportedArgs.key.meta),
           .device_alloc (at_empty_strided_like Allocation.grad_v ScalarType.kBFloat16
              exUnsupportedArgs.value.meta),
           .device_fill_zero (at_empty_strided_like Allocation.grad_q ScalarType.kBFloat16
              exUnsupportedArgs.query.meta),
           .workspace_alloc (.run_batched_backward_masktype_attnbias_dispatched CkType.bhalf_t 0
              true false)],
        result := .error
          (exUnsupportedArgs.device_op.GetTypeString
              (.run_batched_backward_masktype_attnbias_dispatched CkType.bhalf_t 0 true false) ++
            " does not support this problem") } := by
  rfl

theorem monotone_getD (s : List Int) (n : Nat)
    (hmono : ∀ i, i < n → s.getD i 0 ≤ s.getD (i + 1) 0) :
    ∀ i j, i ≤ j → j ≤ n → s.getD i 0 ≤ s.getD j 0 := by
  intro i j hij
  induction j with
  | zero =>
    intro _
    have : i = 0 := by omega
    subst this
    exact le_refl _
  | succ j ih =>
    intro hj
    rcases Nat.lt_or_ge i (j + 1) with h | h
    · exact le_trans (ih (by omega) (by omega)) (hmono j (by omega))
    · have : i = j + 1 := by omega
      subst this
      exact le_refl _

theorem set_batched_backward_params_has_attn_bias (ctx : BackwardCtx)
    (p0 p : BatchedBackwardParams) (h : set_batched_backward_params ctx p0 = .ok p) :
    p.has_attn_bias = true := by
  unfold set_batched_backward_params at h
  cases hm : ctx.is_mqa_gqa <;> cases hb : ctx.bias <;>
    simp only [hm, hb, except_bind_ok_iff, pure, Except.pure, Except.ok.injEq,
      exists_eq_left', if_true, if_false, Bool.false_eq_true] at h
  · obtain ⟨l0, -, _, -, l1, -, _, -, l2, -, _, -, qs, -, ks, -, vs, -, os, -, h⟩ := h
    rw [← h]
  · obtain ⟨l0, -, _, -, l1, -, _, -, l2, -, _, -, qs, -, ks, -, vs, -, os, -,
      _, -, _, -, bv, -, bs, -, h⟩ := h
    rw [← h]
    split <;> rfl
  · obtain ⟨l0, -, _, -, l1, -, _, -, l2, -, _, -, qs, -, ks, -, vs, -, os, -, tk, -, tv, -, h⟩ := h
    rw [← h]
  · obtain ⟨l0, -, _, -, l1, -, _, -, l2, -, _, -, qs, -, ks, -, vs, -, os, -, tk, -, tv, -,
      _, -, _, -, bv, -, bs, -, h⟩ := h
    rw [← h]
    split <;> rfl

theorem mem_allIndices : ∀ (sizes idx : List Int),
    idx ∈ allIndices sizes ↔ List.Forall₂ (fun i n => 0 ≤ i ∧ i < n) idx sizes
  | [], idx => by
    simp only [allIndices, List.mem_singleton]
    constructor
    · rintro rfl
      exact .nil
    · intro h
      cases h
      rfl
  | n :: rest, idx => by
    simp only [allIndices, List.mem_flatMap, List.mem_range, List.mem_map]
    constructor
    · rintro ⟨i, hi, tl, htl, rfl⟩
      refine .cons ⟨Int.ofNat_nonneg _, ?_⟩ ((mem_allIndices rest tl).1 htl)
      exact Int.lt_toNat.1 hi
    · intro h
      cases h with
      | cons hd htl =>
        rename_i i tl
        refine ⟨i.toNat, ?_, tl, (mem_allIndices rest tl).2 htl, ?_⟩
        · exact (Int.toNat_lt hd.1).2 (by rw [Int.toNat_of_nonneg (le_trans hd.1 (le_of_lt hd.2))]; exact hd.2)
        · rw [Int.toNat_of_nonneg hd.1]

theorem at_sum_read {α : Type} (red : List α → α) (src dst : GradTensor) (dim : Nat)
    (mem : DeviceMemory α) (idx : List Int) (hin : dst.InBounds idx)
    (hinj : ∀ idx', dst.InBounds idx' → dst.elementAt idx' = dst.elementAt idx → idx' = idx) :
    dst.read (at_sum red src dim dst mem) idx =
      red ((List.range (src.meta.sizes.getD dim 0).toNat).map
        (fun j => src.read mem (idx.take dim ++ [(j : Int)] ++ idx.drop dim))) := by
  unfold GradTensor.read at_sum
  rw [if_pos rfl]
  cases hf : (allIndices dst.meta.sizes).find?
      (fun idx' => decide (dst.elementAt idx' = dst.elementAt idx)) with
  | none =>
    have h := List.find?_eq_none.1 hf idx ((mem_allIndices _ _).2 hin)
    simp at h
  | some idx' =>
    have h1 := List.find?_some hf
    have h2 := List.mem_of_find?_eq_some hf
    have h3 : idx' = idx := hinj idx' ((mem_allIndices _ _).1 h2) (by simpa using h1)
    subst h3
    rfl

theorem at_sum_other {α : Type} (red : List α → α) (src dst : GradTensor) (dim : Nat)
    (mem : DeviceMemory α) (alloc : Allocation) (off : Int) (h : alloc ≠ dst.allocation) :
    at_sum red src dim dst mem alloc off = mem alloc off := by
  unfold at_sum
  rw [if_neg h]

theorem contiguous4_injective (alloc : Allocation) (dtype : ScalarType) (like : TensorMeta)
    (B N H K : Int) (idx idx' : List Int)
    (h : (at_empty_like alloc [B, N, H, K] dtype like).InBounds idx)
    (h' : (at_empty_like alloc [B, N, H, K] dtype like).InBounds idx')
    (he : (at_empty_like alloc [B, N, H, K] dtype like).elementAt idx' =
      (at_empty_like alloc [B, N, H, K] dtype like).elementAt idx) : idx' = idx := by
  obtain ⟨b, n, h0, k, rfl, hb, hn, hh, hk⟩ := (inBounds4_iff _ B N H K rfl idx).1 h
  obtain ⟨b', n', h0', k', rfl, hb', hn', hh', hk'⟩ := (inBounds4_iff _ B N H K rfl idx').1 h'
  have e2 : max N 1 = N := max_eq_left (by omega)
  have e3 : max H 1 = H := max_eq_left (by omega)
  have e4 : max K 1 = K := max_eq_left (by omega)
  simp only [GradTensor.elementAt, at_empty_like, contiguousStridesInt, List.map_cons,
    List.map_nil, List.prod_cons, List.prod_nil, List.zipWith_cons_cons, List.zipWith_nil_left,
    List.sum_cons, List.sum_nil, e2, e3, e4, mul_one, add_zero, zero_add] at he
  have he' : ((b' * N + n') * H + h0') * K + k' = ((b * N + n) * H + h0) * K + k := by
    linear_combination he
  obtain ⟨q1, rfl⟩ := radix_unique K _ _ _ _ hk'.1 hk.1 hk'.2 hk.2 he'
  obtain ⟨q2, rfl⟩ := radix_unique H _ _ _ _ hh'.1 hh.1 hh'.2 hh.2 q1
  obtain ⟨rfl, rfl⟩ := radix_unique N _ _ _ _ hn'.1 hn.1 hn'.2 hn.2 q2
  rfl

theorem finish_mqa_trace (s : PreparedCall) (B N Hq Hkv K Kv : Int) (dtype : ScalarType)
    (like : TensorMeta) (hm : s.ctx.is_mqa_gqa = true)
    (htk : s.tmp_grad_k = some (at_empty_like Allocation.tmp_grad_k [B, N, Hq, K] dtype like))
    (htv : s.tmp_grad_v = some (at_empty_like Allocation.tmp_grad_v [B, N, Hq, Kv] dtype like))
    (hHq : s.ctx.Hq = Hq) (hHkv : s.ctx.Hkv = Hkv) (hmod : Int.tmod Hq Hkv = 0) :
    ∃ vk vv,
      (at_empty_like Allocation.tmp_grad_k [B, N, Hq, K] dtype like).unflatten 2 Hkv
        (Int.tdiv Hq Hkv) = .ok vk ∧
      (at_empty_like Allocation.tmp_grad_v [B, N, Hq, Kv] dtype like).unflatten 2 Hkv
        (Int.tdiv Hq Hkv) = .ok vv ∧
      vk = { meta := { sizes := [B, N, Hkv, Int.tdiv Hq Hkv, K],
                       strides := [max N 1 * (max Hq 1 * max K 1), max Hq 1 * max K 1,
                                   Int.tdiv Hq Hkv * max K 1, max K 1, 1],
                       dtype := dtype, is_cuda := like.is_cuda, is_sparse := like.is_sparse },
             allocation := Allocation.tmp_grad_k, storage_offset := 0 } ∧
      vv = { meta := { sizes := [B, N, Hkv, Int.tdiv Hq Hkv, Kv],
                       strides := [max N 1 * (max Hq 1 * max Kv 1), max Hq 1 * max Kv 1,
                                   Int.tdiv Hq Hkv * max Kv 1, max Kv 1, 1],
                       dtype := dtype, is_cuda := like.is_cuda, is_sparse := like.is_sparse },
             allocation := Allocation.tmp_grad_v, storage_offset := 0 } ∧
      efficient_attention_backward_ck_finish s =
        { effects :=
            [.device_sum vk 3 (at_empty_like Allocation.reduced_grad_k [B, N, Hkv, K] dtype like),
             .device_sum vv 3
               (at_empty_like Allocation.reduced_grad_v [B, N, Hkv, Kv] dtype like)],
          result := .ok
            { grad_q := s.grad_q,
              grad_k := at_empty_like Allocation.reduced_grad_k [B, N, Hkv, K] dtype like,
              grad_v := at_empty_like Allocation.reduced_grad_v [B, N, Hkv, Kv] dtype like,
              grad_bias := s.grad_bias } } := by
  have hd := tdiv_mul_of_tmod_zero Hq Hkv hmod
  refine ⟨_, _, ?_, ?_, rfl, rfl, ?_⟩
  · simp [GradTensor.unflatten, at_empty_like, contiguousStridesInt, hd]
  · simp [GradTensor.unflatten, at_empty_like, contiguousStridesInt, hd]
  · unfold efficient_attention_backward_ck_finish
    rw [hm, htk, htv, hHq, hHkv]
    simp only [GradTensor.unflatten, at_empty_like, contiguousStridesInt,
      List.getElem?_cons_succ, List.getElem?_cons_zero, hd, if_true, hostStep_ok_bind,
      GradTensor.sum, List.take, List.drop, List.cons_append, List.nil_append, List.eraseIdx,
      emit_bind]
    simp [pure]

theorem sum_view_read {α : Type} (mem : DeviceMemory α) (alloc : Allocation) (dtype : ScalarType)
    (like : TensorMeta) (B N Hq Hkv K r b n h j k : Int) (hN : 0 < N) (hHq : 0 < Hq)
    (hK : 0 < K) :
    GradTensor.read
      ({ meta := { sizes := [B, N, Hkv, r, K],
                   strides := [max N 1 * (max Hq 1 * max K 1), max Hq 1 * max K 1,
                               r * max K 1, max K 1, 1],
                   dtype := dtype, is_cuda := like.is_cuda, is_sparse := like.is_sparse },
         allocation := alloc, storage_offset := 0 } : GradTensor) mem [b, n, h, j, k] =
      (at_empty_like alloc [B, N, Hq, K] dtype like).read mem [b, n, h * r + j, k] := by
  have e2 : max N 1 = N := max_eq_left (by omega)
  have e3 : max Hq 1 = Hq := max_eq_left (by omega)
  have e4 : max K 1 = K := max_eq_left (by omega)
  unfold GradTensor.read
  congr 1
  simp only [GradTensor.elementAt, at_empty_like, contiguousStridesInt, List.map_cons,
    List.map_nil, List.prod_cons, List.prod_nil, List.zipWith_cons_cons, List.zipWith_nil_left,
    List.sum_cons, List.sum_nil, e2, e3, e4, mul_one, add_zero, zero_add]
  ring

/-! ### Claims -/


/-- C1: in batched inference every descriptor is built in
(batch, head, sequence, feature) order and addresses the same element as the
source `[batch, sequence, head, feature]` tensor: the query, key and output
descriptors have lengths `(B, Hq, M, K)`, `(B, Hkv, N, K)`, `(B, Hq, M, Kv)`
and at `(b, h, s, f)` give `b*strides[0] + s*strides[1] + h*strides[2] +
f*strides[3]`; the value descriptor has lengths `(B, Hkv, Kv, N)` and at
`(b, h, o, n)` gives the offset of `value[b, n, h, o]`. -/
theorem batched_infer_descs_address_source (has_attn_bias : Bool)
    (param : BatchedForwardParams) (b h m n k o : Int) :
    let d := batched_infer_RunWithDeviceOp_descs has_attn_bias param
    d.a_gs_ms_ks_lengths = [param.B, param.Hq, param.M, param.K] ∧
    descOffset [b, h, m, k] d.a_gs_ms_ks_strides =
      b * param.q_strides 0 + m * param.q_strides 1 + h * param.q_strides 2 +
        k * param.q_strides 3 ∧
    d.b0_gs_ns_ks_lengths = [param.B, param.Hkv, param.N, param.K] ∧
    descOffset [b, h, n, k] d.b0_gs_ns_ks_strides =
      b * param.k_strides 0 + n * param.k_strides 1 + h * param.k_strides 2 +
        k * param.k_strides 3 ∧
    d.c_gs_ms_os_lengths = [param.B, param.Hq, param.M, param.Kv] ∧
    descOffset [b, h, m, o] d.c_gs_ms_os_strides =
      b * param.out_strides 0 + m * param.out_strides 1 + h * param.out_strides 2 +
        o * param.out_strides 3 ∧
    d.b1_gs_os_ns_lengths = [param.B, param.Hkv, param.Kv, param.N] ∧
    descOffset [b, h, o, n] d.b1_gs_os_ns_strides =
      b * param.v_strides 0 + n * param.v_strides 1 + h * param.v_strides 2 +
        o * param.v_strides 3 := by
  intro d
  refine ⟨rfl, ?_, rfl, ?_, rfl, ?_, rfl, ?_⟩ <;>
    simp only [d, batched_infer_RunWithDeviceOp_descs, descOffset, List.zipWith_cons_cons,
      List.zipWith_nil_left, List.sum_cons, List.sum_nil] <;> ring


/-- C2: in the grouped forward and inference paths (legacy `grouped_forward`
and `grouped_infer`, and the tile kernel in group mode), for every sequence
`i < num_batches`, with offset arrays of `num_batches + 1` entries holding
non-negative 32-bit offsets and an explicit key-length array (when present)
of `num_batches` entries: every array read is in bounds, the query length is
`seqstart_q[i+1] - seqstart_q[i]`, and the key length is `seqlen_k[i]` when
the explicit array is present (non-empty `host_seqlen_k`, non-null
`seqlen_k_ptr`) and `seqstart_k[i+1] - seqstart_k[i]` otherwise. In the tile
kernel the key length is computed by every block that does not leave through
the early return. -/
theorem grouped_forward_seqlens_correct
    (param : GroupedForwardParams) (kargs : GroupModeKargs) (vlayout : VLayout)
    (kHasBias : Bool) (n i : Nat) (i_m0 : Int) (hi : i < n)
    (hq : param.host_seqstart_q.length = n + 1)
    (hk : param.host_seqstart_k.length = n + 1)
    (hl : param.host_seqlen_k ≠ [] → param.host_seqlen_k.length = n)
    (hq32 : ∀ x ∈ param.host_seqstart_q, IsNonnegInt32 x)
    (hk32 : ∀ x ∈ param.host_seqstart_k, IsNonnegInt32 x)
    (dq : kargs.seqstart_q_ptr.length = n + 1)
    (dk : kargs.seqstart_k_ptr.length = n + 1)
    (dl : ∀ l, kargs.seqlen_k_ptr = some l → l.length = n)
    (dq32 : ∀ x ∈ kargs.seqstart_q_ptr, IsNonnegInt32 x)
    (dk32 : ∀ x ∈ kargs.seqstart_k_ptr, IsNonnegInt32 x) :
    grouped_forward_seqlens param i =
      some (param.host_seqstart_q.getD (i + 1) 0 - param.host_seqstart_q.getD i 0,
        if param.host_seqlen_k.isEmpty then
          param.host_seqstart_k.getD (i + 1) 0 - param.host_seqstart_k.getD i 0
        else param.host_seqlen_k.getD i 0) ∧
    grouped_infer_seqlens param i =
      some (param.host_seqstart_q.getD (i + 1) 0 - param.host_seqstart_q.getD i 0,
        if param.host_seqlen_k.isEmpty then
          param.host_seqstart_k.getD (i + 1) 0 - param.host_seqstart_k.getD i 0
        else param.host_seqlen_k.getD i 0) ∧
    ∃ st, FmhaFwdKernel_group_prologue vlayout kHasBias kargs i i_m0 = some st ∧
      st.kargs.seqlen_q = kargs.seqstart_q_ptr.getD (i + 1) 0 - kargs.seqstart_q_ptr.getD i 0 ∧
      st.returned =
        decide (kargs.seqstart_q_ptr.getD (i + 1) 0 - kargs.seqstart_q_ptr.getD i 0 ≤ i_m0) ∧
      (st.returned = false →
        st.kargs.seqlen_k =
          match kargs.seqlen_k_ptr with
          | some seqlen_k => seqlen_k.getD i 0
          | none => kargs.seqstart_k_ptr.getD (i + 1) 0 - kargs.seqstart_k_ptr.getD i 0) := by
  refine ⟨seqlens_eq _ _ _ n i hi hq hk hl hq32 hk32,
    seqlens_eq _ _ _ n i hi hq hk hl hq32 hk32, ?_⟩
  have a1 := getElem?_eq_some_getD kargs.seqstart_q_ptr (i + 1) (by omega)
  have a0 := getElem?_eq_some_getD kargs.seqstart_q_ptr i (by omega)
  have b1 := getElem?_eq_some_getD kargs.seqstart_k_ptr (i + 1) (by omega)
  have b0 := getElem?_eq_some_getD kargs.seqstart_k_ptr i (by omega)
  have wq := wrapInt32_sub_of_nonneg _ _ (dq32 _ (getD_mem kargs.seqstart_q_ptr (i + 1) (by omega)))
    (dq32 _ (getD_mem kargs.seqstart_q_ptr i (by omega)))
  have wk := wrapInt32_sub_of_nonneg _ _ (dk32 _ (getD_mem kargs.seqstart_k_ptr (i + 1) (by omega)))
    (dk32 _ (getD_mem kargs.seqstart_k_ptr i (by omega)))
  unfold FmhaFwdKernel_group_prologue
  simp only [a1, a0, b1, b0, wq, wk, bind, Option.bind, pure, Nat.add_zero]
  by_cases hret : kargs.seqstart_q_ptr.getD (i + 1) 0 - kargs.seqstart_q_ptr.getD i 0 ≤ i_m0
  · simp only [hret, if_true, decide_True]
    exact ⟨_, rfl, rfl, rfl, fun h => absurd h (by simp)⟩
  · simp only [hret, if_false, decide_False]
    cases hp : kargs.seqlen_k_ptr with
    | none =>
      simp only [b1, b0, wk]
      exact ⟨_, rfl, rfl, rfl, fun _ => rfl⟩
    | some l =>
      have c0 := getElem?_eq_some_getD l i (by rw [dl l hp]; exact hi)
      simp only [c0]
      exact ⟨_, rfl, rfl, rfl, fun _ => rfl⟩

/-- Witness for C2: sequence 1 of two packed sequences. -/
theorem grouped_forward_seqlens_correct_witness :
    grouped_forward_seqlens exGroupedForwardParams 1 = some (3, 4) ∧
    grouped_infer_seqlens exGroupedForwardParams 1 = some (3, 4) ∧
    ∃ st, FmhaFwdKernel_group_prologue VLayout.RowMajor false exGroupModeKargs 1 0 = some st ∧
      st.kargs.seqlen_q = 3 ∧ st.returned = false ∧
      (st.returned = false → st.kargs.seqlen_k = 8) := by
  have h := grouped_forward_seqlens_correct exGroupedForwardParams exGroupModeKargs
    VLayout.RowMajor false 2 1 0 (by decide) rfl rfl (by decide) (by decide) (by decide)
    rfl rfl (by intro l hl; cases hl; rfl) (by decide) (by decide)
  simpa [exGroupedForwardParams, exGroupModeKargs] using h

/-- C3 (evaluation of the code): on the parameters filled by
`set_grouped_backward_params` for a call without explicit `seqlen_k`
(`host_seqstart_k = [0, 3, 7]`, `host_seqlen_k` empty), the grouped backward
descriptor builder tests `host_seqstart_k.empty()`, so for sequence 0 it reads
`host_seqlen_k[0]` of the empty vector and has no defined key length, whereas
the grouped forward builder on the same arrays gives `N = 3`. -/
theorem grouped_backward_seqlens_reads_empty_seqlen_k :
    ∃ p, set_grouped_backward_params (exBackwardCtx false) exFreshGroupedBackwardParams = .ok p ∧
      p.host_seqstart_q = [0, 2, 5] ∧ p.host_seqstart_k = [0, 3, 7] ∧ p.host_seqlen_k = [] ∧
      grouped_backward_seqlens p 0 = none ∧
      grouped_forward_seqlens exGroupedForwardParams 0 = some (2, 3) ∧
      exGroupedForwardParams.host_seqstart_q = p.host_seqstart_q ∧
      exGroupedForwardParams.host_seqstart_k = p.host_seqstart_k ∧
      exGroupedForwardParams.host_seqlen_k = p.host_seqlen_k :=
  ⟨_, set_grouped_backward_params_eq _ _ 2 _ _ 3 (exBackwardCtx_ok false),
    rfl, rfl, rfl, rfl, rfl, rfl, rfl, rfl⟩

/-- C4: after `set_grouped_backward_params` on a fresh parameter record, for
every sequence `i < num_batches` the input base pointers are the tensor's
data pointer plus, in `size_t` arithmetic, `elementsize(dtype) * seqstart[i] *
row_stride` bytes: `q_ptrs[i]` with query's element size, `seqstart_q[i]` and
`q_strides[0]`; `k_ptrs[i]` and `v_ptrs[i]` with `seqstart_k[i]` and
`k_strides[0]`, `v_strides[0]`; `out_ptrs[i]` and `grad_out_ptrs[i]` both with
out's element size, `seqstart_q[i]` and `out_strides[0]`, each from its own
data pointer; and each `*_strides[0]` is the tensor's stride of axis 1 (the
sequence axis) converted to `int`. -/
theorem grouped_backward_input_pointers (ctx : BackwardCtx) (p0 : GroupedBackwardParams)
    (n : Nat) (sq sk : HostIntTensor) (m : Int) (h : GroupedCallOk ctx n sq sk m)
    (hfresh : p0.IsFresh) (i : Nat) (hi : i < n) :
    ∃ p, set_grouped_backward_params ctx p0 = .ok p ∧
      p.num_batches = n ∧
      p.q_strides 0 = wrapInt32 (ctx.query.strides.getD 1 0) ∧
      p.k_strides 0 = wrapInt32 (ctx.key.strides.getD 1 0) ∧
      p.v_strides 0 = wrapInt32 (ctx.value.strides.getD 1 0) ∧
      p.out_strides 0 = wrapInt32 (ctx.out.strides.getD 1 0) ∧
      p.q_ptrs[i]? = some ⟨Buffer.query,
        wrapSizeT (ctx.query.dtype.elementSize * (sq.data.getD i 0 * p.q_strides 0))⟩ ∧
      p.k_ptrs[i]? = some ⟨Buffer.key,
        wrapSizeT (ctx.key.dtype.elementSize * (sk.data.getD i 0 * p.k_strides 0))⟩ ∧
      p.v_ptrs[i]? = some ⟨Buffer.value,
        wrapSizeT (ctx.value.dtype.elementSize * (sk.data.getD i 0 * p.v_strides 0))⟩ ∧
      p.out_ptrs[i]? = some ⟨Buffer.out,
        wrapSizeT (ctx.out.dtype.elementSize * (sq.data.getD i 0 * p.out_strides 0))⟩ ∧
      p.grad_out_ptrs[i]? = some ⟨Buffer.grad_out,
        wrapSizeT (ctx.out.dtype.elementSize * (sq.data.getD i 0 * p.out_strides 0))⟩ := by
  obtain ⟨_, _, _, f1, f2, f3, f4, f5, _⟩ := hfresh
  refine ⟨_, set_grouped_backward_params_eq ctx p0 n sq sk m h, rfl, rfl, rfl, rfl, rfl, ?_, ?_,
    ?_, ?_, ?_⟩ <;>
  simp only [groupedPtrLoopClosedForm, groupedParamsBeforeLoop, f1, f2, f3, f4, f5,
    List.nil_append, getElem?_range_map _ n i hi, sizeT_offset_eq]

/-- Witness for C4: sequence 1 of the two-sequence half-precision call. -/
theorem grouped_backward_input_pointers_witness :
    ∃ p, set_grouped_backward_params (exBackwardCtx false) exFreshGroupedBackwardParams = .ok p ∧
      p.q_ptrs[1]? = some ⟨Buffer.query, 64⟩ ∧ p.k_ptrs[1]? = some ⟨Buffer.key, 48⟩ ∧
      p.v_ptrs[1]? = some ⟨Buffer.value, 48⟩ ∧ p.out_ptrs[1]? = some ⟨Buffer.out, 64⟩ ∧
      p.grad_out_ptrs[1]? = some ⟨Buffer.grad_out, 64⟩ := by
  obtain ⟨p, hp, -, e1, e2, e3, e4, h1, h2, h3, h4, h5⟩ :=
    grouped_backward_input_pointers (exBackwardCtx false) exFreshGroupedBackwardParams 2
      (hostIntTensor [0, 2, 5]) (hostIntTensor [0, 3, 7]) 3 (exBackwardCtx_ok false)
      exFresh_isFresh 1 (by decide)
  refine ⟨p, hp, ?_, ?_, ?_, ?_, ?_⟩
  · rw [h1, e1]; rfl
  · rw [h2, e2]; rfl
  · rw [h3, e3]; rfl
  · rw [h4, e4]; rfl
  · rw [h5, e4]; rfl

/-- C5 (evaluation of the code): with `use_fp32_qkv_grad` and MQA/GQA
temporaries (`Hq = 2 > Hkv = 1`), half-precision inputs and
`seqstart_k = [0, 3, 7]`, the temporaries are `float` tensors whose
sequence-axis stride is 16 elements, so row 3 of `tmp_grad_k` lies
`4 * 3 * 16 = 192` bytes into the buffer; the code computes that offset with
the temporary's own element size and then multiplies by the fp32 multiplier 2
again, placing `grad_k_ptrs[1]` and `grad_v_ptrs[1]` at byte 384. The query
gradient, offset through the half-precision query, is at `4 * 2 * 16 = 128`. -/
theorem grouped_backward_fp32_mqa_gradient_offset_doubled :
    ∃ p, set_grouped_backward_params (exBackwardCtx true) exFreshGroupedBackwardParams = .ok p ∧
      p.grad_q_ptrs[1]? = some ⟨Buffer.grad_q, 128⟩ ∧
      p.grad_k_ptrs[1]? = some ⟨Buffer.tmp_grad_k, 384⟩ ∧
      p.grad_v_ptrs[1]? = some ⟨Buffer.tmp_grad_v, 384⟩ ∧
      (exBackwardCtx true).grad_q.dtype.elementSize *
        ((hostIntTensor [0, 2, 5]).data.getD 1 0 * (exBackwardCtx true).grad_q.strides.getD 1 0)
          = 128 ∧
      (exBackwardCtx true).tmp_grad_k.dtype.elementSize *
        ((hostIntTensor [0, 3, 7]).data.getD 1 0 * (exBackwardCtx true).tmp_grad_k.strides.getD 1 0)
          = 192 ∧
      (exBackwardCtx true).tmp_grad_v.dtype.elementSize *
        ((hostIntTensor [0, 3, 7]).data.getD 1 0 * (exBackwardCtx true).tmp_grad_v.strides.getD 1 0)
          = 192 :=
  ⟨_, set_grouped_backward_params_eq _ _ 2 _ _ 3 (exBackwardCtx_ok true),
    rfl, rfl, rfl, rfl, rfl, rfl⟩

/-- C6: in the tile kernel in group mode, for the block of sequence `i`
(reads in bounds): `batch_offset_q = seqstart_q[i] * stride_q`,
`batch_offset_k = seqstart_k[i] * stride_k`,
`batch_offset_o = seqstart_q[i] * stride_o`, and `batch_offset_v` is
`seqstart_k[i] * stride_v` for a row-major V and `seqstart_k[i]` alone
otherwise; consequently the element at sequence-local row `m`, feature `k` of
Q for head `h` is at `q_ptr + h*nhead_stride_q + (seqstart_q[i] + m)*stride_q + k`. -/
theorem tile_group_mode_batch_offsets (vlayout : VLayout) (kHasBias : Bool)
    (kargs : GroupModeKargs) (i : Nat) (i_m0 h m k : Int)
    (hq : i + 1 < kargs.seqstart_q_ptr.length) (hk : i + 1 < kargs.seqstart_k_ptr.length)
    (hl : ∀ l, kargs.seqlen_k_ptr = some l → i < l.length) :
    ∃ st, FmhaFwdKernel_group_prologue vlayout kHasBias kargs i i_m0 = some st ∧
      st.off.batch_offset_q = kargs.seqstart_q_ptr.getD i 0 * kargs.stride_q ∧
      st.off.batch_offset_k = kargs.seqstart_k_ptr.getD i 0 * kargs.stride_k ∧
      st.off.batch_offset_o = kargs.seqstart_q_ptr.getD i 0 * kargs.stride_o ∧
      st.off.batch_offset_v =
        (match vlayout with
         | VLayout.RowMajor => kargs.seqstart_k_ptr.getD i 0 * kargs.stride_v
         | VLayout.ColumnMajor => kargs.seqstart_k_ptr.getD i 0) ∧
      (FmhaFwdKernel_q_dram_naive st.kargs
          (FmhaFwdKernel_block_pointers st.kargs st.off h)).elemAddr [m, k] =
        h * kargs.nhead_stride_q + (kargs.seqstart_q_ptr.getD i 0 + m) * kargs.stride_q + k := by
  have a1 := getElem?_eq_some_getD kargs.seqstart_q_ptr (i + 1) hq
  have a0 := getElem?_eq_some_getD kargs.seqstart_q_ptr i (by omega)
  have b1 := getElem?_eq_some_getD kargs.seqstart_k_ptr (i + 1) hk
  have b0 := getElem?_eq_some_getD kargs.seqstart_k_ptr i (by omega)
  have hv : (if vlayout = VLayout.RowMajor then
        kargs.seqstart_k_ptr.getD i 0 * kargs.stride_v else kargs.seqstart_k_ptr.getD i 0) =
      (match vlayout with
       | VLayout.RowMajor => kargs.seqstart_k_ptr.getD i 0 * kargs.stride_v
       | VLayout.ColumnMajor => kargs.seqstart_k_ptr.getD i 0) := by
    cases vlayout <;> simp
  have haddr : ∀ x : Int, x + descOffset [m, k] [kargs.stride_q, 1] =
      x + m * kargs.stride_q + k := by
    intro x
    simp only [descOffset, List.zipWith_cons_cons, List.zipWith_nil_left, List.sum_cons,
      List.sum_nil]
    ring
  unfold FmhaFwdKernel_group_prologue
  simp only [a1, a0, b1, b0, bind, Option.bind, pure, Nat.add_zero]
  by_cases hret :
      wrapInt32 (kargs.seqstart_q_ptr.getD (i + 1) 0 - kargs.seqstart_q_ptr.getD i 0) ≤ i_m0
  · simp only [hret, if_true]
    refine ⟨_, rfl, rfl, rfl, rfl, hv, ?_⟩
    simp only [FmhaFwdKernel_q_dram_naive, FmhaFwdKernel_block_pointers,
      NaiveTensorView.elemAddr, haddr]
    ring
  · simp only [hret, if_false]
    cases hp : kargs.seqlen_k_ptr with
    | none =>
      refine ⟨_, rfl, rfl, rfl, rfl, hv, ?_⟩
      simp only [FmhaFwdKernel_q_dram_naive, FmhaFwdKernel_block_pointers,
        NaiveTensorView.elemAddr, haddr]
      ring
    | some l =>
      have c0 := getElem?_eq_some_getD l i (hl l hp)
      simp only [c0]
      refine ⟨_, rfl, rfl, rfl, rfl, hv, ?_⟩
      simp only [FmhaFwdKernel_q_dram_naive, FmhaFwdKernel_block_pointers,
        NaiveTensorView.elemAddr, haddr]
      ring

/-- Witness for C6: head 1, row 1, feature 3 of sequence 1. -/
theorem tile_group_mode_batch_offsets_witness :
    ∃ st, FmhaFwdKernel_group_prologue VLayout.RowMajor false exGroupModeKargs 1 0 = some st ∧
      st.off.batch_offset_q = 32 ∧ st.off.batch_offset_k = 24 ∧ st.off.batch_offset_o = 32 ∧
      st.off.batch_offset_v = 24 ∧
      (FmhaFwdKernel_q_dram_naive st.kargs
          (FmhaFwdKernel_block_pointers st.kargs st.off 1)).elemAddr [1, 3] = 59 := by
  obtain ⟨st, hst, h1, h2, h3, h4, h5⟩ :=
    tile_group_mode_batch_offsets VLayout.RowMajor false exGroupModeKargs 1 0 1 1 3
      (by decide) (by decide) (by intro l hl; cases hl; decide)
  refine ⟨st, hst, ?_, ?_, ?_, ?_, ?_⟩
  · rw [h1]; rfl
  · rw [h2]; rfl
  · rw [h3]; rfl
  · rw [h4]; rfl
  · rw [h5]; rfl

/-- C7: when a call of `efficient_attention_backward_ck` with `Hq > Hkv`
returns, the last two effects of its trace are the reductions
`grad_k = tmp_grad_k_view.sum(3)` and `grad_v = tmp_grad_v_view.sum(3)` of the
views `unflatten(2, {Hkv, Hq/Hkv})` of the temporaries `at::empty({B, N, Hq, K})`,
`at::empty({B, N, Hq, Kv})` allocated at lines 208-224, and no other reduction
is issued; the returned gradients have shapes
`[B, N, Hkv, K]` and `[B, N, Hkv, Kv]`; and in the memory left by these two
reductions, whatever the memory `mem` before them (the temporaries as the
kernel wrote them), `grad_k[b, n, g, k]` is the reduction of
`tmp_grad_k[b, n, g*(Hq/Hkv) + r, k]` for `r = 0, ..., Hq/Hkv - 1`, each an
element of the temporary, and likewise `grad_v` with `tmp_grad_v` and width
`Kv`. The reduction `red` is the one `at::sum` performs in the element type
(rounding included), and is arbitrary here. -/
theorem mqa_gqa_gradient_reduction {α : Type} (a : BackwardArgs) (g : BackwardResult)
    (B N Hq Hkv K Kv : Int)
    (hret : (efficient_attention_backward_ck a).result = .ok g)
    (hkey : a.key.meta.sizes = [B, N, Hkv, K]) (hval : a.value.meta.sizes = [B, N, Hkv, Kv])
    (hHq : a.query.meta.sizes.getD 2 0 = Hq) (hgt : Hq > Hkv) :
    ∃ (s : PreparedCall) (use_fp32_qkv_grad : Bool)
      (tmp_grad_k tmp_grad_v tmp_grad_k_view tmp_grad_v_view : GradTensor) (pre : List Effect),
      (efficient_attention_backward_ck_prepare a).result = .ok s ∧
      read_USE_FP32_QKV_GRAD a.env_USE_FP32_QKV_GRAD = .ok use_fp32_qkv_grad ∧
      s.tmp_grad_k = some tmp_grad_k ∧ s.tmp_grad_v = some tmp_grad_v ∧
      tmp_grad_k = at_empty_like Allocation.tmp_grad_k [B, N, Hq, K]
        (if use_fp32_qkv_grad then ScalarType.kFloat else a.query.meta.dtype) a.query.meta ∧
      tmp_grad_v = at_empty_like Allocation.tmp_grad_v [B, N, Hq, Kv]
        (if use_fp32_qkv_grad then ScalarType.kFloat else a.query.meta.dtype) a.query.meta ∧
      Hkv * Int.tdiv Hq Hkv = Hq ∧
      tmp_grad_k.unflatten 2 Hkv (Int.tdiv Hq Hkv) = .ok tmp_grad_k_view ∧
      tmp_grad_v.unflatten 2 Hkv (Int.tdiv Hq Hkv) = .ok tmp_grad_v_view ∧
      (efficient_attention_backward_ck a).effects =
        pre ++ [.device_sum tmp_grad_k_view 3 g.grad_k,
                .device_sum tmp_grad_v_view 3 g.grad_v] ∧
      (∀ x ∈ pre, ∀ src dim dst, x ≠ Effect.device_sum src dim dst) ∧
      g.grad_k.meta.sizes = [B, N, Hkv, K] ∧ g.grad_v.meta.sizes = [B, N, Hkv, Kv] ∧
      ∀ (red : List α → α) (mem : DeviceMemory α) (b n h : Int),
        0 ≤ b → b < B → 0 ≤ n → n < N → 0 ≤ h → h < Hkv →
        (∀ k, 0 ≤ k → k < K →
          g.grad_k.read
              (at_sum red tmp_grad_v_view 3 g.grad_v
                (at_sum red tmp_grad_k_view 3 g.grad_k mem)) [b, n, h, k] =
            red ((List.range (Int.tdiv Hq Hkv).toNat).map
              (fun j => tmp_grad_k.read mem [b, n, h * Int.tdiv Hq Hkv + (j : Int), k])) ∧
          ∀ j : Nat, j < (Int.tdiv Hq Hkv).toNat →
            tmp_grad_k.InBounds [b, n, h * Int.tdiv Hq Hkv + (j : Int), k]) ∧
        (∀ k, 0 ≤ k → k < Kv →
          g.grad_v.read
              (at_sum red tmp_grad_v_view 3 g.grad_v
                (at_sum red tmp_grad_k_view 3 g.grad_k mem)) [b, n, h, k] =
            red ((List.range (Int.tdiv Hq Hkv).toNat).map
              (fun j => tmp_grad_v.read mem [b, n, h * Int.tdiv Hq Hkv + (j : Int), k])) ∧
          ∀ j : Nat, j < (Int.tdiv Hq Hkv).toNat →
            tmp_grad_v.InBounds [b, n, h * Int.tdiv Hq Hkv + (j : Int), k]) := by
  rcases run_cases a with ⟨e', -, hr⟩ | ⟨s, hs, ⟨e', -, hr⟩ | ⟨lf, g', -, hf, hr⟩⟩
  · rw [hr] at hret
    exact absurd hret (by simp)
  · rw [hr] at hret
    exact absurd hret (by simp)
  rw [hr] at hret ⊢
  injection hret with hret
  subst hret
  obtain ⟨h1, -, -, uf, B', M', N', Hq', Hkv', K', Kv', la, lr, hread, ⟨hB, hM, hN, hHq', hHkv, hK, hKv⟩,
    -, -, -, -, htmp, hctx⟩ := prepare_returns_inv a _ s ⟨rfl, hs⟩
  obtain ⟨hqs, hks, hvs, -, -, hmod⟩ :=
    shape_checks_sizes a B' M' N' Hq' Hkv' K' Kv' h1 hB hM hN hHq' hHkv hK hKv
  rw [hks] at hkey
  rw [hvs] at hval
  rw [hqs] at hHq
  simp only [List.cons.injEq, and_true] at hkey hval
  simp only [List.getD_cons_succ, List.getD_cons_zero] at hHq
  obtain ⟨rfl, rfl, rfl, rfl⟩ := hkey
  obtain ⟨-, -, -, rfl⟩ := hval
  subst hHq
  have hd := tdiv_mul_of_tmod_zero Hq' Hkv' hmod
  rw [if_pos hgt] at htmp
  injection htmp with htk htv
  have hm : s.ctx.is_mqa_gqa = true := by rw [hctx]; exact decide_eq_true hgt
  have hcHq : s.ctx.Hq = Hq' := by rw [hctx]
  have hcHkv : s.ctx.Hkv = Hkv' := by rw [hctx]
  obtain ⟨vk, vv, huk, huv, hvk, hvv, hfin⟩ :=
    finish_mqa_trace s B' N' Hq' Hkv' K' Kv' _ _ hm htk htv hcHq hcHkv hmod
  have hres := hf.2
  rw [hfin] at hres
  injection hres with hres
  subst hres
  have hlf : lf = [.device_sum vk 3 (at_empty_like Allocation.reduced_grad_k [B', N', Hkv', K']
        (if uf then ScalarType.kFloat else a.query.meta.dtype) a.query.meta),
      .device_sum vv 3 (at_empty_like Allocation.reduced_grad_v [B', N', Hkv', Kv']
        (if uf then ScalarType.kFloat else a.query.meta.dtype) a.query.meta)] := by
    have := hf.1
    rw [hfin] at this
    exact this.symm
  refine ⟨s, uf, _, _, vk, vv,
    (efficient_attention_backward_ck_prepare a).effects ++
      (efficient_attention_backward_ck_launch a s).effects,
    hs, hread, htk, htv, rfl, rfl, hd, huk, huv, by rw [hlf, List.append_assoc], ?_, rfl, rfl, ?_⟩
  · intro x hx src dim dst hxe
    subst hxe
    rcases List.mem_append.1 hx with hx | hx
    · rcases prepare_effects a _ hx with ⟨t, ht⟩ | ⟨t, ht⟩ <;> simp at ht
    · rcases launch_effects a s _ hx with ⟨c, hc⟩ | ⟨c, hc⟩ <;> simp at hc
  · intro red mem b n h hb0 hb hn0 hn hh0 hh
    have hHkvpos : 0 < Hkv' := by omega
    have hHqpos : 0 < Hq' := by omega
    have hrpos : 0 < Int.tdiv Hq' Hkv' := by
      by_contra hc
      have : Hkv' * Int.tdiv Hq' Hkv' ≤ 0 :=
        mul_nonpos_of_nonneg_of_nonpos (le_of_lt hHkvpos) (not_lt.1 hc)
      omega
    have hhead : ∀ j : Nat, j < (Int.tdiv Hq' Hkv').toNat →
        0 ≤ h * Int.tdiv Hq' Hkv' + (j : Int) ∧ h * Int.tdiv Hq' Hkv' + (j : Int) < Hq' := by
      intro j hj
      have hj' : (j : Int) < Int.tdiv Hq' Hkv' := Int.lt_toNat.1 hj
      constructor
      · have := mul_nonneg hh0 (le_of_lt hrpos)
        omega
      · have h2 : (h + 1) * Int.tdiv Hq' Hkv' ≤ Hkv' * Int.tdiv Hq' Hkv' :=
          mul_le_mul_of_nonneg_right (by omega) (le_of_lt hrpos)
        have h3 : (h + 1) * Int.tdiv Hq' Hkv' = h * Int.tdiv Hq' Hkv' + Int.tdiv Hq' Hkv' := by
          ring
        omega
    constructor
    · intro k hk0 hk
      constructor
      · show (at_sum red vv 3 _ (at_sum red vk 3 _ mem)) _ _ = _
        rw [at_sum_other _ _ _ _ _ _ _ (by simp [at_empty_like])]
        have hin : (at_empty_like Allocation.reduced_grad_k [B', N', Hkv', K']
            (if uf then ScalarType.kFloat else a.query.meta.dtype) a.query.meta).InBounds [b, n, h, k] :=
          (inBounds4_iff _ B' N' Hkv' K' rfl _).2
            ⟨b, n, h, k, rfl, ⟨hb0, hb⟩, ⟨hn0, hn⟩, ⟨hh0, hh⟩, ⟨hk0, hk⟩⟩
        have := at_sum_read red vk _ 3 mem [b, n, h, k] hin
          (fun idx' hi he => contiguous4_injective _ _ _ _ _ _ _ _ _ hin hi he)
        unfold GradTensor.read at this
        rw [this, hvk]
        simp only [List.getD_cons_succ, List.getD_cons_zero, List.take, List.drop,
          List.cons_append, List.nil_append]
        congr 1
        apply List.map_congr_left
        intro j _
        exact sum_view_read mem _ _ _ B' N' Hq' Hkv' K' _ b n h j k (by omega) hHqpos (by omega)
      · intro j hj
        exact (inBounds4_iff _ B' N' Hq' K' rfl _).2
          ⟨b, n, _, k, rfl, ⟨hb0, hb⟩, ⟨hn0, hn⟩, hhead j hj, ⟨hk0, hk⟩⟩
    · intro k hk0 hk
      constructor
      · have hin : (at_empty_like Allocation.reduced_grad_v [B', N', Hkv', Kv']
            (if uf then ScalarType.kFloat else a.query.meta.dtype) a.query.meta).InBounds [b, n, h, k] :=
          (inBounds4_iff _ B' N' Hkv' Kv' rfl _).2
            ⟨b, n, h, k, rfl, ⟨hb0, hb⟩, ⟨hn0, hn⟩, ⟨hh0, hh⟩, ⟨hk0, hk⟩⟩
        rw [at_sum_read red vv _ 3 _ [b, n, h, k] hin
          (fun idx' hi he => contiguous4_injective _ _ _ _ _ _ _ _ _ hin hi he), hvv]
        simp only [List.getD_cons_succ, List.getD_cons_zero, List.take, List.drop,
          List.cons_append, List.nil_append]
        congr 1
        apply List.map_congr_left
        intro j _
        rw [← sum_view_read mem _ _ _ B' N' Hq' Hkv' Kv' _ b n h j k (by omega) hHqpos (by omega)]
        unfold GradTensor.read
        exact at_sum_other _ _ _ _ _ _ _ (by simp [at_empty_like])
      · intro j hj
        exact (inBounds4_iff _ B' N' Hq' Kv' rfl _).2
          ⟨b, n, _, k, rfl, ⟨hb0, hb⟩, ⟨hn0, hn⟩, hhead j hj, ⟨hk0, hk⟩⟩

/-- Witness for `mqa_gqa_gradient_reduction`: the grouped-query call
`exGqaPackedKVArgs` (`Hq = 2`, `Hkv = 1`, `B = 1`, `N = 2`, `K = Kv = 4`) over
integer elements with exact addition, in a memory that holds at each offset
the offset itself: `grad_k[0, 1, 0, 2]` is
`tmp_grad_k[0, 1, 0, 2] + tmp_grad_k[0, 1, 1, 2] = 10 + 14`. -/
theorem mqa_gqa_gradient_reduction_witness :
    ∃ (g : BackwardResult) (tmp_grad_k_view tmp_grad_v_view : GradTensor),
      (efficient_attention_backward_ck exGqaPackedKVArgs).result = .ok g ∧
      (efficient_attention_backward_ck exGqaPackedKVArgs).effects.drop 7 =
        [.device_sum tmp_grad_k_view 3 g.grad_k, .device_sum tmp_grad_v_view 3 g.grad_v] ∧
      g.grad_k.read
          (at_sum List.sum tmp_grad_v_view 3 g.grad_v
            (at_sum List.sum tmp_grad_k_view 3 g.grad_k (fun _ off => off))) [0, 1, 0, 2] =
        (24 : Int) := by
  obtain ⟨s, uf, tk, tv, vk, vv, pre, hs, huf, -, -, htk, -, -, -, -, heff, -, -, -, hread⟩ :=
    @mqa_gqa_gradient_reduction Int exGqaPackedKVArgs _ 1 2 2 1 4 4 exGqaPackedKVArgs_result
      rfl rfl rfl (by decide)
  refine ⟨_, vk, vv, exGqaPackedKVArgs_result, ?_, ?_⟩
  · have hlen : pre.length = 7 := by
      have := congrArg List.length heff
      rw [List.length_append] at this
      have h9 : (efficient_attention_backward_ck exGqaPackedKVArgs).effects.length = 9 := by
        decide
      rw [h9] at this
      simp at this
      omega
    rw [heff, List.drop_left' hlen]
  · rw [((hread List.sum (fun _ off => off) 0 1 0 (by decide) (by decide) (by decide)
      (by decide) (by decide) (by decide)).1 2 (by decide) (by decide)).1, htk]
    have hf : uf = false := by
      have h0 : read_USE_FP32_QKV_GRAD exGqaPackedKVArgs.env_USE_FP32_QKV_GRAD = .ok false := rfl
      rw [h0] at huf
      injection huf with huf
      exact huf.symm
    subst hf
    decide

/-- C8: `batched_backward_bp16` depends on the parameters only through
`(custom_mask_type, has_attn_bias, use_fp32_qkv_grad)`; for
`custom_mask_type` in {0, 1, 2} it runs exactly one kernel instance,
`run_batched_backward_masktype_attnbias_dispatched<bhalf_t, m, b, f>` with
`(m, b, f)` the runtime values, which is one of the twelve declared
instantiations; the declared instantiations are twelve, pairwise distinct, and
each is selected by some runtime combination. -/
theorem batched_backward_bp16_dispatch :
    (∀ p q : BatchedBackwardParams, p.custom_mask_type = q.custom_mask_type →
      p.has_attn_bias = q.has_attn_bias → p.use_fp32_qkv_grad = q.use_fp32_qkv_grad →
      batched_backward_bp16 p = batched_backward_bp16 q) ∧
    (∀ p : BatchedBackwardParams,
      p.custom_mask_type = 0 ∨ p.custom_mask_type = 1 ∨ p.custom_mask_type = 2 →
      batched_backward_bp16 p =
        { invoked := [.run_batched_backward_masktype_attnbias_dispatched CkType.bhalf_t
            p.custom_mask_type p.has_attn_bias p.use_fp32_qkv_grad],
          error := none } ∧
      KernelCall.run_batched_backward_masktype_attnbias_dispatched CkType.bhalf_t
          p.custom_mask_type p.has_attn_bias p.use_fp32_qkv_grad ∈
        batched_backward_bp16_declared) ∧
    batched_backward_bp16_declared.length = 12 ∧
    batched_backward_bp16_declared.Nodup ∧
    (∀ c ∈ batched_backward_bp16_declared, ∃ p : BatchedBackwardParams,
      (p.custom_mask_type = 0 ∨ p.custom_mask_type = 1 ∨ p.custom_mask_type = 2) ∧
      batched_backward_bp16 p = { invoked := [c], error := none }) := by
  refine ⟨?_, ?_, rfl, by decide, ?_⟩
  · intro p q h1 h2 h3
    simp only [batched_backward_bp16, h1, h2, h3]
  · intro p hp
    rcases hp with h | h | h <;>
      cases hb : p.has_attn_bias <;> cases hf : p.use_fp32_qkv_grad <;>
      simp [batched_backward_bp16, BOOL_SWITCH_2, runKernel, h, hb, hf,
        batched_backward_bp16_declared]
  · intro c hc
    simp only [batched_backward_bp16_declared, List.mem_cons, List.mem_singleton,
      List.mem_nil_iff, or_false] at hc
    rcases hc with h | h | h | h | h | h | h | h | h | h | h | h <;> subst h
    · exact ⟨exBatchedBackwardParams 0 true true, Or.inl rfl, rfl⟩
    · exact ⟨exBatchedBackwardParams 0 true false, Or.inl rfl, rfl⟩
    · exact ⟨exBatchedBackwardParams 0 false true, Or.inl rfl, rfl⟩
    · exact ⟨exBatchedBackwardParams 0 false false, Or.inl rfl, rfl⟩
    · exact ⟨exBatchedBackwardParams 1 true true, Or.inr (Or.inl rfl), rfl⟩
    · exact ⟨exBatchedBackwardParams 1 true false, Or.inr (Or.inl rfl), rfl⟩
    · exact ⟨exBatchedBackwardParams 1 false true, Or.inr (Or.inl rfl), rfl⟩
    · exact ⟨exBatchedBackwardParams 1 false false, Or.inr (Or.inl rfl), rfl⟩
    · exact ⟨exBatchedBackwardParams 2 true true, Or.inr (Or.inr rfl), rfl⟩
    · exact ⟨exBatchedBackwardParams 2 true false, Or.inr (Or.inr rfl), rfl⟩
    · exact ⟨exBatchedBackwardParams 2 false true, Or.inr (Or.inr rfl), rfl⟩
    · exact ⟨exBatchedBackwardParams 2 false false, Or.inr (Or.inr rfl), rfl⟩

/-- Witness for C8: mask type 1 with bias and without fp32 gradients. -/
theorem batched_backward_bp16_dispatch_witness :
    batched_backward_bp16 (exBatchedBackwardParams 1 true false) =
        { invoked := [.run_batched_backward_masktype_attnbias_dispatched CkType.bhalf_t 1 true
            false],
          error := none } ∧
      KernelCall.run_batched_backward_masktype_attnbias_dispatched CkType.bhalf_t 1 true false ∈
        batched_backward_bp16_declared :=
  batched_backward_bp16_dispatch.2.1 (exBatchedBackwardParams 1 true false)
    (Or.inr (Or.inl rfl))

/-- C9 (evaluation of the code): for `custom_mask_type = 2` without bias,
`grouped_backward_bp16` runs
`grouped_backward_masktype_attnbias_dispatched<bhalf_t, 2, true>`, the same
instance as with bias, so the six runtime combinations select five distinct
instantiations. -/
theorem grouped_backward_bp16_mask2_ignores_bias :
    grouped_backward_bp16 (exGroupedBackwardDispatchParams 2 false) =
        { invoked := [.grouped_backward_masktype_attnbias_dispatched CkType.bhalf_t 2 true],
          error := none } ∧
      grouped_backward_bp16 (exGroupedBackwardDispatchParams 2 true) =
        grouped_backward_bp16 (exGroupedBackwardDispatchParams 2 false) ∧
      (exGroupedBackwardDispatchParams 2 false).has_attn_bias = false :=
  ⟨rfl, rfl, rfl⟩

/-- C10: each mask-type dispatcher (`batched_backward_bp16`,
`grouped_backward_bp16`, `batched_infer_fp16`) raises
"Invalid custom_mask_type value" if and only if `custom_mask_type` is not one
of 0, 1, 2; when it raises, no kernel instance has been run; and for a mask
type in {0, 1, 2} it raises nothing. -/
theorem dispatchers_invalid_mask_type (p : BatchedBackwardParams) (q : GroupedBackwardParams)
    (r : BatchedForwardParams) :
    (((batched_backward_bp16 p).error = some "Invalid custom_mask_type value" ↔
        ¬ (p.custom_mask_type = 0 ∨ p.custom_mask_type = 1 ∨ p.custom_mask_type = 2)) ∧
      ((batched_backward_bp16 p).error ≠ none → (batched_backward_bp16 p).invoked = []) ∧
      (p.custom_mask_type = 0 ∨ p.custom_mask_type = 1 ∨ p.custom_mask_type = 2 →
        (batched_backward_bp16 p).error = none)) ∧
    (((grouped_backward_bp16 q).error = some "Invalid custom_mask_type value" ↔
        ¬ (q.custom_mask_type = 0 ∨ q.custom_mask_type = 1 ∨ q.custom_mask_type = 2)) ∧
      ((grouped_backward_bp16 q).error ≠ none → (grouped_backward_bp16 q).invoked = []) ∧
      (q.custom_mask_type = 0 ∨ q.custom_mask_type = 1 ∨ q.custom_mask_type = 2 →
        (grouped_backward_bp16 q).error = none)) ∧
    (((batched_infer_fp16 r).error = some "Invalid custom_mask_type value" ↔
        ¬ (r.custom_mask_type = 0 ∨ r.custom_mask_type = 1 ∨ r.custom_mask_type = 2)) ∧
      ((batched_infer_fp16 r).error ≠ none → (batched_infer_fp16 r).invoked = []) ∧
      (r.custom_mask_type = 0 ∨ r.custom_mask_type = 1 ∨ r.custom_mask_type = 2 →
        (batched_infer_fp16 r).error = none)) := by
  refine ⟨?_, ?_, ?_⟩
  · by_cases h0 : p.custom_mask_type = 0
    · cases hb : p.has_attn_bias <;> cases hf : p.use_fp32_qkv_grad <;>
        simp [batched_backward_bp16, BOOL_SWITCH_2, runKernel, throwRuntimeError, h0, hb, hf]
    · by_cases h1 : p.custom_mask_type = 1
      · cases hb : p.has_attn_bias <;> cases hf : p.use_fp32_qkv_grad <;>
          simp [batched_backward_bp16, BOOL_SWITCH_2, runKernel, throwRuntimeError, h1, hb, hf]
      · by_cases h2 : p.custom_mask_type = 2
        · cases hb : p.has_attn_bias <;> cases hf : p.use_fp32_qkv_grad <;>
            simp [batched_backward_bp16, BOOL_SWITCH_2, runKernel, throwRuntimeError, h2, hb, hf]
        · cases hb : p.has_attn_bias <;> cases hf : p.use_fp32_qkv_grad <;>
            simp [batched_backward_bp16, BOOL_SWITCH_2, runKernel, throwRuntimeError, h0, h1,
              h2, hb, hf]
  · by_cases h0 : q.custom_mask_type = 0
    · cases hb : q.has_attn_bias <;>
        simp [grouped_backward_bp16, runKernel, throwRuntimeError, h0, hb]
    · by_cases h1 : q.custom_mask_type = 1
      · cases hb : q.has_attn_bias <;>
          simp [grouped_backward_bp16, runKernel, throwRuntimeError, h1, hb]
      · by_cases h2 : q.custom_mask_type = 2
        · cases hb : q.has_attn_bias <;>
            simp [grouped_backward_bp16, runKernel, throwRuntimeError, h2, hb]
        · cases hb : q.has_attn_bias <;>
            simp [grouped_backward_bp16, runKernel, throwRuntimeError, h0, h1, h2, hb]
  · by_cases h0 : r.custom_mask_type = 0
    · simp [batched_infer_fp16, runKernel, throwRuntimeError, h0]
    · by_cases h1 : r.custom_mask_type = 1
      · simp [batched_infer_fp16, runKernel, throwRuntimeError, h1]
      · by_cases h2 : r.custom_mask_type = 2
        · simp [batched_infer_fp16, runKernel, throwRuntimeError, h2]
        · simp [batched_infer_fp16, runKernel, throwRuntimeError, h0, h1, h2]

/-- Witness for C10: mask type 3 is rejected by all three dispatchers before
any kernel runs. -/
theorem dispatchers_invalid_mask_type_witness :
    ((batched_backward_bp16 (exBatchedBackwardParams 3 false false)).error =
        some "Invalid custom_mask_type value" ∧
      (batched_backward_bp16 (exBatchedBackwardParams 3 false false)).invoked = []) ∧
    ((grouped_backward_bp16 (exGroupedBackwardDispatchParams 3 false)).error =
        some "Invalid custom_mask_type value" ∧
      (grouped_backward_bp16 (exGroupedBackwardDispatchParams 3 false)).invoked = []) ∧
    ((batched_infer_fp16 (exBatchedForwardParams 3)).error =
        some "Invalid custom_mask_type value" ∧
      (batched_infer_fp16 (exBatchedForwardParams 3)).invoked = []) := by
  obtain ⟨⟨a1, a2, -⟩, ⟨b1, b2, -⟩, ⟨c1, c2, -⟩⟩ :=
    dispatchers_invalid_mask_type (exBatchedBackwardParams 3 false false)
      (exGroupedBackwardDispatchParams 3 false) (exBatchedForwardParams 3)
  have ea := a1.mpr (by decide)
  have eb := b1.mpr (by decide)
  have ec := c1.mpr (by decide)
  exact ⟨⟨ea, a2 (by rw [ea]; simp)⟩, ⟨eb, b2 (by rw [eb]; simp)⟩, ⟨ec, c2 (by rw [ec]; simp)⟩⟩

/-- C11: the legacy head-dim selector (`BATCHED_INFER_HEADDIM_SWITCH`,
`GROUPED_FORWARD_HEADDIM_SWITCH`, and `grouped_infer` `Run`) is total and picks
by threshold: `(32, 1, 1)` when `max(K, Kv) <= 32`, `(64, 2, 2)` when
`32 < max(K, Kv) <= 64`, `(128, 4, 4)` otherwise; the body is run exactly once,
with the constants of that bucket; and whenever `max(K, Kv) <= 128` the
selected `kGemm1NPerBlock` is the smallest of {32, 64, 128} that is at least
`max(K, Kv)`. -/
theorem legacy_headdim_switch_by_threshold (K Kv : Int) :
    (∀ (β : Type) (body : Int → Int → Int → β),
      BATCHED_INFER_HEADDIM_SWITCH K Kv body =
        body (headDimBucket K Kv).1 (headDimBucket K Kv).2.1 (headDimBucket K Kv).2.2 ∧
      GROUPED_FORWARD_HEADDIM_SWITCH K Kv body =
        body (headDimBucket K Kv).1 (headDimBucket K Kv).2.1 (headDimBucket K Kv).2.2) ∧
    (∀ body : Int → Int → Int → List DeviceOpInstanceArgs,
      (∀ a b c, (body a b c).length = 1) →
      (BATCHED_INFER_HEADDIM_SWITCH K Kv body).length = 1 ∧
        (GROUPED_FORWARD_HEADDIM_SWITCH K Kv body).length = 1) ∧
    (∀ param : GroupedForwardParams, param.K = K → param.Kv = Kv →
      grouped_infer_Run param =
        [{ kGemm1NPerBlock := (headDimBucket K Kv).1
           kGemm1NXdlPerWave := (headDimBucket K Kv).2.1
           kCShuffleNXdlPerWavePerShuffle := (headDimBucket K Kv).2.2
           kABBlockTransferSrcScalarPerVector := 1
           kB1BlockTransferSrcScalarPerVector := 1
           kCShuffleBlockTransferScalarPerVector := 1 }]) ∧
    (max K Kv ≤ 32 → headDimBucket K Kv = (32, 1, 1)) ∧
    (32 < max K Kv → max K Kv ≤ 64 → headDimBucket K Kv = (64, 2, 2)) ∧
    (64 < max K Kv → headDimBucket K Kv = (128, 4, 4)) ∧
    (max K Kv ≤ 128 →
      max K Kv ≤ (headDimBucket K Kv).1 ∧
      ((headDimBucket K Kv).1 = 32 ∨ (headDimBucket K Kv).1 = 64 ∨
        (headDimBucket K Kv).1 = 128) ∧
      ∀ c : Int, c = 32 ∨ c = 64 ∨ c = 128 → max K Kv ≤ c → (headDimBucket K Kv).1 ≤ c) := by
  have h32 : (K ≤ 32 ∧ Kv ≤ 32) ↔ max K Kv ≤ 32 := by simp [max_le_iff]
  have h64 : (K ≤ 64 ∧ Kv ≤ 64) ↔ max K Kv ≤ 64 := by simp [max_le_iff]
  have hsw : ∀ (β : Type) (body : Int → Int → Int → β),
      BATCHED_INFER_HEADDIM_SWITCH K Kv body =
        body (headDimBucket K Kv).1 (headDimBucket K Kv).2.1 (headDimBucket K Kv).2.2 ∧
      GROUPED_FORWARD_HEADDIM_SWITCH K Kv body =
        body (headDimBucket K Kv).1 (headDimBucket K Kv).2.1 (headDimBucket K Kv).2.2 := by
    intro β body
    unfold BATCHED_INFER_HEADDIM_SWITCH GROUPED_FORWARD_HEADDIM_SWITCH headDimBucket
    simp only [h32, h64]
    by_cases a : max K Kv ≤ 32
    · simp [a]
    · by_cases b : max K Kv ≤ 64
      · simp [a, b]
      · simp [a, b]
  refine ⟨hsw, ?_, ?_, ?_, ?_, ?_, ?_⟩
  · intro body hb
    rw [(hsw _ body).1, (hsw _ body).2]
    exact ⟨hb _ _ _, hb _ _ _⟩
  · intro param hK hKv
    unfold grouped_infer_Run headDimBucket
    rw [hK, hKv]
    simp only [h32, h64]
    by_cases a : max K Kv ≤ 32
    · simp [a]
    · by_cases b : max K Kv ≤ 64
      · simp [a, b]
      · simp [a, b]
  · intro a
    simp [headDimBucket, a]
  · intro a b
    have : ¬ max K Kv ≤ 32 := by omega
    simp [headDimBucket, this, b]
  · intro a
    have h1 : ¬ max K Kv ≤ 32 := by omega
    have h2 : ¬ max K Kv ≤ 64 := by omega
    simp [headDimBucket, h1, h2]
  · intro hle
    by_cases a : max K Kv ≤ 32
    · have hb : headDimBucket K Kv = (32, 1, 1) := by simp [headDimBucket, a]
      rw [hb]
      refine ⟨a, Or.inl rfl, ?_⟩
      rintro c (rfl | rfl | rfl) _ <;> norm_num
    · by_cases b : max K Kv ≤ 64
      · have hb : headDimBucket K Kv = (64, 2, 2) := by simp [headDimBucket, a, b]
        rw [hb]
        refine ⟨b, Or.inr (Or.inl rfl), ?_⟩
        rintro c (rfl | rfl | rfl) hc
        · exact absurd hc a
        · norm_num
        · norm_num
      · have hb : headDimBucket K Kv = (128, 4, 4) := by simp [headDimBucket, a, b]
        rw [hb]
        refine ⟨hle, Or.inr (Or.inr rfl), ?_⟩
        rintro c (rfl | rfl | rfl) hc
        · exact absurd hc a
        · exact absurd hc b
        · norm_num

/-- Witness for C11: `K = 40`, `Kv = 64` falls in the 64 bucket. -/
theorem legacy_headdim_switch_by_threshold_witness :
    grouped_infer_Run (exGroupedForwardParamsHeadDim 40 64) =
        [{ kGemm1NPerBlock := 64, kGemm1NXdlPerWave := 2, kCShuffleNXdlPerWavePerShuffle := 2,
           kABBlockTransferSrcScalarPerVector := 1, kB1BlockTransferSrcScalarPerVector := 1,
           kCShuffleBlockTransferScalarPerVector := 1 }] ∧
      headDimBucket 40 64 = (64, 2, 2) := by
  obtain ⟨-, -, h3, -, h5, -, -⟩ := legacy_headdim_switch_by_threshold 40 64
  have e := h5 (by decide) (by decide)
  refine ⟨?_, e⟩
  rw [h3 (exGroupedForwardParamsHeadDim 40 64) rfl rfl, e]

/-- C12: the tile-pipeline head-dim selector launches one kernel with the 64
tile shape when `K = Kv = 64`, one with the 128 tile shape when
`K = Kv = 128`, and otherwise fails with "Head-dim sizes not supported!"
without launching a kernel; it succeeds if and only if `K = Kv = 64` or
`K = Kv = 128`. -/
theorem tile_headdim_switch (has_causal_mask has_attn_bias : Bool)
    (param : GroupedForwardParams) :
    (param.K = 64 ∧ param.Kv = 64 →
      ∃ k, grouped_infer_causalmask_attnbias_dispatched_Run has_causal_mask has_attn_bias param =
          { launched := [k], error := none } ∧
        k.shape = FmhaShape.FmhaShapeHDim64) ∧
    (param.K = 128 ∧ param.Kv = 128 →
      ∃ k, grouped_infer_causalmask_attnbias_dispatched_Run has_causal_mask has_attn_bias param =
          { launched := [k], error := none } ∧
        k.shape = FmhaShape.FmhaShapeHDim128) ∧
    (¬ ((param.K = 64 ∧ param.Kv = 64) ∨ (param.K = 128 ∧ param.Kv = 128)) →
      grouped_infer_causalmask_attnbias_dispatched_Run has_causal_mask has_attn_bias param =
        { launched := [], error := some "Head-dim sizes not supported!" }) ∧
    ((grouped_infer_causalmask_attnbias_dispatched_Run has_causal_mask has_attn_bias
        param).error = none ↔
      (param.K = 64 ∧ param.Kv = 64) ∨ (param.K = 128 ∧ param.Kv = 128)) := by
  have h64 : ∀ body, param.K = 64 ∧ param.Kv = 64 →
      GROUPED_INFER_HEADDIM_SWITCH param.K param.Kv body = body FmhaShape.FmhaShapeHDim64 := by
    intro body h
    simp [GROUPED_INFER_HEADDIM_SWITCH, h.1, h.2]
  have h128 : ∀ body, param.K = 128 ∧ param.Kv = 128 →
      GROUPED_INFER_HEADDIM_SWITCH param.K param.Kv body = body FmhaShape.FmhaShapeHDim128 := by
    intro body h
    simp [GROUPED_INFER_HEADDIM_SWITCH, h.1, h.2]
  have hbad : ∀ body, ¬ ((param.K = 64 ∧ param.Kv = 64) ∨ (param.K = 128 ∧ param.Kv = 128)) →
      GROUPED_INFER_HEADDIM_SWITCH param.K param.Kv body =
        { launched := [], error := some "Head-dim sizes not supported!" } := by
    intro body h
    have a : ¬ (param.K = param.Kv ∧ param.Kv = 64) := by
      rintro ⟨e1, e2⟩; exact h (Or.inl ⟨by omega, e2⟩)
    have b : ¬ (param.K = param.Kv ∧ param.Kv = 128) := by
      rintro ⟨e1, e2⟩; exact h (Or.inr ⟨by omega, e2⟩)
    simp [GROUPED_INFER_HEADDIM_SWITCH, a, b]
  have c1 : param.K = 64 ∧ param.Kv = 64 →
      ∃ k, grouped_infer_causalmask_attnbias_dispatched_Run has_causal_mask has_attn_bias param =
          { launched := [k], error := none } ∧
        k.shape = FmhaShape.FmhaShapeHDim64 := by
    intro h
    unfold grouped_infer_causalmask_attnbias_dispatched_Run BOOL_SWITCH
    by_cases hw : param.window_size > 0
    · simp only [hw, if_true, h64 _ h]
      exact ⟨_, rfl, rfl⟩
    · simp only [hw, if_false, Bool.false_eq_true, h64 _ h]
      exact ⟨_, rfl, rfl⟩
  have c2 : param.K = 128 ∧ param.Kv = 128 →
      ∃ k, grouped_infer_causalmask_attnbias_dispatched_Run has_causal_mask has_attn_bias param =
          { launched := [k], error := none } ∧
        k.shape = FmhaShape.FmhaShapeHDim128 := by
    intro h
    unfold grouped_infer_causalmask_attnbias_dispatched_Run BOOL_SWITCH
    by_cases hw : param.window_size > 0
    · simp only [hw, if_true, h128 _ h]
      exact ⟨_, rfl, rfl⟩
    · simp only [hw, if_false, Bool.false_eq_true, h128 _ h]
      exact ⟨_, rfl, rfl⟩
  have c3 : ¬ ((param.K = 64 ∧ param.Kv = 64) ∨ (param.K = 128 ∧ param.Kv = 128)) →
      grouped_infer_causalmask_attnbias_dispatched_Run has_causal_mask has_attn_bias param =
        { launched := [], error := some "Head-dim sizes not supported!" } := by
    intro h
    unfold grouped_infer_causalmask_attnbias_dispatched_Run BOOL_SWITCH
    by_cases hw : param.window_size > 0
    · simp only [hw, if_true, hbad _ h]
    · simp only [hw, if_false, Bool.false_eq_true, hbad _ h]
  refine ⟨c1, c2, c3, ?_⟩
  constructor
  · intro he
    by_contra hn
    rw [c3 hn] at he
    simp at he
  · rintro (h | h)
    · obtain ⟨k, hk, -⟩ := c1 h
      rw [hk]
    · obtain ⟨k, hk, -⟩ := c2 h
      rw [hk]

/-- Witness for C12: head dimensions 64 launch the 64 tile shape, head
dimensions (64, 128) are refused. -/
theorem tile_headdim_switch_witness :
    (∃ k, grouped_infer_causalmask_attnbias_dispatched_Run true false
          (exGroupedForwardParamsHeadDim 64 64) = { launched := [k], error := none } ∧
        k.shape = FmhaShape.FmhaShapeHDim64) ∧
    grouped_infer_causalmask_attnbias_dispatched_Run true false
        (exGroupedForwardParamsHeadDim 64 128) =
      { launched := [], error := some "Head-dim sizes not supported!" } :=
  ⟨(tile_headdim_switch true false (exGroupedForwardParamsHeadDim 64 64)).1 ⟨rfl, rfl⟩,
    (tile_headdim_switch true false (exGroupedForwardParamsHeadDim 64 128)).2.2.1 (by decide)⟩

/-- C13: in `batched_infer` and `grouped_forward` `Run`, for the head-dim
bucket selected, with positive thread-slice lengths, and with `ALIGN_SWITCH_2`
binding each name to a width between 1 and its maximum: exactly one device op
is instantiated, and its widths satisfy
`kABBlockTransferSrcScalarPerVector <= min(8, thread_slice_length_ak1)`,
`kB1BlockTransferSrcScalarPerVector <= min(cap, thread_slice_length_gemm1n)`
(`cap` = 4 in batched_infer, 2 in grouped_forward) and
`kCShuffleBlockTransferScalarPerVector <= min(4, thread_slice_length_cshuflle_n)`;
in either branch of the `if constexpr` the width derived by `min()` does not
exceed the width selected from `Kv`. -/
theorem legacy_Run_vector_widths (c : GemmOpConstants) (select : Int → Int → Int)
    (K Kv : Int)
    (hsel : ∀ mx len, 1 ≤ mx → 1 ≤ select mx len ∧ select mx len ≤ mx)
    (hak1 : 0 < thread_slice_length_ak1 c)
    (hgemm1n : 0 < thread_slice_length_gemm1n c (headDimBucket K Kv).1)
    (hcsh : 0 < thread_slice_length_cshuflle_n c (headDimBucket K Kv).1
      (headDimBucket K Kv).2.1 (headDimBucket K Kv).2.2) :
    (∀ param : BatchedForwardParams, param.K = K → param.Kv = Kv →
      ∃ inst, batched_infer_Run c select param = [inst] ∧
        inst.kGemm1NPerBlock = (headDimBucket K Kv).1 ∧
        inst.kABBlockTransferSrcScalarPerVector ≤ min 8 (thread_slice_length_ak1 c) ∧
        inst.kB1BlockTransferSrcScalarPerVector ≤
          min 4 (thread_slice_length_gemm1n c (headDimBucket K Kv).1) ∧
        inst.kCShuffleBlockTransferScalarPerVector ≤
          min 4 (thread_slice_length_cshuflle_n c (headDimBucket K Kv).1
            (headDimBucket K Kv).2.1 (headDimBucket K Kv).2.2) ∧
        (min 4 (thread_slice_length_gemm1n c (headDimBucket K Kv).1) ≥
            min 4 (thread_slice_length_cshuflle_n c (headDimBucket K Kv).1
              (headDimBucket K Kv).2.1 (headDimBucket K Kv).2.2) →
          inst.kB1BlockTransferSrcScalarPerVector =
              select (min 4 (thread_slice_length_gemm1n c (headDimBucket K Kv).1)) Kv ∧
            inst.kCShuffleBlockTransferScalarPerVector ≤
              inst.kB1BlockTransferSrcScalarPerVector) ∧
        (¬ min 4 (thread_slice_length_gemm1n c (headDimBucket K Kv).1) ≥
            min 4 (thread_slice_length_cshuflle_n c (headDimBucket K Kv).1
              (headDimBucket K Kv).2.1 (headDimBucket K Kv).2.2) →
          inst.kCShuffleBlockTransferScalarPerVector =
              select (min 4 (thread_slice_length_cshuflle_n c (headDimBucket K Kv).1
                (headDimBucket K Kv).2.1 (headDimBucket K Kv).2.2)) Kv ∧
            inst.kB1BlockTransferSrcScalarPerVector ≤
              inst.kCShuffleBlockTransferScalarPerVector)) ∧
    (∀ param : GroupedForwardParams, param.K = K → param.Kv = Kv →
      ∃ inst, grouped_forward_Run c select param = [inst] ∧
        inst.kGemm1NPerBlock = (headDimBucket K Kv).1 ∧
        inst.kABBlockTransferSrcScalarPerVector ≤ min 8 (thread_slice_length_ak1 c) ∧
        inst.kB1BlockTransferSrcScalarPerVector ≤
          min 2 (thread_slice_length_gemm1n c (headDimBucket K Kv).1) ∧
        inst.kCShuffleBlockTransferScalarPerVector ≤
          min 4 (thread_slice_length_cshuflle_n c (headDimBucket K Kv).1
            (headDimBucket K Kv).2.1 (headDimBucket K Kv).2.2) ∧
        (min 2 (thread_slice_length_gemm1n c (headDimBucket K Kv).1) ≥
            min 4 (thread_slice_length_cshuflle_n c (headDimBucket K Kv).1
              (headDimBucket K Kv).2.1 (headDimBucket K Kv).2.2) →
          inst.kB1BlockTransferSrcScalarPerVector =
              select (min 2 (thread_slice_length_gemm1n c (headDimBucket K Kv).1)) Kv ∧
            inst.kCShuffleBlockTransferScalarPerVector ≤
              inst.kB1BlockTransferSrcScalarPerVector) ∧
        (¬ min 2 (thread_slice_length_gemm1n c (headDimBucket K Kv).1) ≥
            min 4 (thread_slice_length_cshuflle_n c (headDimBucket K Kv).1
              (headDimBucket K Kv).2.1 (headDimBucket K Kv).2.2) →
          inst.kCShuffleBlockTransferScalarPerVector =
              select (min 4 (thread_slice_length_cshuflle_n c (headDimBucket K Kv).1
                (headDimBucket K Kv).2.1 (headDimBucket K Kv).2.2)) Kv ∧
            inst.kB1BlockTransferSrcScalarPerVector ≤
              inst.kCShuffleBlockTransferScalarPerVector)) := by
  have hab : 1 ≤ min 8 (thread_slice_length_ak1 c) := le_min (by norm_num) (by omega)
  have hsw := headdim_switch_eq_bucket K Kv
  constructor
  · intro param hK hKv
    unfold batched_infer_Run
    rw [hK, hKv, (hsw _ _).1]
    obtain ⟨inst, e, a1, -, -, a4, a5, a6, a7, a8⟩ :=
      legacy_Run_body_widths c select 4 K Kv _ _ _ _ hsel (by norm_num) hab hgemm1n hcsh
    exact ⟨inst, e, a1, a4, a5, a6, a7, a8⟩
  · intro param hK hKv
    unfold grouped_forward_Run
    rw [hK, hKv, (hsw _ _).2]
    obtain ⟨inst, e, a1, -, -, a4, a5, a6, a7, a8⟩ :=
      legacy_Run_body_widths c select 2 K Kv _ _ _ _ hsel (by norm_num) hab hgemm1n hcsh
    exact ⟨inst, e, a1, a4, a5, a6, a7, a8⟩

/-- Witness for C13: `K = Kv = 64` with `AK1 = 8` and thread clusters
`S<4, 64, 1>`, `S<16, 16, 1>`, `S<1, 32, 1, 8>`. -/
theorem legacy_Run_vector_widths_witness :
    (∃ inst, batched_infer_Run exGemmOpConstants exAlignSelect (exBatchedForwardParamsHeadDim 64 64)
          = [inst] ∧
        inst.kABBlockTransferSrcScalarPerVector ≤ 8 ∧
        inst.kB1BlockTransferSrcScalarPerVector ≤ 4 ∧
        inst.kCShuffleBlockTransferScalarPerVector ≤ 4) ∧
    (∃ inst, grouped_forward_Run exGemmOpConstants exAlignSelect
          (exGroupedForwardParamsHeadDim 64 64) = [inst] ∧
        inst.kABBlockTransferSrcScalarPerVector ≤ 8 ∧
        inst.kB1BlockTransferSrcScalarPerVector ≤ 2 ∧
        inst.kCShuffleBlockTransferScalarPerVector ≤ 4) := by
  have hsel : ∀ mx len, 1 ≤ mx → 1 ≤ exAlignSelect mx len ∧ exAlignSelect mx len ≤ mx := by
    intro mx len hmx
    unfold exAlignSelect
    split_ifs with h1 h2 h3
    · exact ⟨hmx, le_refl _⟩
    · exact ⟨by omega, by omega⟩
    · exact ⟨by omega, by omega⟩
    · exact ⟨le_refl _, hmx⟩
  obtain ⟨hb, hg⟩ := legacy_Run_vector_widths exGemmOpConstants exAlignSelect 64 64 hsel
    (by decide) (by decide) (by decide)
  obtain ⟨i1, e1, -, a1, a2, a3, -, -⟩ := hb (exBatchedForwardParamsHeadDim 64 64) rfl rfl
  obtain ⟨i2, e2, -, b1, b2, b3, -, -⟩ := hg (exGroupedForwardParamsHeadDim 64 64) rfl rfl
  exact ⟨⟨i1, e1, le_trans a1 (min_le_left _ _), le_trans a2 (min_le_left _ _),
      le_trans a3 (min_le_left _ _)⟩,
    ⟨i2, e2, le_trans b1 (min_le_left _ _), le_trans b2 (min_le_left _ _),
      le_trans b3 (min_le_left _ _)⟩⟩

/-- C14: the shape checks at the head of `efficient_attention_backward_ck`
pass if and only if query, key, value and grad_out are 4-D, their batch sizes
agree, key/value and query/grad_out agree on the sequence length, `Hq % Hkv`
is defined and zero, key/value and query/grad_out agree on the head count,
query/key and value/grad_out agree on the feature width, and out has the sizes
and the strides of grad_out; when they do not pass, the call raises their error
and issues no device work. -/
theorem backward_shape_checks_pass_iff (a : BackwardArgs) :
    (efficient_attention_backward_ck_shape_checks a = .ok () ↔
      (a.query.meta.sizes.length = 4 ∧ a.key.meta.sizes.length = 4 ∧
        a.value.meta.sizes.length = 4 ∧ a.grad_out.sizes.length = 4) ∧
      (a.query.meta.sizes.getD 0 0 = a.grad_out.sizes.getD 0 0 ∧
        a.query.meta.sizes.getD 0 0 = a.key.meta.sizes.getD 0 0 ∧
        a.query.meta.sizes.getD 0 0 = a.value.meta.sizes.getD 0 0) ∧
      (a.key.meta.sizes.getD 1 0 = a.value.meta.sizes.getD 1 0 ∧
        a.query.meta.sizes.getD 1 0 = a.grad_out.sizes.getD 1 0) ∧
      (a.key.meta.sizes.getD 2 0 ≠ 0 ∧
        Int.tmod (a.query.meta.sizes.getD 2 0) (a.key.meta.sizes.getD 2 0) = 0 ∧
        a.key.meta.sizes.getD 2 0 = a.value.meta.sizes.getD 2 0 ∧
        a.query.meta.sizes.getD 2 0 = a.grad_out.sizes.getD 2 0) ∧
      (a.query.meta.sizes.getD 3 0 = a.key.meta.sizes.getD 3 0 ∧
        a.value.meta.sizes.getD 3 0 = a.grad_out.sizes.getD 3 0) ∧
      a.out.sizes = a.grad_out.sizes ∧ a.out.strides = a.grad_out.strides) ∧
    (∀ e, efficient_attention_backward_ck_shape_checks a = .error e →
      (efficient_attention_backward_ck a).effects = [] ∧
      (efficient_attention_backward_ck a).result = .error e) ∧
    (efficient_attention_backward_ck_shape_checks a = .ok () ∨
      ∃ e, efficient_attention_backward_ck_shape_checks a = .error e) := by
  refine ⟨shape_checks_ok_iff a, ?_, ?_⟩
  · intro e he
    have h1 : efficient_attention_backward_ck_prepare a =
        { effects := [], result := .error e } := by
      unfold efficient_attention_backward_ck_prepare
      rw [he]
      rfl
    unfold efficient_attention_backward_ck
    rw [h1]
    exact ⟨rfl, rfl⟩
  · cases efficient_attention_backward_ck_shape_checks a with
    | error e => exact Or.inr ⟨e, rfl⟩
    | ok u => exact Or.inl rfl

/-- C19: when query, key and value alias one storage and `M = N`, `K = Kv`,
`Hq = Hkv`, the gradients are the slices 0, 1, 2 along axis 2 of one newly
allocated contiguous chunk of shape `[B, M, 3, Hq, K]` (sizes `[B, M, Hq, K]`,
strides `[3*M*Hq*K, 3*Hq*K, K, 1]`, storage offset `j*Hq*K`, pairwise disjoint,
covering the chunk); otherwise, when key and value alias and `K = Kv`, `grad_k`
and `grad_v` are the slices 0, 1 of one `[B, N, 2, Hkv, Kv]` chunk. Extents
are positive (for an axis of extent 0 `at::empty` counts it as 1 in the
strides). -/
theorem aliased_gradient_chunks (a : BackwardArgs) (use_fp32_qkv_grad : Bool)
    (B M N Hq Hkv K Kv : Int) :
    (a.query.meta.sizes = [B, M, Hq, K] ∧ a.key.meta.sizes = [B, N, Hkv, K] ∧
      a.value.meta.sizes = [B, N, Hkv, Kv] ∧
      a.query.storage = a.key.storage ∧ a.query.storage = a.value.storage ∧
      M = N ∧ K = Kv ∧ Hq = Hkv ∧ 0 < M ∧ 0 < Hq ∧ 0 < K →
      ∃ grad_q grad_k grad_v : GradTensor,
        efficient_attention_backward_ck_allocate a use_fp32_qkv_grad B M N Hq Hkv K Kv =
          { effects :=
              [.device_alloc (at_empty_like Allocation.chunk [B, M, 3, Hq, K]
                  (if use_fp32_qkv_grad then ScalarType.kFloat else a.query.meta.dtype)
                  a.query.meta),
               .device_fill_zero grad_q],
            result := .ok (grad_q, grad_k, grad_v) } ∧
        SlicesOfChunk
          (at_empty_like Allocation.chunk [B, M, 3, Hq, K]
            (if use_fp32_qkv_grad then ScalarType.kFloat else a.query.meta.dtype) a.query.meta)
          [grad_q, grad_k, grad_v] B M Hq K) ∧
    (a.query.meta.sizes = [B, M, Hq, K] ∧ a.key.meta.sizes = [B, N, Hkv, K] ∧
      a.value.meta.sizes = [B, N, Hkv, Kv] ∧
      ¬(M = N ∧ K = Kv ∧ Hq = Hkv ∧ a.query.storage = a.key.storage ∧
          a.query.storage = a.value.storage) ∧
      a.key.storage = a.value.storage ∧ K = Kv ∧ 0 < N ∧ 0 < Hkv ∧ 0 < Kv →
      ∃ grad_q grad_k grad_v : GradTensor,
        efficient_attention_backward_ck_allocate a use_fp32_qkv_grad B M N Hq Hkv K Kv =
          { effects :=
              [.device_alloc (at_empty_like Allocation.chunk [B, N, 2, Hkv, Kv]
                  (if use_fp32_qkv_grad then ScalarType.kFloat else a.query.meta.dtype)
                  a.query.meta),
               .device_alloc grad_q, .device_fill_zero grad_q],
            result := .ok (grad_q, grad_k, grad_v) } ∧
        grad_q = at_empty_strided_like Allocation.grad_q
          (if use_fp32_qkv_grad then ScalarType.kFloat else a.query.meta.dtype) a.query.meta ∧
        SlicesOfChunk
          (at_empty_like Allocation.chunk [B, N, 2, Hkv, Kv]
            (if use_fp32_qkv_grad then ScalarType.kFloat else a.query.meta.dtype) a.query.meta)
          [grad_k, grad_v] B N Hkv Kv) := by
  constructor
  · rintro ⟨hq, hk, hv, hqk, hqv, rfl, rfl, rfl, hM, hHq, hK⟩
    have s0 := chunk_select_eq Allocation.chunk
      (if use_fp32_qkv_grad then ScalarType.kFloat else a.query.meta.dtype) a.query.meta
      B M 3 Hq K 0 hM (by decide) hHq hK (by decide) (by decide)
    have s1 := chunk_select_eq Allocation.chunk
      (if use_fp32_qkv_grad then ScalarType.kFloat else a.query.meta.dtype) a.query.meta
      B M 3 Hq K 1 hM (by decide) hHq hK (by decide) (by decide)
    have s2 := chunk_select_eq Allocation.chunk
      (if use_fp32_qkv_grad then ScalarType.kFloat else a.query.meta.dtype) a.query.meta
      B M 3 Hq K 2 hM (by decide) hHq hK (by decide) (by decide)
    refine ⟨chunkSlice Allocation.chunk
        (if use_fp32_qkv_grad then ScalarType.kFloat else a.query.meta.dtype) a.query.meta B M 3 Hq K 0,
      chunkSlice Allocation.chunk
        (if use_fp32_qkv_grad then ScalarType.kFloat else a.query.meta.dtype) a.query.meta B M 3 Hq K 1,
      chunkSlice Allocation.chunk
        (if use_fp32_qkv_grad then ScalarType.kFloat else a.query.meta.dtype) a.query.meta B M 3 Hq K 2, ?_, ?_⟩
    · unfold efficient_attention_backward_ck_allocate
      simp only [TensorMeta.size, hq, hk, hv, List.getElem?_cons_succ, List.getElem?_cons_zero,
        hostStep_ok_bind, true_and]
      rw [if_pos ⟨hqk, hqv⟩]
      simp only [emit_bind, s0, s1, s2, hostStep_ok_bind]
      rfl
    · refine slicesOfChunk_of_eq _ _ _ B M Hq K _ 3 hM hHq hK rfl ?_ ?_
      · exact Nat.succ_pos _
      intro j g hj
      match j, hj with
      | 0, hj => simp at hj; subst hj; simp
      | 1, hj => simp at hj; subst hj; simp
      | 2, hj => simp at hj; subst hj; simp
  · rintro ⟨hq, hk, hv, hn, hkv, rfl, hN, hHkv, hKv⟩
    have s0 := chunk_select_eq Allocation.chunk
      (if use_fp32_qkv_grad then ScalarType.kFloat else a.query.meta.dtype) a.query.meta
      B N 2 Hkv K 0 hN (by decide) hHkv hKv (by decide) (by decide)
    have s1 := chunk_select_eq Allocation.chunk
      (if use_fp32_qkv_grad then ScalarType.kFloat else a.query.meta.dtype) a.query.meta
      B N 2 Hkv K 1 hN (by decide) hHkv hKv (by decide) (by decide)
    have hn' : ¬(M = N ∧ Hq = Hkv ∧ a.query.storage = a.key.storage ∧
        a.query.storage = a.value.storage) := fun h => hn ⟨h.1, rfl, h.2⟩
    refine ⟨at_empty_strided_like Allocation.grad_q
        (if use_fp32_qkv_grad then ScalarType.kFloat else a.query.meta.dtype) a.query.meta,
      chunkSlice Allocation.chunk
        (if use_fp32_qkv_grad then ScalarType.kFloat else a.query.meta.dtype) a.query.meta B N 2 Hkv K 0,
      chunkSlice Allocation.chunk
        (if use_fp32_qkv_grad then ScalarType.kFloat else a.query.meta.dtype) a.query.meta B N 2 Hkv K 1, ?_, rfl, ?_⟩
    · unfold efficient_attention_backward_ck_allocate
      simp only [TensorMeta.size, hq, hk, hv, List.getElem?_cons_succ, List.getElem?_cons_zero,
        hostStep_ok_bind, true_and]
      rw [if_neg hn', if_pos hkv]
      simp only [emit_bind, s0, s1, hostStep_ok_bind]
      rfl
    · refine slicesOfChunk_of_eq _ _ _ B N Hkv K _ 2 hN hHkv hKv rfl ?_ ?_
      · exact Nat.succ_pos _
      intro j g hj
      match j, hj with
      | 0, hj => simp at hj; subst hj; simp
      | 1, hj => simp at hj; subst hj; simp

/-- Witness for `aliased_gradient_chunks`: a packed q/k/v projection
(`exPackedQKVArgs`) and a packed k/v projection (`exPackedKVArgs`). -/
theorem aliased_gradient_chunks_witness :
    (∃ grad_q grad_k grad_v : GradTensor,
      efficient_attention_backward_ck_allocate exPackedQKVArgs false 1 2 2 1 1 4 4 =
        { effects :=
            [.device_alloc (at_empty_like Allocation.chunk [1, 2, 3, 1, 4]
                (if false then ScalarType.kFloat else exPackedQKVArgs.query.meta.dtype)
                exPackedQKVArgs.query.meta),
             .device_fill_zero grad_q],
          result := .ok (grad_q, grad_k, grad_v) } ∧
      SlicesOfChunk
        (at_empty_like Allocation.chunk [1, 2, 3, 1, 4]
          (if false then ScalarType.kFloat else exPackedQKVArgs.query.meta.dtype)
          exPackedQKVArgs.query.meta)
        [grad_q, grad_k, grad_v] 1 2 1 4) ∧
    (∃ grad_q grad_k grad_v : GradTensor,
      efficient_attention_backward_ck_allocate exPackedKVArgs false 1 2 3 1 1 4 4 =
        { effects :=
            [.device_alloc (at_empty_like Allocation.chunk [1, 3, 2, 1, 4]
                (if false then ScalarType.kFloat else exPackedKVArgs.query.meta.dtype)
                exPackedKVArgs.query.meta),
             .device_alloc grad_q, .device_fill_zero grad_q],
          result := .ok (grad_q, grad_k, grad_v) } ∧
      grad_q = at_empty_strided_like Allocation.grad_q
        (if false then ScalarType.kFloat else exPackedKVArgs.query.meta.dtype)
        exPackedKVArgs.query.meta ∧
      SlicesOfChunk
        (at_empty_like Allocation.chunk [1, 3, 2, 1, 4]
          (if false then ScalarType.kFloat else exPackedKVArgs.query.meta.dtype)
          exPackedKVArgs.query.meta)
        [grad_k, grad_v] 1 3 1 4) :=
  ⟨(aliased_gradient_chunks exPackedQKVArgs false 1 2 2 1 1 4 4).1
      ⟨rfl, rfl, rfl, rfl, rfl, rfl, rfl, rfl, by decide, by decide, by decide⟩,
    (aliased_gradient_chunks exPackedKVArgs false 1 2 3 1 1 4 4).2
      ⟨rfl, rfl, rfl, by decide, rfl, rfl, by decide, by decide, by decide⟩⟩

/-- The call `exGeneralArgs [1, 1, 3]` (M = 2, log-sum-exp of shape
`[1, 1, 3]`) ends in the error of the check `p.M == logsumexp.size(2)` after
three device allocations and the zero-fill of `grad_q` have been issued:
against C17. -/
theorem backward_lse_mismatch_raised_after_device_work :
    (efficient_attention_backward_ck (exGeneralArgs [1, 1, 3])).result =
      .error "p.M == logsumexp.size(2)" ∧
    (efficient_attention_backward_ck (exGeneralArgs [1, 1, 3])).effects =
      [.device_alloc (at_empty_strided_like Allocation.grad_q ScalarType.kBFloat16
          (exGeneralArgs [1, 1, 3]).query.meta),
       .device_alloc (at_empty_strided_like Allocation.grad_k ScalarType.kBFloat16
          (exGeneralArgs [1, 1, 3]).key.meta),
       .device_alloc (at_empty_strided_like Allocation.grad_v ScalarType.kBFloat16
          (exGeneralArgs [1, 1, 3]).value.meta),
       .device_fill_zero (at_empty_strided_like Allocation.grad_q ScalarType.kBFloat16
          (exGeneralArgs [1, 1, 3]).query.meta)] := by
  rw [exGeneralArgs_lse_mismatch]
  exact ⟨rfl, rfl⟩

/-- C17 (amended): a failure of the checks at the head of
`efficient_attention_backward_ck` (shape, device and layout, offsets; lines
57-107), or of `std::stoi` on the environment variable (line 113), is raised
before any device work. Once these have passed, the trace of the call begins
with the device work of lines 129-189, whatever happens later:
one or more allocations, the last effect being the zero-fill of `grad_q`; so
every later failure is raised after them. Whenever the call ends in an error,
the device work before it consists of allocations, zero-fills and the
workspace of the kernel instance: no kernel launch and no reduction precedes
the error. A kernel instance that has allocated its workspace raises "<type
string> does not support this problem" right after it if the device op rejects
the argument, and launches its kernel otherwise. -/
theorem backward_errors_precede_kernel_launch (a : BackwardArgs) :
    (∀ e,
      (efficient_attention_backward_ck_shape_checks a = .error e ∨
        (efficient_attention_backward_ck_shape_checks a = .ok () ∧
          efficient_attention_backward_ck_device_checks a = .error e) ∨
        (efficient_attention_backward_ck_shape_checks a = .ok () ∧
          efficient_attention_backward_ck_device_checks a = .ok () ∧
          efficient_attention_backward_ck_seqstart_checks a = .error e) ∨
        (efficient_attention_backward_ck_shape_checks a = .ok () ∧
          efficient_attention_backward_ck_device_checks a = .ok () ∧
          efficient_attention_backward_ck_seqstart_checks a = .ok () ∧
          read_USE_FP32_QKV_GRAD a.env_USE_FP32_QKV_GRAD = .error e)) →
      efficient_attention_backward_ck a = { effects := [], result := .error e }) ∧
    (∀ use_fp32_qkv_grad,
      efficient_attention_backward_ck_shape_checks a = .ok () →
      efficient_attention_backward_ck_device_checks a = .ok () →
      efficient_attention_backward_ck_seqstart_checks a = .ok () →
      read_USE_FP32_QKV_GRAD a.env_USE_FP32_QKV_GRAD = .ok use_fp32_qkv_grad →
      ∃ (la rest mid : List Effect) (t grad_q grad_k grad_v : GradTensor),
        (efficient_attention_backward_ck_allocate a use_fp32_qkv_grad
          (a.query.meta.sizes.getD 0 0) (a.query.meta.sizes.getD 1 0)
          (a.key.meta.sizes.getD 1 0) (a.query.meta.sizes.getD 2 0)
          (a.key.meta.sizes.getD 2 0) (a.query.meta.sizes.getD 3 0)
          (a.value.meta.sizes.getD 3 0)).Returns la (grad_q, grad_k, grad_v) ∧
        (efficient_attention_backward_ck a).effects = la ++ rest ∧
        la = Effect.device_alloc t :: (mid ++ [Effect.device_fill_zero grad_q]) ∧
        (∀ x ∈ mid, ∃ t', x = Effect.device_alloc t')) ∧
    (∀ e, (efficient_attention_backward_ck a).result = .error e →
      ∀ x ∈ (efficient_attention_backward_ck a).effects,
        (∃ t, x = Effect.device_alloc t) ∨ (∃ t, x = Effect.device_fill_zero t) ∨
          (∃ c, x = Effect.workspace_alloc c)) ∧
    (∀ c, Effect.workspace_alloc c ∈ (efficient_attention_backward_ck a).effects →
      (a.device_op.IsSupportedArgument c = false →
        (efficient_attention_backward_ck a).result =
          .error (a.device_op.GetTypeString c ++ " does not support this problem") ∧
        (efficient_attention_backward_ck a).effects =
          (efficient_attention_backward_ck_prepare a).effects ++ [Effect.workspace_alloc c]) ∧
      (a.device_op.IsSupportedArgument c = true →
        ∃ post g, (efficient_attention_backward_ck a).result = .ok g ∧
          (efficient_attention_backward_ck a).effects =
            (efficient_attention_backward_ck_prepare a).effects ++
              (Effect.workspace_alloc c :: Effect.kernel_launch c :: post))) := by
  have hprep : ∀ c, Effect.workspace_alloc c ∉
      (efficient_attention_backward_ck_prepare a).effects := by
    intro c hc
    rcases prepare_effects a _ hc with ⟨t, ht⟩ | ⟨t, ht⟩ <;> simp at ht
  refine ⟨?_, ?_, ?_, ?_⟩
  · intro e h
    rcases h with h | h | h | ⟨h1, h2, h3, h4⟩
    · exact run_of_head_error a e (Or.inl h)
    · exact run_of_head_error a e (Or.inr (Or.inl h))
    · exact run_of_head_error a e (Or.inr (Or.inr h))
    · exact run_of_stoi_error a e h1 h2 h3 h4
  · intro uf h1 h2 h3 h4
    obtain ⟨la, rest, ⟨gq, gk, gv⟩, hal, hp⟩ := prepare_effects_prefix a uf h1 h2 h3 h4
    obtain ⟨rest', hr⟩ := call_effects_prefix a
    obtain ⟨t, mid, hla, hmid⟩ := allocate_returns_shape _ _ _ _ _ _ _ _ _ _ _ _ _ hal
    exact ⟨la, rest ++ rest', mid, t, gq, gk, gv, hal, by rw [hr, hp, List.append_assoc], hla,
      hmid⟩
  · intro e he
    rcases run_cases a with ⟨e', -, hr⟩ | ⟨s, -, ⟨e', hl, hr⟩ | ⟨lf, g, -, -, hr⟩⟩
    · rw [hr]
      intro x hx
      rcases prepare_effects a x hx with h | h
      · exact Or.inl h
      · exact Or.inr (Or.inl h)
    · rw [hr]
      intro x hx
      rcases List.mem_append.1 hx with hx | hx
      · rcases prepare_effects a x hx with h | h
        · exact Or.inl h
        · exact Or.inr (Or.inl h)
      · exact Or.inr (Or.inr (launch_error_effects a s e' hl x hx))
    · rw [hr] at he
      exact absurd he (by simp)
  · intro c hc
    rcases run_cases a with ⟨e', -, hr⟩ | ⟨s, hs, ⟨e', hl, hr⟩ | ⟨lf, g, hl, hf, hr⟩⟩
    · rw [hr] at hc
      exact absurd hc (hprep c)
    · rw [hr] at hc ⊢
      rcases List.mem_append.1 hc with hc | hc
      · exact absurd hc (hprep c)
      · rcases launch_ends a s with ⟨e'', h'⟩ | ⟨c', hc', h'⟩ | ⟨c', hc', h'⟩
        · rw [h'] at hc
          simp at hc
        · rw [h'] at hc hl ⊢
          simp only [List.mem_singleton, Effect.workspace_alloc.injEq] at hc
          subst hc
          simp only [Except.error.injEq] at hl
          subst hl
          refine ⟨fun _ => ⟨rfl, rfl⟩, fun ht => ?_⟩
          rw [hc'] at ht
          exact absurd ht (by decide)
        · rw [h'] at hl
          simp at hl
    · rw [hr] at hc ⊢
      obtain ⟨lf', g', hf', hlf, -⟩ := finish_returns_of_prepare a _ s ⟨rfl, hs⟩
      obtain ⟨rfl, rfl⟩ := returns_unique _ _ _ _ _ hf hf'
      rcases launch_ends a s with ⟨e'', h'⟩ | ⟨c', hc', h'⟩ | ⟨c', hc', h'⟩
      · rw [h'] at hl
        simp at hl
      · rw [h'] at hl
        simp at hl
      · rw [h'] at hc ⊢
        have hcc : c = c' := by
          rcases List.mem_append.1 hc with hc | hc
          · exact absurd hc (hprep c)
          · rcases List.mem_append.1 hc with hc | hc
            · simp at hc
              exact hc
            · obtain ⟨x, y, hxy⟩ := hlf _ hc
              simp at hxy
        subst hcc
        refine ⟨fun hf => ?_, fun _ => ⟨lf, g, rfl, by simp⟩⟩
        rw [hc'] at hf
        exact absurd hf (by decide)

/-- Witness for `backward_errors_precede_kernel_launch`: on the call
`exUnsupportedArgs`, whose device op rejects the argument, the error of the
kernel instance is raised after three allocations, the zero-fill of `grad_q`
and the instance's workspace allocation. -/
theorem backward_errors_precede_kernel_launch_witness :
    (efficient_attention_backward_ck exUnsupportedArgs).result =
      .error (exUnsupportedArgs.device_op.GetTypeString
          (.run_batched_backward_masktype_attnbias_dispatched CkType.bhalf_t 0 true false) ++
        " does not support this problem") ∧
    (efficient_attention_backward_ck exUnsupportedArgs).effects =
      (efficient_attention_backward_ck_prepare exUnsupportedArgs).effects ++
        [Effect.workspace_alloc
          (.run_batched_backward_masktype_attnbias_dispatched CkType.bhalf_t 0 true false)] :=
  ((backward_errors_precede_kernel_launch exUnsupportedArgs).2.2.2
    (.run_batched_backward_masktype_attnbias_dispatched CkType.bhalf_t 0 true false)
    (by rw [exUnsupportedArgs_run]; decide)).1 rfl

/-- The call `exGeneralArgs [1, 1, 2]` (general path, no MQA/GQA) succeeds and
launches one kernel; the device work before the launch is three allocations,
the zero-fill of `grad_q` and the workspace of the kernel instance: `grad_k`
and `grad_v`, which come from `at::empty_strided`, are handed to the kernel
without having been zero-filled: against C18. -/
theorem backward_general_path_zero_fills_grad_q_only :
    (efficient_attention_backward_ck (exGeneralArgs [1, 1, 2])).effects =
      [.device_alloc (at_empty_strided_like Allocation.grad_q ScalarType.kBFloat16
          (exGeneralArgs [1, 1, 2]).query.meta),
       .device_alloc (at_empty_strided_like Allocation.grad_k ScalarType.kBFloat16
          (exGeneralArgs [1, 1, 2]).key.meta),
       .device_alloc (at_empty_strided_like Allocation.grad_v ScalarType.kBFloat16
          (exGeneralArgs [1, 1, 2]).value.meta),
       .device_fill_zero (at_empty_strided_like Allocation.grad_q ScalarType.kBFloat16
          (exGeneralArgs [1, 1, 2]).query.meta),
       .workspace_alloc (.run_batched_backward_masktype_attnbias_dispatched CkType.bhalf_t 0
          true false),
       .kernel_launch (.run_batched_backward_masktype_attnbias_dispatched CkType.bhalf_t 0
          true false)] ∧
    Effect.device_fill_zero (at_empty_strided_like Allocation.grad_k ScalarType.kBFloat16
        (exGeneralArgs [1, 1, 2]).key.meta) ∉
      (efficient_attention_backward_ck (exGeneralArgs [1, 1, 2])).effects ∧
    Effect.device_fill_zero (at_empty_strided_like Allocation.grad_v ScalarType.kBFloat16
        (exGeneralArgs [1, 1, 2]).value.meta) ∉
      (efficient_attention_backward_ck (exGeneralArgs [1, 1, 2])).effects := by
  rw [exGeneralArgs_run]
  exact ⟨rfl, by decide, by decide⟩

/-- C18 (amended): on every path that reaches a kernel launch, `grad_q` has
been zero-filled before the launch, and it is the only buffer that is: every
zero-fill of the call is the one of `grad_q`, and `grad_k` and `grad_v` are
tensors other than `grad_q` (the temporaries `tmp_grad_k`, `tmp_grad_v` come
from `at::empty`, which is an allocation without a fill). -/
theorem backward_zero_fill_before_launch (a : BackwardArgs) (c : KernelCall)
    (h : Effect.kernel_launch c ∈ (efficient_attention_backward_ck a).effects) :
    ∃ (s : PreparedCall) (pre post : List Effect),
      (efficient_attention_backward_ck_prepare a).result = .ok s ∧
      (efficient_attention_backward_ck a).effects = pre ++ post ∧
      Effect.device_fill_zero s.grad_q ∈ pre ∧
      (∀ c', Effect.kernel_launch c' ∉ pre) ∧
      Effect.kernel_launch c ∈ post ∧
      (∀ t, Effect.device_fill_zero t ∈ pre ++ post → t = s.grad_q) ∧
      s.grad_k ≠ s.grad_q ∧ s.grad_v ≠ s.grad_q := by
  have hno : ∀ c', Effect.kernel_launch c' ∉
      (efficient_attention_backward_ck_prepare a).effects := by
    intro c' hc
    rcases prepare_effects a _ hc with ⟨t, ht⟩ | ⟨t, ht⟩ <;> simp at ht
  rcases run_cases a with ⟨e', -, hr⟩ | ⟨s, hs, ⟨e', hle, hr⟩ | ⟨lf, g, -, hf, hr⟩⟩
  · rw [hr] at h
    exact absurd h (hno c)
  · rw [hr] at h
    rcases List.mem_append.1 h with h | h
    · exact absurd h (hno c)
    · obtain ⟨c', hc'⟩ := launch_error_effects a s e' hle _ h
      simp at hc'
  · obtain ⟨-, -, -, uf, B, M, N, Hq, Hkv, K, Kv, la, lr, -, -, hal, hl, hlr, -⟩ :=
      prepare_returns_inv a _ s ⟨rfl, hs⟩
    obtain ⟨hfill, hla⟩ := allocate_returns_fill _ _ _ _ _ _ _ _ _ _ _ _ _ hal
    obtain ⟨hd1, hd2⟩ := allocate_returns_distinct _ _ _ _ _ _ _ _ _ _ _ _ _ hal
    obtain ⟨lf', g', hf', hlf, -⟩ := finish_returns_of_prepare a _ s ⟨rfl, hs⟩
    obtain ⟨rfl, rfl⟩ := returns_unique _ _ _ _ _ hf hf'
    refine ⟨s, (efficient_attention_backward_ck_prepare a).effects,
      (efficient_attention_backward_ck_launch a s).effects ++ lf, hs, by rw [hr], ?_, hno, ?_, ?_,
      hd1, hd2⟩
    · rw [hl]
      exact List.mem_append_left _ hfill
    · rw [hr] at h
      rcases List.mem_append.1 h with h | h
      · exact absurd h (hno c)
      · exact h
    · intro t ht
      rcases List.mem_append.1 ht with ht | ht
      · rw [hl] at ht
        rcases List.mem_append.1 ht with ht | ht
        · rcases hla _ ht with ⟨t', ht'⟩ | ht'
          · simp at ht'
          · injection ht'
        · obtain ⟨t', ht'⟩ := hlr _ ht
          simp at ht'
      · rcases List.mem_append.1 ht with ht | ht
        · rcases launch_effects a s _ ht with ⟨c', hc'⟩ | ⟨c', hc'⟩ <;> simp at hc'
        · obtain ⟨x, y, hxy⟩ := hlf _ ht
          simp at hxy

/-- Witness for `backward_zero_fill_before_launch`: the general-path call
`exGeneralArgs [1, 1, 2]`, whose trace ends with a kernel launch. -/
theorem backward_zero_fill_before_launch_witness :
    ∃ (s : PreparedCall) (pre post : List Effect),
      (efficient_attention_backward_ck_prepare (exGeneralArgs [1, 1, 2])).result = .ok s ∧
      (efficient_attention_backward_ck (exGeneralArgs [1, 1, 2])).effects = pre ++ post ∧
      Effect.device_fill_zero s.grad_q ∈ pre ∧
      (∀ c', Effect.kernel_launch c' ∉ pre) ∧
      Effect.kernel_launch (.run_batched_backward_masktype_attnbias_dispatched CkType.bhalf_t 0
        true false) ∈ post ∧
      (∀ t, Effect.device_fill_zero t ∈ pre ++ post → t = s.grad_q) ∧
      s.grad_k ≠ s.grad_q ∧ s.grad_v ≠ s.grad_q :=
  backward_zero_fill_before_launch (exGeneralArgs [1, 1, 2])
    (.run_batched_backward_masktype_attnbias_dispatched CkType.bhalf_t 0 true false)
    (by rw [exGeneralArgs_run]; decide)

/-- The grouped-query call `exGqaPackedKVArgs` (Hq = 2 > Hkv = 1, key and
value the two slices of one packed projection, strides `[16, 8, 4, 1]`)
succeeds, and the returned `grad_k` and `grad_v` have the row-major strides
`[8, 4, 4, 1]` of the reduction's result, not the strides of key and value:
against C20. -/
theorem backward_gqa_returns_contiguous_grad_k :
    ∃ g, (efficient_attention_backward_ck exGqaPackedKVArgs).result = .ok g ∧
      g.grad_k.meta.strides = [8, 4, 4, 1] ∧ exGqaPackedKVArgs.key.meta.strides = [16, 8, 4, 1] ∧
      g.grad_v.meta.strides = [8, 4, 4, 1] ∧
      exGqaPackedKVArgs.value.meta.strides = [16, 8, 4, 1] :=
  ⟨_, exGqaPackedKVArgs_result, rfl, rfl, rfl, rfl⟩

/-- C20 (amended): on every successful return of
`efficient_attention_backward_ck`, `grad_q` has query's sizes and strides;
without MQA/GQA (`Hq <= Hkv`) `grad_k` and `grad_v` have key's and value's
sizes and strides; with MQA/GQA (`Hq > Hkv`) `grad_k` and `grad_v` are the
results of the reduction: they have key's and value's sizes and the row-major
strides of a new contiguous tensor. -/
theorem backward_returned_gradient_layout (a : BackwardArgs) (g : BackwardResult)
    (h : (efficient_attention_backward_ck a).result = .ok g) :
    (g.grad_q.meta.sizes = a.query.meta.sizes ∧ g.grad_q.meta.strides = a.query.meta.strides) ∧
    (¬ a.query.meta.sizes.getD 2 0 > a.key.meta.sizes.getD 2 0 →
      (g.grad_k.meta.sizes = a.key.meta.sizes ∧ g.grad_k.meta.strides = a.key.meta.strides) ∧
      (g.grad_v.meta.sizes = a.value.meta.sizes ∧
        g.grad_v.meta.strides = a.value.meta.strides)) ∧
    (a.query.meta.sizes.getD 2 0 > a.key.meta.sizes.getD 2 0 →
      (g.grad_k.meta.sizes = a.key.meta.sizes ∧
        g.grad_k.meta.strides = contiguousStridesInt a.key.meta.sizes) ∧
      (g.grad_v.meta.sizes = a.value.meta.sizes ∧
        g.grad_v.meta.strides = contiguousStridesInt a.value.meta.sizes)) := by
  rcases run_cases a with ⟨e', -, hr⟩ | ⟨s, hs, ⟨e', -, hr⟩ | ⟨lf, g', -, hf, hr⟩⟩
  · rw [hr] at h
    exact absurd h (by simp)
  · rw [hr] at h
    exact absurd h (by simp)
  · rw [hr] at h
    injection h with h
    subst h
    obtain ⟨-, -, -, uf, B, M, N, Hq, Hkv, K, Kv, la, lr, -, -, -, -, -, hlay, -⟩ :=
      prepare_returns_inv a _ s ⟨rfl, hs⟩
    obtain ⟨c1, c2, c3, c4, c5, c6⟩ := (layout_checks_ok_iff a _ _ _).1 hlay
    have hm := prepare_is_mqa_gqa a _ s ⟨rfl, hs⟩
    obtain ⟨lf', g'', hf', -, hgq, hnon, hmqa⟩ := finish_returns_of_prepare a _ s ⟨rfl, hs⟩
    obtain ⟨-, rfl⟩ := returns_unique _ _ _ _ _ hf hf'
    refine ⟨by rw [hgq]; exact ⟨c1.symm, c2.symm⟩, ?_, ?_⟩
    · intro hc
      obtain ⟨hk, hv⟩ := hnon (by rw [hm]; exact decide_eq_false hc)
      rw [hk, hv]
      exact ⟨⟨c3.symm, c4.symm⟩, ⟨c5.symm, c6.symm⟩⟩
    · intro hc
      obtain ⟨h1, h2, h3, h4⟩ := hmqa (by rw [hm]; exact decide_eq_true hc)
      exact ⟨⟨h1, h2⟩, ⟨h3, h4⟩⟩

/-- Witness for `backward_returned_gradient_layout`: the grouped-query call
`exGqaPackedKVArgs`, which succeeds. -/
theorem backward_returned_gradient_layout_witness :
    ((at_empty_strided_like Allocation.grad_q ScalarType.kBFloat16
          exGqaPackedKVArgs.query.meta).meta.sizes = exGqaPackedKVArgs.query.meta.sizes ∧
      (at_empty_strided_like Allocation.grad_q ScalarType.kBFloat16
          exGqaPackedKVArgs.query.meta).meta.strides = exGqaPackedKVArgs.query.meta.strides) ∧
    (exGqaPackedKVArgs.query.meta.sizes.getD 2 0 > exGqaPackedKVArgs.key.meta.sizes.getD 2 0 →
      ((at_empty_like Allocation.reduced_grad_k [1, 2, 1, 4] ScalarType.kBFloat16
            exGqaPackedKVArgs.query.meta).meta.sizes = exGqaPackedKVArgs.key.meta.sizes ∧
        (at_empty_like Allocation.reduced_grad_k [1, 2, 1, 4] ScalarType.kBFloat16
            exGqaPackedKVArgs.query.meta).meta.strides =
          contiguousStridesInt exGqaPackedKVArgs.key.meta.sizes) ∧
      ((at_empty_like Allocation.reduced_grad_v [1, 2, 1, 4] ScalarType.kBFloat16
            exGqaPackedKVArgs.query.meta).meta.sizes = exGqaPackedKVArgs.value.meta.sizes ∧
        (at_empty_like Allocation.reduced_grad_v [1, 2, 1, 4] ScalarType.kBFloat16
            exGqaPackedKVArgs.query.meta).meta.strides =
          contiguousStridesInt exGqaPackedKVArgs.value.meta.sizes)) :=
  ⟨(backward_returned_gradient_layout exGqaPackedKVArgs _ exGqaPackedKVArgs_result).1,
    (backward_returned_gradient_layout exGqaPackedKVArgs _ exGqaPackedKVArgs_result).2.2⟩

/-- The batched call `exGeneralArgs [1, 1, 2, 1]` (B = 1, Hq = 1, M = 2) has
a 4-D log-sum-exp tensor of shape `[1, 1, 2, 1]`, and succeeds: against C16. -/
theorem backward_accepts_4d_logsumexp :
    (∃ g, (efficient_attention_backward_ck (exGeneralArgs [1, 1, 2, 1])).result = .ok g) ∧
    (exGeneralArgs [1, 1, 2, 1]).logsumexp.sizes = [1, 1, 2, 1] ∧
    (exGeneralArgs [1, 1, 2, 1]).query.meta.sizes = [1, 2, 1, 4] :=
  ⟨⟨_, rfl⟩, rfl, rfl⟩

/-- C16 (amended): `efficient_attention_backward_ck` accepts a call only if
the log-sum-exp tensor has at least three axes and its first three sizes are
`[B, Hq, M]` in batched mode and `[num_batches, Hq, max_seqlen_q]` in grouped
mode (`num_batches = seqstart_q.size(0) - 1`), each compared as stored in the
parameter record's `int`; the number of axes is not checked, so further axes
are accepted. -/
theorem backward_logsumexp_shape_checked (a : BackwardArgs) (g : BackwardResult)
    (h : (efficient_attention_backward_ck a).result = .ok g) :
    (a.seqstart_q = none →
      ∃ rest, a.logsumexp.sizes =
        wrapInt32 (a.query.meta.sizes.getD 0 0) :: wrapInt32 (a.query.meta.sizes.getD 2 0) ::
          wrapInt32 (a.query.meta.sizes.getD 1 0) :: rest) ∧
    (∀ seqstart_q, a.seqstart_q = some seqstart_q →
      ∃ max_seqlen_q rest, a.max_seqlen_q_ = some max_seqlen_q ∧
        a.logsumexp.sizes =
          wrapInt32 (seqstart_q.meta.sizes.getD 0 0 - 1) ::
            wrapInt32 (a.query.meta.sizes.getD 2 0) :: wrapInt32 max_seqlen_q :: rest) := by
  rcases run_cases a with ⟨e', -, hr⟩ | ⟨s, hs, ⟨e', -, hr⟩ | ⟨lf, g', hl, -, -⟩⟩
  · rw [hr] at h
    exact absurd h (by simp)
  · rw [hr] at h
    exact absurd h (by simp)
  · obtain ⟨-, -, -, uf, B, M, N, Hq, Hkv, K, Kv, la, lr, -, ⟨hB, hM, hN, hHq, hHkv, hK, hKv⟩, -, -, -,
      -, -, hctx⟩ := prepare_returns_inv a _ s ⟨rfl, hs⟩
    have e1 : s.ctx.seqstart_q = a.seqstart_q := by rw [hctx]
    have e2 : s.ctx.logsumexp = a.logsumexp := by rw [hctx]
    have e3 : s.ctx.B = B := by rw [hctx]
    have e4 : s.ctx.Hq = Hq := by rw [hctx]
    have e5 : s.ctx.M = M := by rw [hctx]
    have e6 : s.ctx.max_seqlen_q_ = a.max_seqlen_q_ := by rw [hctx]
    rw [size_eq_getD _ _ _ hB, size_eq_getD _ _ _ hHq, size_eq_getD _ _ _ hM]
    obtain ⟨hb, hg⟩ := launch_ok_params a s hl
    constructor
    · intro hq
      obtain ⟨p, hp⟩ := hb (by rw [e1, hq])
      obtain ⟨h0, h1, h2⟩ := set_batched_backward_params_lse _ _ _ hp
      rw [e2, e3] at h0
      rw [e2, e4] at h1
      rw [e2, e5] at h2
      exact sizes_prefix3 _ _ _ _ h0 h1 h2
    · intro sq hq
      obtain ⟨p, hp⟩ := hg sq (by rw [e1, hq])
      obtain ⟨sq', n, mq, hsq', hn, hmq, h0, h1, h2⟩ := set_grouped_backward_params_lse _ _ _ hp
      rw [e1, hq] at hsq'
      injection hsq' with hsq'
      subst hsq'
      rw [e2] at h0 h2
      rw [e2, e4] at h1
      rw [e6] at hmq
      rw [← size_eq_getD _ _ _ hn] at h0
      obtain ⟨rest, hrest⟩ := sizes_prefix3 _ _ _ _ h0 h1 h2
      exact ⟨mq, rest, hmq, hrest⟩

/-- Witness for `backward_logsumexp_shape_checked`: the batched call
`exGeneralArgs [1, 1, 2]`, which succeeds. -/
theorem backward_logsumexp_shape_checked_witness :
    ∃ rest, (exGeneralArgs [1, 1, 2]).logsumexp.sizes =
      wrapInt32 ((exGeneralArgs [1, 1, 2]).query.meta.sizes.getD 0 0) ::
        wrapInt32 ((exGeneralArgs [1, 1, 2]).query.meta.sizes.getD 2 0) ::
          wrapInt32 ((exGeneralArgs [1, 1, 2]).query.meta.sizes.getD 1 0) :: rest :=
  (backward_logsumexp_shape_checked (exGeneralArgs [1, 1, 2])
    { grad_q := at_empty_strided_like Allocation.grad_q ScalarType.kBFloat16
        (exGeneralArgs [1, 1, 2]).query.meta,
      grad_k := at_empty_strided_like Allocation.grad_k ScalarType.kBFloat16
        (exGeneralArgs [1, 1, 2]).key.meta,
      grad_v := at_empty_strided_like Allocation.grad_v ScalarType.kBFloat16
        (exGeneralArgs [1, 1, 2]).value.meta,
      grad_bias := none } rfl).1 rfl

/-- C15: `efficient_attention_backward_ck` rejects, before any device work,
every call with exactly one of `seqstart_q` / `seqstart_k`, every call with
`seqstart_q` and a bias ("seqstart_q + bias not supported" when the checks
before it pass), and every call with `seqstart_q` and `query.size(0) != 1`
("seqstart_q only supports batch_size=1" when the checks before it pass);
hence every call that reaches `set_grouped_backward_params` has no bias, and
the lambda, whatever the record it is applied to holds beforehand, sets
`has_attn_bias = false` and pushes no entry to `attn_bias_ptrs` or
`grad_bias_ptrs`: both are as before, so empty for the call's own
default-initialised record. -/
theorem backward_grouped_mode_rejections (a : BackwardArgs) :
    (a.seqstart_q.isSome ≠ a.seqstart_k.isSome →
      ∃ e, efficient_attention_backward_ck a = { effects := [], result := .error e }) ∧
    (a.seqstart_q.isSome = true ∧ a.bias.isSome = true →
      (∃ e, efficient_attention_backward_ck a = { effects := [], result := .error e }) ∧
      (efficient_attention_backward_ck_shape_checks a = .ok () →
        efficient_attention_backward_ck_device_checks a = .ok () →
        a.seqstart_k.isSome = true →
        efficient_attention_backward_ck a =
          { effects := [], result := .error "seqstart_q + bias not supported" })) ∧
    (a.seqstart_q.isSome = true ∧ a.query.meta.size 0 ≠ .ok 1 →
      (∃ e, efficient_attention_backward_ck a = { effects := [], result := .error e }) ∧
      (∀ seqstart_q, a.seqstart_q = some seqstart_q →
        efficient_attention_backward_ck_shape_checks a = .ok () →
        efficient_attention_backward_ck_device_checks a = .ok () →
        a.seqstart_k.isSome = true → a.bias = none →
        efficient_attention_backward_ck_seqstart_layout_checks seqstart_q a.seqstart_k = .ok () →
        efficient_attention_backward_ck a =
          { effects := [], result := .error "seqstart_q only supports batch_size=1" })) ∧
    (∀ s, (efficient_attention_backward_ck_prepare a).result = .ok s →
      s.ctx.seqstart_q.isSome = true →
      a.bias = none ∧ s.ctx.bias = none ∧
      (∀ p0 p, set_grouped_backward_params s.ctx p0 = .ok p →
        p.has_attn_bias = false ∧ p.attn_bias_ptrs = p0.attn_bias_ptrs ∧
        p.grad_bias_ptrs = p0.grad_bias_ptrs) ∧
      (∀ p, set_grouped_backward_params s.ctx a.grouped_backward_params.default_initialized =
          .ok p →
        p.has_attn_bias = false ∧ p.attn_bias_ptrs = [] ∧ p.grad_bias_ptrs = [])) := by
  refine ⟨?_, ?_, ?_, ?_⟩
  · intro h
    obtain ⟨e, he⟩ := seqstart_checks_error_of_not a (fun hc => h hc.1)
    exact run_of_seqstart_checks_error a e he
  · rintro ⟨hq, hb⟩
    constructor
    · obtain ⟨e, he⟩ := seqstart_checks_error_of_not a (fun hc => by
        have := (hc.2 hq).1
        rw [this] at hb
        exact absurd hb (by decide))
      exact run_of_seqstart_checks_error a e he
    · intro h1 h2 hk
      refine run_of_head_error a _ (Or.inr (Or.inr ⟨h1, h2, ?_⟩))
      unfold efficient_attention_backward_ck_seqstart_checks
      rw [hq, hk, hb]
      rfl
  · rintro ⟨hq, h0⟩
    constructor
    · obtain ⟨e, he⟩ := seqstart_checks_error_of_not a (fun hc => h0 (hc.2 hq).2.1)
      exact run_of_seqstart_checks_error a e he
    · intro sq hsq h1 h2 hk hb hl
      refine run_of_head_error a _ (Or.inr (Or.inr ⟨h1, h2, ?_⟩))
      unfold efficient_attention_backward_ck_seqstart_checks
      rw [hk, hb, hsq]
      simp only [Option.isSome_some, Option.isSome_none, hl]
      obtain ⟨x0, x1, x2, x3, hx⟩ := length_eq_four _ ((shape_checks_ok_iff a).1 h1).1.1
      have hs : a.query.meta.size 0 = .ok x0 := by simp [TensorMeta.size, hx]
      have hne : x0 ≠ 1 := fun hc => h0 (by rw [hs, hc])
      simp [hs, check, hne, bind, Except.bind]
  · intro s hs hq
    obtain ⟨-, -, h3, uf, B, M, N, Hq, Hkv, K, Kv, la, lr, -, -, -, -, -, -, -, hctx⟩ :=
      prepare_returns_inv a _ s ⟨rfl, hs⟩
    have e1 : s.ctx.seqstart_q = a.seqstart_q := by rw [hctx]
    have e2 : s.ctx.bias = a.bias := by rw [hctx]
    rw [e1] at hq
    have hb := ((seqstart_checks_ok a h3).2 hq).1
    refine ⟨hb, by rw [e2, hb], fun p0 p hp => ?_, fun p hp => ?_⟩
    · exact set_grouped_backward_params_no_bias s.ctx _ p (by rw [e2, hb]) hp
    · exact set_grouped_backward_params_no_bias s.ctx _ p (by rw [e2, hb]) hp

/-- Witness for `backward_grouped_mode_rejections`: the grouped call
`exGroupedBackwardArgs` reaches `set_grouped_backward_params`; applied to a
record in which `has_attn_bias` is `true` and `attn_bias_ptrs` holds an entry
beforehand, the lambda succeeds, sets the flag to `false` and leaves the one
entry. -/
theorem backward_grouped_mode_rejections_witness :
    ∃ s p, (efficient_attention_backward_ck_prepare exGroupedBackwardArgs).result = .ok s ∧
      s.ctx.seqstart_q.isSome = true ∧
      set_grouped_backward_params s.ctx
        { defaultGroupedBackwardParams with
          has_attn_bias := true, attn_bias_ptrs := [⟨Buffer.attn_bias, 0⟩] } = .ok p ∧
      p.has_attn_bias = false ∧
      p.attn_bias_ptrs =
        ({ defaultGroupedBackwardParams with
            has_attn_bias := true,
            attn_bias_ptrs := [⟨Buffer.attn_bias, 0⟩] } : GroupedBackwardParams).attn_bias_ptrs ∧
      p.grad_bias_ptrs =
        ({ defaultGroupedBackwardParams with
            has_attn_bias := true,
            attn_bias_ptrs := [⟨Buffer.attn_bias, 0⟩] } : GroupedBackwardParams).grad_bias_ptrs :=
  ⟨_, _, rfl, rfl, rfl,
    ((backward_grouped_mode_rejections exGroupedBackwardArgs).2.2.2 _ rfl rfl).2.2.1 _ _ rfl⟩

/-- C21: in group mode, with `seqlen_q = seqstart_q[i+1] - seqstart_q[i]`, the
block returns early if and only if `seqlen_q <= i_m0`, so a block that
proceeds has `i_m0 < seqlen_q`; a block that returns early has read entries
`i` and `i+1` of the offset arrays only, and built no tensor view and written
no output; and for a zero-length sequence every block (`i_m0 >= 0`) returns
early. -/
theorem tile_group_mode_early_return (vlayout : VLayout) (kHasBias : Bool)
    (kargs : GroupModeKargs) (i_batch : Nat) (i_m0 q0 q1 k0 : Int)
    (hq0 : kargs.seqstart_q_ptr[i_batch]? = some q0)
    (hq1 : kargs.seqstart_q_ptr[i_batch + 1]? = some q1)
    (hk0 : kargs.seqstart_k_ptr[i_batch]? = some k0)
    (hq0n : IsNonnegInt32 q0) (hq1n : IsNonnegInt32 q1) :
    (q1 - q0 ≤ i_m0 →
      (∃ r, FmhaFwdKernel_group_prologue vlayout kHasBias kargs i_batch i_m0 = some r ∧
        r.returned = true ∧ r.kargs.seqlen_q = q1 - q0) ∧
      FmhaFwdKernel_group_events kHasBias kargs i_batch i_m0 =
        some [.read_seqstart_q i_batch, .read_seqstart_k i_batch,
              .read_seqstart_q (i_batch + 1), .read_seqstart_q i_batch]) ∧
    (∀ r, FmhaFwdKernel_group_prologue vlayout kHasBias kargs i_batch i_m0 = some r →
      r.kargs.seqlen_q = q1 - q0 ∧ (r.returned = true ↔ q1 - q0 ≤ i_m0) ∧
      (r.returned = false → i_m0 < r.kargs.seqlen_q)) ∧
    (∀ l, FmhaFwdKernel_group_events kHasBias kargs i_batch i_m0 = some l →
      ¬ q1 - q0 ≤ i_m0 →
      ∃ reads, l = reads ++ FmhaFwdKernel_body_events kHasBias ∧
        ∀ e ∈ reads, e = .read_seqstart_q i_batch ∨ e = .read_seqstart_k i_batch ∨
          e = .read_seqstart_q (i_batch + 1) ∨ e = .read_seqstart_k (i_batch + 1) ∨
          e = .read_seqlen_k i_batch) ∧
    (q1 = q0 → 0 ≤ i_m0 →
      (∃ r, FmhaFwdKernel_group_prologue vlayout kHasBias kargs i_batch i_m0 = some r ∧
        r.returned = true) ∧
      FmhaFwdKernel_group_events kHasBias kargs i_batch i_m0 =
        some [.read_seqstart_q i_batch, .read_seqstart_k i_batch,
              .read_seqstart_q (i_batch + 1), .read_seqstart_q i_batch]) := by
  have hw : wrapInt32 (q1 - q0) = q1 - q0 := wrapInt32_sub_of_nonneg q1 q0 hq1n hq0n
  have hq0' : kargs.seqstart_q_ptr[i_batch + 0]? = some q0 := hq0
  have hk0' : kargs.seqstart_k_ptr[i_batch + 0]? = some k0 := hk0
  have hearly : q1 - q0 ≤ i_m0 →
      (∃ r, FmhaFwdKernel_group_prologue vlayout kHasBias kargs i_batch i_m0 = some r ∧
        r.returned = true ∧ r.kargs.seqlen_q = q1 - q0) ∧
      FmhaFwdKernel_group_events kHasBias kargs i_batch i_m0 =
        some [.read_seqstart_q i_batch, .read_seqstart_k i_batch,
              .read_seqstart_q (i_batch + 1), .read_seqstart_q i_batch] := by
    intro hle
    constructor
    · unfold FmhaFwdKernel_group_prologue
      simp only [hq0, hq0', hq1, hk0, bind, Option.bind, pure, hw, hle, if_true]
      exact ⟨_, rfl, rfl, rfl⟩
    · unfold FmhaFwdKernel_group_events
      simp only [hq0, hq0', hq1, hk0, bind, Option.bind, pure, hw, hle, if_true]
      rfl
  refine ⟨hearly, ?_, ?_, ?_⟩
  · intro r hr
    unfold FmhaFwdKernel_group_prologue at hr
    simp only [hq0, hq0', hq1, hk0, bind, Option.bind, pure, hw] at hr
    by_cases hle : q1 - q0 ≤ i_m0
    · simp only [hle, if_true, Option.some.injEq] at hr
      subst hr
      exact ⟨rfl, ⟨fun _ => hle, fun _ => rfl⟩, fun h => by simp at h⟩
    · simp only [hle, if_false] at hr
      cases hs : kargs.seqlen_k_ptr with
      | some lk =>
        simp only [hs] at hr
        cases hn : lk[i_batch]? with
        | none => simp [hn] at hr
        | some n =>
          simp only [hn, Option.some.injEq] at hr
          subst hr
          exact ⟨rfl, ⟨fun h => by simp at h, fun h => absurd h hle⟩,
            fun _ => lt_of_not_le hle⟩
      | none =>
        simp only [hs] at hr
        cases hk1 : kargs.seqstart_k_ptr[i_batch + 1]? with
        | none => simp [hk1] at hr
        | some k1 =>
          simp only [hk1, hk0', Option.some.injEq] at hr
          subst hr
          exact ⟨rfl, ⟨fun h => by simp at h, fun h => absurd h hle⟩,
            fun _ => lt_of_not_le hle⟩
  · intro l hl hle
    unfold FmhaFwdKernel_group_events at hl
    simp only [hq0, hq0', hq1, hk0, bind, Option.bind, pure, hw, hle, if_false] at hl
    cases hs : kargs.seqlen_k_ptr with
    | some lk =>
      simp only [hs] at hl
      cases hn : lk[i_batch]? with
      | none => simp [hn] at hl
      | some n =>
        simp only [hn, Option.some.injEq] at hl
        subst hl
        refine ⟨_, rfl, ?_⟩
        intro e he
        simp at he
        tauto
    | none =>
      simp only [hs] at hl
      cases hk1 : kargs.seqstart_k_ptr[i_batch + 1]? with
      | none => simp [hk1] at hl
      | some k1 =>
        simp only [hk1, hk0', Option.some.injEq] at hl
        subst hl
        refine ⟨_, rfl, ?_⟩
        intro e he
        simp at he
        tauto
  · intro heq h0
    have hle : q1 - q0 ≤ i_m0 := by omega
    obtain ⟨⟨r, hr, hret, -⟩, hev⟩ := hearly hle
    exact ⟨⟨r, hr, hret⟩, hev⟩

/-- Witness for `tile_group_mode_early_return`: the second tile (`i_m0 = 64`)
of a sequence of 2 query rows, and the first tile of an empty sequence lying
between two populated ones. -/
theorem tile_group_mode_early_return_witness :
    FmhaFwdKernel_group_events false exGroupModeKargs 0 64 =
      some [.read_seqstart_q 0, .read_seqstart_k 0, .read_seqstart_q (0 + 1),
            .read_seqstart_q 0] ∧
    FmhaFwdKernel_group_events false exGroupModeKargsEmptySeq 1 0 =
      some [.read_seqstart_q 1, .read_seqstart_k 1, .read_seqstart_q (1 + 1),
            .read_seqstart_q 1] :=
  ⟨((tile_group_mode_early_return VLayout.RowMajor false exGroupModeKargs 0 64 0 2 0 rfl rfl rfl
      (by decide) (by decide)).1 (by decide)).2,
    ((tile_group_mode_early_return VLayout.RowMajor false exGroupModeKargsEmptySeq 1 0 2 2 3
      rfl rfl rfl (by decide) (by decide)).2.2.2 rfl (by decide)).2⟩

/-- C22: with masking compiled in, for each of the three mask types the window
passed to `make_generic_attention_mask_coordinates_from_lr_window` depends on
`(window_size, mask_type)` only: for `window_size > 0` the left half-width is
`window_size / 2` and the right one `window_size / 2` (no mask type) or 0
(causal types); for `window_size <= 0` the pair is `(-1, -1)` resp. `(-1, 0)`;
the anchor flag is `true` for top-left and `false` for bottom-right (omitted
for `MaskDisabled`); and in every case the totals, and the mask's totals, are
the block's `(seqlen_q, seqlen_k)`. -/
theorem tile_mask_window (coordinates : LrWindowCall → Int × Int) (kargs : GroupModeKargs)
    (t : CausalMaskType) (hm : kargs.mask_type = t.toInt) :
    FmhaFwdKernel_mask_window_call kargs =
      some { left_size := if kargs.window_size > 0 then kargs.window_size / 2 else -1
             right_size :=
               if t = CausalMaskType.MaskDisabled then
                 (if kargs.window_size > 0 then kargs.window_size / 2 else -1)
               else 0
             y_total := kargs.seqlen_q
             x_total := kargs.seqlen_k
             is_top_left :=
               match t with
               | .MaskDisabled => none
               | .MaskUpperTriangleFromTopLeft => some true
               | .MaskUpperTriangleFromBottomRight => some false } ∧
    (∃ call, FmhaFwdKernel_mask_window_call kargs = some call ∧
      FmhaFwdKernel_make_mask true coordinates kargs =
        { y := (coordinates call).1, x := (coordinates call).2, y_total := kargs.seqlen_q,
          x_total := kargs.seqlen_k }) ∧
    (∀ kargs' : GroupModeKargs, kargs'.mask_type = kargs.mask_type →
      kargs'.window_size = kargs.window_size →
      ∃ c c', FmhaFwdKernel_mask_window_call kargs = some c ∧
        FmhaFwdKernel_mask_window_call kargs' = some c' ∧
        c'.left_size = c.left_size ∧ c'.right_size = c.right_size ∧
        c'.is_top_left = c.is_top_left ∧
        c'.y_total = kargs'.seqlen_q ∧ c'.x_total = kargs'.seqlen_k) := by
  have key : ∀ k : GroupModeKargs, k.mask_type = t.toInt →
      FmhaFwdKernel_mask_window_call k =
        some { left_size := if k.window_size > 0 then k.window_size / 2 else -1
               right_size :=
                 if t = CausalMaskType.MaskDisabled then
                   (if k.window_size > 0 then k.window_size / 2 else -1)
                 else 0
               y_total := k.seqlen_q
               x_total := k.seqlen_k
               is_top_left :=
                 match t with
                 | .MaskDisabled => none
                 | .MaskUpperTriangleFromTopLeft => some true
                 | .MaskUpperTriangleFromBottomRight => some false } := by
    intro k hk
    unfold FmhaFwdKernel_mask_window_call
    by_cases hw : k.window_size > 0
    · have hd : Int.tdiv k.window_size 2 = k.window_size / 2 :=
        Int.tdiv_eq_ediv (le_of_lt hw) (by decide)
      cases t <;> simp [hk, hw, hd, CausalMaskType.toInt]
    · cases t <;> simp [hk, hw, CausalMaskType.toInt]
  refine ⟨key kargs hm, ?_, ?_⟩
  · refine ⟨_, key kargs hm, ?_⟩
    unfold FmhaFwdKernel_make_mask
    rw [key kargs hm]
    rfl
  · intro kargs' h1 h2
    refine ⟨_, _, key kargs hm, key kargs' (h1.trans hm), ?_⟩
    simp [h2]

/-- Witness for `tile_mask_window`: no mask type without a window, and the
bottom-right causal type with `window_size = 5`. -/
theorem tile_mask_window_witness :
    FmhaFwdKernel_mask_window_call exGroupModeKargs =
      some { left_size := -1, right_size := -1, y_total := -1, x_total := -1,
             is_top_left := none } ∧
    FmhaFwdKernel_mask_window_call { exGroupModeKargs with mask_type := 2, window_size := 5 } =
      some { left_size := 2, right_size := 0, y_total := -1, x_total := -1,
             is_top_left := some false } :=
  ⟨(tile_mask_window (fun _ => (0, 0)) exGroupModeKargs CausalMaskType.MaskDisabled rfl).1,
    (tile_mask_window (fun _ => (0, 0)) { exGroupModeKargs with mask_type := 2, window_size := 5 }
      CausalMaskType.MaskUpperTriangleFromBottomRight rfl).1⟩

/-- C23: once validation and allocation have succeeded, the call takes the
batched path if `seqstart_q` is absent and the grouped path otherwise; on
either path, with the parameter record populated (from its default-initialised
state, whatever the indeterminate members are), it calls the fp16 entry point
when query's element type is `Half`, the bf16 entry point when it is
`BFloat16`, and for any other element type fails with "input data-type is not
supported" without a kernel launch. -/
theorem backward_dtype_dispatch (a : BackwardArgs) (s : PreparedCall)
    (h : (efficient_attention_backward_ck_prepare a).result = .ok s) :
    (a.seqstart_q = none →
      ∀ p, set_batched_backward_params s.ctx a.batched_backward_params = .ok p →
        (a.query.meta.dtype = ScalarType.kHalf →
          efficient_attention_backward_ck_launch a s =
            runDispatcher (run_batched_backward_masktype_attnbias_dispatched a.device_op)
              (batched_backward_fp16 p)) ∧
        (a.query.meta.dtype = ScalarType.kBFloat16 →
          efficient_attention_backward_ck_launch a s =
            runDispatcher (run_batched_backward_masktype_attnbias_dispatched a.device_op)
              (batched_backward_bp16 p)) ∧
        (a.query.meta.dtype ≠ ScalarType.kHalf → a.query.meta.dtype ≠ ScalarType.kBFloat16 →
          efficient_attention_backward_ck_launch a s =
            { effects := [], result := .error "input data-type is not supported" } ∧
          (efficient_attention_backward_ck a).result =
            .error "input data-type is not supported" ∧
          ∀ c, Effect.kernel_launch c ∉ (efficient_attention_backward_ck a).effects)) ∧
    (∀ seqstart_q, a.seqstart_q = some seqstart_q →
      ∀ p, set_grouped_backward_params s.ctx a.grouped_backward_params.default_initialized =
          .ok p →
        (a.query.meta.dtype = ScalarType.kHalf →
          efficient_attention_backward_ck_launch a s =
            runDispatcher
              (fun c => grouped_backward_masktype_attnbias_dispatched a.device_op c p)
              (grouped_backward_fp16 p)) ∧
        (a.query.meta.dtype = ScalarType.kBFloat16 →
          efficient_attention_backward_ck_launch a s =
            runDispatcher
              (fun c => grouped_backward_masktype_attnbias_dispatched a.device_op c p)
              (grouped_backward_bp16 p)) ∧
        (a.query.meta.dtype ≠ ScalarType.kHalf → a.query.meta.dtype ≠ ScalarType.kBFloat16 →
          efficient_attention_backward_ck_launch a s =
            { effects := [], result := .error "input data-type is not supported" } ∧
          (efficient_attention_backward_ck a).result =
            .error "input data-type is not supported" ∧
          ∀ c, Effect.kernel_launch c ∉ (efficient_attention_backward_ck a).effects)) := by
  obtain ⟨-, -, -, uf, B, M, N, Hq, Hkv, K, Kv, la, lr, -, -, -, -, -, -, -, hctx⟩ :=
    prepare_returns_inv a _ s ⟨rfl, h⟩
  have e1 : s.ctx.seqstart_q = a.seqstart_q := by rw [hctx]
  have e2 : s.ctx.query.dtype = a.query.meta.dtype := by rw [hctx]
  constructor
  · intro hq p hp
    have hl : ∀ d, a.query.meta.dtype = d → efficient_attention_backward_ck_launch a s =
        (if d = ScalarType.kHalf then
          runDispatcher (run_batched_backward_masktype_attnbias_dispatched a.device_op)
            (batched_backward_fp16 p)
         else if d = ScalarType.kBFloat16 then
          runDispatcher (run_batched_backward_masktype_attnbias_dispatched a.device_op)
            (batched_backward_bp16 p)
         else hostStep (.error "input data-type is not supported")) := by
      intro d hd
      unfold efficient_attention_backward_ck_launch
      rw [e1, hq]
      simp only [hp, hostStep_ok_bind, e2, hd]
    refine ⟨fun hd => ?_, fun hd => ?_, fun h1 h2 => ?_⟩
    · rw [hl _ hd, if_pos rfl]
    · rw [hl _ hd, if_neg (by decide), if_pos rfl]
    · have hl' : efficient_attention_backward_ck_launch a s =
          { effects := [], result := .error "input data-type is not supported" } := by
        rw [hl _ rfl, if_neg h1, if_neg h2]
        rfl
      refine ⟨hl', ?_⟩
      exact run_of_launch_error a s _ h (by rw [hl'])
  · intro sq hq p hp
    have hl : ∀ d, a.query.meta.dtype = d → efficient_attention_backward_ck_launch a s =
        (if d = ScalarType.kHalf then
          runDispatcher
            (fun c => grouped_backward_masktype_attnbias_dispatched a.device_op c p)
            (grouped_backward_fp16 p)
         else if d = ScalarType.kBFloat16 then
          runDispatcher
            (fun c => grouped_backward_masktype_attnbias_dispatched a.device_op c p)
            (grouped_backward_bp16 p)
         else hostStep (.error "input data-type is not supported")) := by
      intro d hd
      unfold efficient_attention_backward_ck_launch
      rw [e1, hq]
      simp only [hp, hostStep_ok_bind, e2, hd]
    refine ⟨fun hd => ?_, fun hd => ?_, fun h1 h2 => ?_⟩
    · rw [hl _ hd, if_pos rfl]
    · rw [hl _ hd, if_neg (by decide), if_pos rfl]
    · have hl' : efficient_attention_backward_ck_launch a s =
          { effects := [], result := .error "input data-type is not supported" } := by
        rw [hl _ rfl, if_neg h1, if_neg h2]
        rfl
      refine ⟨hl', ?_⟩
      exact run_of_launch_error a s _ h (by rw [hl'])

/-- Witness for `backward_dtype_dispatch`: a batched bf16 call, a grouped bf16
call and a batched call on 32-bit floats. -/
theorem backward_dtype_dispatch_witness :
    (∃ s p, (efficient_attention_backward_ck_prepare (exGeneralArgs [1, 1, 2])).result = .ok s ∧
      set_batched_backward_params s.ctx defaultBatchedBackwardParams = .ok p ∧
      efficient_attention_backward_ck_launch (exGeneralArgs [1, 1, 2]) s =
        runDispatcher
          (run_batched_backward_masktype_attnbias_dispatched (exGeneralArgs [1, 1, 2]).device_op)
          (batched_backward_bp16 p)) ∧
    (∃ s p, (efficient_attention_backward_ck_prepare exGroupedBackwardArgs).result = .ok s ∧
      set_grouped_backward_params s.ctx defaultGroupedBackwardParams = .ok p ∧
      efficient_attention_backward_ck_launch exGroupedBackwardArgs s =
        runDispatcher
          (fun c => grouped_backward_masktype_attnbias_dispatched
            exGroupedBackwardArgs.device_op c p)
          (grouped_backward_bp16 p)) ∧
    (efficient_attention_backward_ck exFloatArgs).result =
      .error "input data-type is not supported" :=
  ⟨⟨_, _, rfl, rfl,
      ((backward_dtype_dispatch (exGeneralArgs [1, 1, 2]) _ rfl).1 rfl _ rfl).2.1 rfl⟩,
    ⟨_, _, rfl, rfl,
      ((backward_dtype_dispatch exGroupedBackwardArgs _ rfl).2 _ rfl _ rfl).2.1 rfl⟩,
    (((backward_dtype_dispatch exFloatArgs _ rfl).1 rfl _ rfl).2.2 (by decide) (by decide)).2.1⟩

/-- C24: for a non-decreasing `seqstart_q` of `n + 1` non-negative entries,
with `M_i = seqstart_q[i+1] - seqstart_q[i]`: every `M_i >= 0`; the packed row
ranges `[seqstart_q[i], seqstart_q[i] + M_i)` of distinct sequences are
disjoint and lie in `[seqstart_q[0], seqstart_q[n])`; the `M_i` sum to
`seqstart_q[n] - seqstart_q[0]`; and the tile kernel's block of sequence `i`
has `seqlen_q = M_i` and output base offset `seqstart_q[i] * stride_o`, so that
rows of different sequences have different output offsets (`stride_o != 0`). -/
theorem grouped_output_rows_disjoint (vlayout : VLayout) (kHasBias : Bool)
    (kargs : GroupModeKargs) (n : Nat)
    (hq : kargs.seqstart_q_ptr.length = n + 1) (hk : kargs.seqstart_k_ptr.length = n + 1)
    (hlk : ∀ lk, kargs.seqlen_k_ptr = some lk → lk.length = n)
    (h32 : ∀ x ∈ kargs.seqstart_q_ptr, IsNonnegInt32 x)
    (hmono : ∀ i, i < n →
      kargs.seqstart_q_ptr.getD i 0 ≤ kargs.seqstart_q_ptr.getD (i + 1) 0) :
    (∀ i, i < n → 0 ≤ kargs.seqstart_q_ptr.getD (i + 1) 0 - kargs.seqstart_q_ptr.getD i 0) ∧
    (∀ i j, i < n → j < n → i ≠ j → ∀ m m' : Int,
      0 ≤ m → m < kargs.seqstart_q_ptr.getD (i + 1) 0 - kargs.seqstart_q_ptr.getD i 0 →
      0 ≤ m' → m' < kargs.seqstart_q_ptr.getD (j + 1) 0 - kargs.seqstart_q_ptr.getD j 0 →
      kargs.seqstart_q_ptr.getD i 0 + m ≠ kargs.seqstart_q_ptr.getD j 0 + m' ∧
      (kargs.stride_o ≠ 0 →
        kargs.seqstart_q_ptr.getD i 0 * kargs.stride_o + m * kargs.stride_o ≠
          kargs.seqstart_q_ptr.getD j 0 * kargs.stride_o + m' * kargs.stride_o)) ∧
    (∀ i, i < n → ∀ m : Int,
      0 ≤ m → m < kargs.seqstart_q_ptr.getD (i + 1) 0 - kargs.seqstart_q_ptr.getD i 0 →
      kargs.seqstart_q_ptr.getD 0 0 ≤ kargs.seqstart_q_ptr.getD i 0 + m ∧
      kargs.seqstart_q_ptr.getD i 0 + m < kargs.seqstart_q_ptr.getD n 0) ∧
    (∑ i in Finset.range n,
        (kargs.seqstart_q_ptr.getD (i + 1) 0 - kargs.seqstart_q_ptr.getD i 0) =
      kargs.seqstart_q_ptr.getD n 0 - kargs.seqstart_q_ptr.getD 0 0) ∧
    (∀ i, i < n → ∀ i_m0,
      ∃ r, FmhaFwdKernel_group_prologue vlayout kHasBias kargs i i_m0 = some r ∧
        r.kargs.seqlen_q =
          kargs.seqstart_q_ptr.getD (i + 1) 0 - kargs.seqstart_q_ptr.getD i 0 ∧
        r.off.batch_offset_o = kargs.seqstart_q_ptr.getD i 0 * kargs.stride_o) := by
  have hm := monotone_getD kargs.seqstart_q_ptr n hmono
  have hrows : ∀ i j, i < j → j < n → ∀ m m' : Int,
      m < kargs.seqstart_q_ptr.getD (i + 1) 0 - kargs.seqstart_q_ptr.getD i 0 → 0 ≤ m' →
      kargs.seqstart_q_ptr.getD i 0 + m < kargs.seqstart_q_ptr.getD j 0 + m' := by
    intro i j hij hj m m' h1 h2
    have := hm (i + 1) j (by omega) (by omega)
    omega
  refine ⟨fun i hi => by have := hmono i hi; omega, ?_, ?_, ?_, ?_⟩
  · intro i j hi hj hne m m' h0 h1 h0' h1'
    have hlt : kargs.seqstart_q_ptr.getD i 0 + m ≠ kargs.seqstart_q_ptr.getD j 0 + m' := by
      rcases Nat.lt_or_ge i j with h | h
      · exact ne_of_lt (hrows i j h hj m m' h1 h0')
      · exact (ne_of_lt (hrows j i (by omega) hi m' m h1' h0)).symm
    refine ⟨hlt, fun hs heq => hlt ?_⟩
    have : (kargs.seqstart_q_ptr.getD i 0 + m) * kargs.stride_o =
        (kargs.seqstart_q_ptr.getD j 0 + m') * kargs.stride_o := by
      rw [add_mul, add_mul]
      exact heq
    exact mul_right_cancel₀ hs this
  · intro i hi m h0 h1
    have a1 := hm 0 i (by omega) (by omega)
    have a2 := hm (i + 1) n (by omega) (by omega)
    omega
  · exact Finset.sum_range_sub (fun i => kargs.seqstart_q_ptr.getD i 0) n
  · intro i hi i_m0
    have e0 := getElem?_eq_some_getD kargs.seqstart_q_ptr i (by omega)
    have e1 := getElem?_eq_some_getD kargs.seqstart_q_ptr (i + 1) (by omega)
    have k0 := getElem?_eq_some_getD kargs.seqstart_k_ptr i (by omega)
    have k1 := getElem?_eq_some_getD kargs.seqstart_k_ptr (i + 1) (by omega)
    have e0' : kargs.seqstart_q_ptr[i + 0]? = some (kargs.seqstart_q_ptr.getD i 0) := e0
    have k0' : kargs.seqstart_k_ptr[i + 0]? = some (kargs.seqstart_k_ptr.getD i 0) := k0
    have hw := wrapInt32_sub_of_nonneg _ _ (h32 _ (getD_mem kargs.seqstart_q_ptr (i + 1) (by omega)))
      (h32 _ (getD_mem kargs.seqstart_q_ptr i (by omega)))
    unfold FmhaFwdKernel_group_prologue
    simp only [e0, e0', e1, k0, k0', k1, bind, Option.bind, pure, hw]
    by_cases hle : kargs.seqstart_q_ptr.getD (i + 1) 0 - kargs.seqstart_q_ptr.getD i 0 ≤ i_m0
    · simp only [hle, if_true]
      exact ⟨_, rfl, rfl, rfl⟩
    · simp only [hle, if_false]
      cases hs : kargs.seqlen_k_ptr with
      | some lk =>
        have l0 := getElem?_eq_some_getD lk i (by rw [hlk lk hs]; exact hi)
        simp only [l0]
        exact ⟨_, rfl, rfl, rfl⟩
      | none =>
        simp only []
        exact ⟨_, rfl, rfl, rfl⟩

/-- Witness for `grouped_output_rows_disjoint`: three packed sequences of
query lengths 2, 0 and 3. -/
theorem grouped_output_rows_disjoint_witness :
    ∑ i in Finset.range 3,
        (exGroupModeKargsEmptySeq.seqstart_q_ptr.getD (i + 1) 0 -
          exGroupModeKargsEmptySeq.seqstart_q_ptr.getD i 0) =
      exGroupModeKargsEmptySeq.seqstart_q_ptr.getD 3 0 -
        exGroupModeKargsEmptySeq.seqstart_q_ptr.getD 0 0 :=
  (grouped_output_rows_disjoint VLayout.RowMajor false exGroupModeKargsEmptySeq 3 rfl rfl
    (by intro lk h; simp [exGroupModeKargsEmptySeq] at h) (by decide)
    (by intro i hi; interval_cases i <;> decide)).2.2.2.1

/-- C25: on the grouped call `exBackwardCtxSeqlenK` (`Hq = 2`,
`max_seqlen_q = 3`, packed length `M = 5`) the base pointer of sequence 1 is
element `1 * Hq * max_seqlen_q = 6` of the log-sum-exp tensor, but the
descriptor's head stride is `param.M = 5`, not `max_seqlen_q = 3`: the value of
(sequence 1, head 1, row 2) is addressed at element 13, outside the 12-element
tensor, where the claim (and the grouped forward descriptor, head stride
`max_seqlen_q`) has element `(1*2 + 1)*3 + 2 = 11`. -/
theorem grouped_backward_lse_head_stride_is_packed_length :
    ∃ p d, set_grouped_backward_params exBackwardCtxSeqlenK defaultGroupedBackwardParams = .ok p ∧
      grouped_backward_problem_desc false p 1 = some d ∧
      p.logsumexp_ptrs = [⟨Buffer.logsumexp, 0⟩, ⟨Buffer.logsumexp, 24⟩] ∧
      p.Hq = 2 ∧ p.max_seqlen_q = 3 ∧ p.M = 5 ∧
      d.lse_gs_ms_strides = [0, 5, 1] ∧
      grouped_backward_lse_element ScalarType.kFloat p d 1 1 2 = some 13 ∧
      ((1 * 2 + 1) * 3 + 2 : Int) = 11 ∧
      exBackwardCtxSeqlenK.logsumexp.sizes = [2, 2, 3] ∧
      (∃ f, grouped_forward_problem_desc false exGroupedForwardParams 1 = some f ∧
        f.lse_gs_ms_strides = [0, exGroupedForwardParams.max_seqlen_q, 1] ∧
        exGroupedForwardParams.max_seqlen_q = 3) :=
  ⟨_, _, rfl, rfl, rfl, rfl, rfl, rfl, rfl, rfl, rfl, rfl, _, rfl, rfl, rfl⟩

/-- C30: on the grouped call `exBackwardCtxSeqlenK` the query strides are
populated as (sequence, head, feature) = `(16, 8, 1)`, and the backward
descriptor gives the head axis the sequence stride and the sequence axis the
head stride: Q at `(h, m, k) = (1, 0, 0)` is at offset 16, where the claim has
`h*q_strides[1] = 8`; the same holds for the output, and V's key axis gets the
head stride. The grouped forward descriptor on the same 3-tuple is
`(0, q_strides[1], q_strides[0], q_strides[2]) = (0, 8, 16, 1)`. -/
theorem grouped_backward_descriptor_swaps_head_and_sequence_strides :
    ∃ p d, set_grouped_backward_params exBackwardCtxSeqlenK defaultGroupedBackwardParams = .ok p ∧
      grouped_backward_problem_desc false p 1 = some d ∧
      (p.q_strides 0 = 16 ∧ p.q_strides 1 = 8 ∧ p.q_strides 2 = 1) ∧
      d.q_gs_ms_ks_strides = [0, p.q_strides 0, p.q_strides 1, p.q_strides 2] ∧
      descOffset [0, 1, 0, 0] d.q_gs_ms_ks_strides = 16 ∧
      1 * p.q_strides 1 + 0 * p.q_strides 0 + 0 * p.q_strides 2 = 8 ∧
      d.y_gs_ms_os_strides = [0, p.out_strides 0, p.out_strides 1, p.out_strides 2] ∧
      descOffset [0, 1, 0, 0] d.y_gs_ms_os_strides = 16 ∧
      1 * p.out_strides 1 + 0 * p.out_strides 0 + 0 * p.out_strides 2 = 8 ∧
      d.k_gs_ns_ks_strides = [0, p.k_strides 0, p.k_strides 1, p.k_strides 2] ∧
      d.v_gs_os_ns_strides = [0, p.v_strides 0, p.v_strides 2, p.v_strides 1] ∧
      (∃ f, grouped_forward_problem_desc false exGroupedForwardParams 1 = some f ∧
        (exGroupedForwardParams.q_strides 0 = 16 ∧ exGroupedForwardParams.q_strides 1 = 8 ∧
          exGroupedForwardParams.q_strides 2 = 1) ∧
        f.a_gs_ms_ks_strides = [0, 8, 16, 1] ∧
        descOffset [0, 1, 0, 0] f.a_gs_ms_ks_strides = 8) :=
  ⟨_, _, rfl, rfl, ⟨rfl, rfl, rfl⟩, rfl, rfl, rfl, rfl, rfl, rfl, rfl, rfl, _, rfl,
    ⟨rfl, rfl, rfl⟩, rfl, rfl⟩

/-- C27: on the grouped call `exBackwardCtx false` (two sequences, no explicit
`seqlen_k`) `set_grouped_backward_params` leaves two entries in each pointer
vector and the three offsets in `host_seqstart_q`, `host_seqstart_k`, but the
descriptor loop reads `host_seqlen_k[i]` from the empty vector (line 141 tests
`host_seqstart_k.empty()`), so no descriptor is built from sequence `i`; with
`seqlen_k = [3, 4]` given, two descriptors are built, one per sequence. -/
theorem grouped_backward_descriptors_need_seqlen_k :
    (∃ p, set_grouped_backward_params (exBackwardCtx false) defaultGroupedBackwardParams = .ok p ∧
      p.num_batches = 2 ∧
      (p.q_ptrs.length = 2 ∧ p.k_ptrs.length = 2 ∧ p.v_ptrs.length = 2 ∧ p.out_ptrs.length = 2 ∧
        p.grad_out_ptrs.length = 2 ∧ p.logsumexp_ptrs.length = 2 ∧ p.grad_q_ptrs.length = 2 ∧
        p.grad_k_ptrs.length = 2 ∧ p.grad_v_ptrs.length = 2 ∧ p.randvals_ptrs.length = 2) ∧
      p.host_seqstart_q = [0, 2, 5] ∧ p.host_seqstart_k = [0, 3, 7] ∧ p.host_seqlen_k = [] ∧
      grouped_backward_problem_desc false p 0 = none ∧
      grouped_backward_problem_descs false p = none) ∧
    (∃ p descs, set_grouped_backward_params exBackwardCtxSeqlenK defaultGroupedBackwardParams =
        .ok p ∧
      grouped_backward_problem_descs false p = some descs ∧ descs.length = 2 ∧
      (∀ i, i < 2 → grouped_backward_problem_desc false p i = descs[i]?)) :=
  ⟨⟨_, rfl, rfl, ⟨rfl, rfl, rfl, rfl, rfl, rfl, rfl, rfl, rfl, rfl⟩, rfl, rfl, rfl, rfl, rfl⟩,
    ⟨_, _, rfl, rfl, rfl, by
      intro i hi
      interval_cases i <;> rfl⟩⟩

/-- C29: the batched call `exGeneralArgs [1, 1, 2]` has no bias, and
`set_batched_backward_params` yields `has_attn_bias = true` (line 310, with
`attn_bias_ptr = nullptr`), so `batched_backward_bp16` runs the instance
`<bhalf_t, 0, true, false>` compiled for a bias; the lambda sets the field to
`true` on both branches, whatever the bias, whereas the grouped lambda sets it
to `false` for a call without a bias. -/
theorem batched_backward_no_bias_sets_has_attn_bias :
    (∃ s p, (efficient_attention_backward_ck_prepare (exGeneralArgs [1, 1, 2])).result = .ok s ∧
      s.ctx.bias = none ∧
      set_batched_backward_params s.ctx defaultBatchedBackwardParams = .ok p ∧
      p.has_attn_bias = true ∧ p.attn_bias_ptr = none ∧
      batched_backward_bp16 p =
        runKernel (.run_batched_backward_masktype_attnbias_dispatched CkType.bhalf_t 0 true
          false)) ∧
    (∀ (ctx : BackwardCtx) (p0 p : BatchedBackwardParams),
      set_batched_backward_params ctx p0 = .ok p → p.has_attn_bias = true) ∧
    (∃ s p, (efficient_attention_backward_ck_prepare exGroupedBackwardArgs).result = .ok s ∧
      s.ctx.bias = none ∧
      set_grouped_backward_params s.ctx defaultGroupedBackwardParams = .ok p ∧
      p.has_attn_bias = false) :=
  ⟨⟨_, _, rfl, rfl, rfl, rfl, rfl, rfl⟩, set_batched_backward_params_has_attn_bias,
    ⟨_, _, rfl, rfl, rfl, rfl⟩⟩

end Fmha
